import Mathlib

/-! # SHA-512 / HMAC-SHA-512 core of libhmac (portable implementation)

Shallow embedding of `src/libhmac/libhmac_sha512.c` (the branch compiled when
`LIBHMAC_HAVE_SHA512_SUPPORT` is not defined, looped variant of the transform).

Conventions of the embedding
* a byte is a `Nat` below 256, a `uint64_t` is a `Nat` below `2 ^ 64`; every
  store into a `uint64_t` or `size_t` is reduced modulo `2 ^ 64` explicitly;
* a C array is a `List Nat`, read with `getD _ 0` and written with `List.set`;
* a pointer argument is an `Option`: `none` is `NULL`;
* `memory_allocate`, `memory_copy` and `memory_set` are taken to succeed (they
  return their destination), so their failure branches are not reachable;
* functions return the C return value together with the memory they wrote.

The error object of libcerror (`src/libcerror/libcerror_error.c`) and the AES
contexts of libcaes (`src/libcaes/libcaes_context.c`,
`src/libcaes/libcaes_tweaked_context.c`) follow in sections of their own, which
state their conventions where they differ from these.
-/

/-! ## Constants and tables -/

/-- The block size of SHA-512 in bytes (`libhmac_sha512.h`, line 62). -/
def LIBHMAC_SHA512_BLOCK_SIZE : Nat := 128

/-- Modelled from the spec: `LIBHMAC_SHA512_HASH_SIZE` is declared in
`libhmac_definitions.h`, which is not among the sources; the spec fixes the
digest at 64 bytes (`out[0..63]`). -/
def LIBHMAC_SHA512_HASH_SIZE : Nat := 64

/-- Modelled from the spec: `SSIZE_MAX` comes from the platform headers, which
are not among the sources; the value is the one of a platform with a 64-bit
`size_t`, the width the spec uses for every counter. -/
def SSIZE_MAX : Nat := 2 ^ 63 - 1

/-- The first 64 bits of the fractional parts of the square roots of the first
8 primes (`libhmac_sha512.c`, lines 51-54). -/
def libhmac_sha512_prime_square_roots : List Nat :=
  [0x6A09E667F3BCC908, 0xBB67AE8584CAA73B, 0x3C6EF372FE94F82B, 0xA54FF53A5F1D36F1,
   0x510E527FADE682D1, 0x9B05688C2B3E6C1F, 0x1F83D9ABFB41BD6B, 0x5BE0CD19137E2179]

/-- The first 64 bits of the fractional parts of the cube roots of the first
80 primes (`libhmac_sha512.c`, lines 58-79). -/
def libhmac_sha512_prime_cube_roots : List Nat :=
  [0x428A2F98D728AE22, 0x7137449123EF65CD, 0xB5C0FBCFEC4D3B2F, 0xE9B5DBA58189DBBC,
   0x3956C25BF348B538, 0x59F111F1B605D019, 0x923F82A4AF194F9B, 0xAB1C5ED5DA6D8118,
   0xD807AA98A3030242, 0x12835B0145706FBE, 0x243185BE4EE4B28C, 0x550C7DC3D5FFB4E2,
   0x72BE5D74F27B896F, 0x80DEB1FE3B1696B1, 0x9BDC06A725C71235, 0xC19BF174CF692694,
   0xE49B69C19EF14AD2, 0xEFBE4786384F25E3, 0x0FC19DC68B8CD5B5, 0x240CA1CC77AC9C65,
   0x2DE92C6F592B0275, 0x4A7484AA6EA6E483, 0x5CB0A9DCBD41FBD4, 0x76F988DA831153B5,
   0x983E5152EE66DFAB, 0xA831C66D2DB43210, 0xB00327C898FB213F, 0xBF597FC7BEEF0EE4,
   0xC6E00BF33DA88FC2, 0xD5A79147930AA725, 0x06CA6351E003826F, 0x142929670A0E6E70,
   0x27B70A8546D22FFC, 0x2E1B21385C26C926, 0x4D2C6DFC5AC42AED, 0x53380D139D95B3DF,
   0x650A73548BAF63DE, 0x766A0ABB3C77B2A8, 0x81C2C92E47EDAEE6, 0x92722C851482353B,
   0xA2BFE8A14CF10364, 0xA81A664BBC423001, 0xC24B8B70D0F89791, 0xC76C51A30654BE30,
   0xD192E819D6EF5218, 0xD69906245565A910, 0xF40E35855771202A, 0x106AA07032BBD1B8,
   0x19A4C116B8D2D0C8, 0x1E376C085141AB53, 0x2748774CDF8EEB99, 0x34B0BCB5E19B48A8,
   0x391C0CB3C5C95A63, 0x4ED8AA4AE3418ACB, 0x5B9CCA4F7763E373, 0x682E6FF3D6B2B8A3,
   0x748F82EE5DEFB2FC, 0x78A5636F43172F60, 0x84C87814A1F0AB72, 0x8CC702081A6439EC,
   0x90BEFFFA23631E28, 0xA4506CEBDE82BDE9, 0xBEF9A3F7B2C67915, 0xC67178F2E372532B,
   0xCA273ECEEA26619C, 0xD186B8C721C0C207, 0xEADA7DD6CDE0EB1E, 0xF57D4F7FEE6ED178,
   0x06F067AA72176FBA, 0x0A637DC5A2C898A6, 0x113F9804BEF90DAE, 0x1B710B35131C471B,
   0x28DB77F523047D84, 0x32CAAB7B40C72493, 0x3C9EBE0A15C9BEBC, 0x431D67C49C100D4C,
   0x4CC5D4BECB3E42B6, 0x597F299CFC657E2A, 0x5FCB6FAB3AD6FAEC, 0x6C44198C4A475817]

/-! ## Byte stream and memory helpers -/

/-- Modelled from the spec: the macro `byte_stream_bit_rotate_right_64bit` of
`byte_stream.h` is not among the sources; the spec calls it `ROTR`, the
rotation to the right of a 64-bit value. -/
def byte_stream_bit_rotate_right_64bit (value number_of_bits : Nat) : Nat :=
  ((value >>> number_of_bits) ||| (value <<< (64 - number_of_bits))) % 2 ^ 64

/-- Modelled from the spec: the macro `byte_stream_copy_to_uint64_big_endian`
of `byte_stream.h` is not among the sources; the spec reads the 8 bytes at
`byte_stream[offset ..]` as one big-endian 64-bit word. -/
def byte_stream_copy_to_uint64_big_endian (byte_stream : List Nat) (offset : Nat) : Nat :=
  (List.range 8).foldl
    (fun value i => ((value <<< 8) ||| byte_stream.getD (offset + i) 0) % 2 ^ 64) 0

/-- Modelled from the spec: the macro `byte_stream_copy_from_uint64_big_endian`
of `byte_stream.h` is not among the sources; the spec serialises a 64-bit word
big-endian into the 8 bytes at `byte_stream[offset ..]`. -/
def byte_stream_copy_from_uint64_big_endian (byte_stream : List Nat) (offset value : Nat) :
    List Nat :=
  (List.range 8).foldl
    (fun bytes i => bytes.set (offset + i) ((value >>> (56 - 8 * i)) &&& 0xff)) byte_stream

/-- The call `memory_copy( &destination[ offset ], source, size )`: the `size`
bytes at the start of `source` replace the bytes of `destination` from index
`offset` on. Memory is flat: a copy that runs past the end of `destination`
lands in the bytes that follow it, which the model appends to the list. -/
def memory_copy (destination : List Nat) (offset : Nat) (source : List Nat) (size : Nat) :
    List Nat :=
  destination.take offset ++ source.take size ++ destination.drop (offset + size)

/-- The call `memory_set( &destination[ offset ], value, size )`, over flat
memory as for `memory_copy`. -/
def memory_set (destination : List Nat) (offset value size : Nat) : List Nat :=
  destination.take offset ++ List.replicate size value ++ destination.drop (offset + size)

/-! ## The compression function -/

/-- The macro `libhmac_sha512_transform_extend_64bit_value`
(`libhmac_sha512.c`, lines 81-92): one step of the message schedule. -/
def libhmac_sha512_transform_extend_64bit_value (values_64bit : List Nat)
    (value_64bit_index : Nat) : List Nat :=
  let s0 := byte_stream_bit_rotate_right_64bit (values_64bit.getD (value_64bit_index - 15) 0) 1
        ^^^ byte_stream_bit_rotate_right_64bit (values_64bit.getD (value_64bit_index - 15) 0) 8
        ^^^ (values_64bit.getD (value_64bit_index - 15) 0 >>> 7)
  let s1 := byte_stream_bit_rotate_right_64bit (values_64bit.getD (value_64bit_index - 2) 0) 19
        ^^^ byte_stream_bit_rotate_right_64bit (values_64bit.getD (value_64bit_index - 2) 0) 61
        ^^^ (values_64bit.getD (value_64bit_index - 2) 0 >>> 6)
  values_64bit.set value_64bit_index
    ((values_64bit.getD (value_64bit_index - 16) 0 + s0
      + values_64bit.getD (value_64bit_index - 7) 0 + s1) % 2 ^ 64)

/-- The body of the third loop of `libhmac_sha512_transform`
(`libhmac_sha512.c`, lines 405-430): one round on the working copy of the
hash values. `~x` on a `uint64_t` is `x` xor `2 ^ 64 - 1`. -/
def libhmac_sha512_transform_calculate_hash_value (values_64bit : List Nat)
    (hash_values : List Nat) (value_64bit_index : Nat) : List Nat :=
  let s0 := byte_stream_bit_rotate_right_64bit (hash_values.getD 0 0) 28
        ^^^ byte_stream_bit_rotate_right_64bit (hash_values.getD 0 0) 34
        ^^^ byte_stream_bit_rotate_right_64bit (hash_values.getD 0 0) 39
  let s1 := byte_stream_bit_rotate_right_64bit (hash_values.getD 4 0) 14
        ^^^ byte_stream_bit_rotate_right_64bit (hash_values.getD 4 0) 18
        ^^^ byte_stream_bit_rotate_right_64bit (hash_values.getD 4 0) 41
  let t1 := hash_values.getD 7 0
  let t1 := (t1 + s1) % 2 ^ 64
  let t1 := (t1 + (((hash_values.getD 4 0) &&& (hash_values.getD 5 0))
              ^^^ (((hash_values.getD 4 0) ^^^ (2 ^ 64 - 1)) &&& (hash_values.getD 6 0))))
            % 2 ^ 64
  let t1 := (t1 + libhmac_sha512_prime_cube_roots.getD value_64bit_index 0) % 2 ^ 64
  let t1 := (t1 + values_64bit.getD value_64bit_index 0) % 2 ^ 64
  let t2 := s0
  let t2 := (t2 + (((hash_values.getD 0 0) &&& (hash_values.getD 1 0))
              ^^^ ((hash_values.getD 0 0) &&& (hash_values.getD 2 0))
              ^^^ ((hash_values.getD 1 0) &&& (hash_values.getD 2 0)))) % 2 ^ 64
  let hash_values := hash_values.set 7 (hash_values.getD 6 0)
  let hash_values := hash_values.set 6 (hash_values.getD 5 0)
  let hash_values := hash_values.set 5 (hash_values.getD 4 0)
  let hash_values := hash_values.set 4 ((hash_values.getD 3 0 + t1) % 2 ^ 64)
  let hash_values := hash_values.set 3 (hash_values.getD 2 0)
  let hash_values := hash_values.set 2 (hash_values.getD 1 0)
  let hash_values := hash_values.set 1 (hash_values.getD 0 0)
  hash_values.set 0 ((t1 + t2) % 2 ^ 64)

/-- The body of the `while` loop of `libhmac_sha512_transform`
(`libhmac_sha512.c`, lines 323-440, looped variant): the block of 128 bytes at
`buffer[buffer_offset ..]` is folded into the hash values of the context. -/
def libhmac_sha512_transform_block (context_hash_values : List Nat) (buffer : List Nat)
    (buffer_offset : Nat) : List Nat :=
  let hash_values := context_hash_values
  let values_64bit := (List.range 16).foldl
    (fun values i =>
      values.set i (byte_stream_copy_to_uint64_big_endian buffer (buffer_offset + 8 * i)))
    (List.replicate 80 0)
  let values_64bit := (List.range' 16 64).foldl
    libhmac_sha512_transform_extend_64bit_value values_64bit
  let hash_values := (List.range' 0 80).foldl
    (libhmac_sha512_transform_calculate_hash_value values_64bit) hash_values
  (List.range 8).foldl
    (fun context_values i =>
      context_values.set i ((context_values.getD i 0 + hash_values.getD i 0) % 2 ^ 64))
    context_hash_values

/-- The `while( size >= LIBHMAC_SHA512_BLOCK_SIZE )` loop of
`libhmac_sha512_transform`. Every turn lowers `size` by 128, so `size` turns
of fuel are never used up; the result is the hash values and `buffer_offset`. -/
def libhmac_sha512_transform_loop :
    Nat → List Nat → List Nat → Nat → Nat → List Nat × Nat
  | 0, hash_values, _, buffer_offset, _ => (hash_values, buffer_offset)
  | fuel + 1, hash_values, buffer, buffer_offset, size =>
    if size ≥ LIBHMAC_SHA512_BLOCK_SIZE then
      libhmac_sha512_transform_loop fuel
        (libhmac_sha512_transform_block hash_values buffer buffer_offset) buffer
        (buffer_offset + LIBHMAC_SHA512_BLOCK_SIZE) (size - LIBHMAC_SHA512_BLOCK_SIZE)
    else (hash_values, buffer_offset)

/-- The context of the portable implementation (`libhmac_sha512.h`, lines
67-96): `hash_count` is a `uint64_t`, `hash_values` has 8 words, `block_offset`
is a `size_t` and `block` is declared with 128 bytes. -/
structure libhmac_internal_sha512_context where
  hash_count : Nat
  hash_values : List Nat
  block_offset : Nat
  block : List Nat
deriving DecidableEq

/-- The function `libhmac_sha512_transform` (`libhmac_sha512.c`, lines
267-488): returns the number of bytes used or -1, and the context. -/
def libhmac_sha512_transform (internal_context : Option libhmac_internal_sha512_context)
    (buffer : Option (List Nat)) (size : Nat) :
    Int × Option libhmac_internal_sha512_context :=
  match internal_context with
  | none => (-1, none)
  | some ic =>
    match buffer with
    | none => (-1, some ic)
    | some buf =>
      if size > SSIZE_MAX then (-1, some ic)
      else
        let r := libhmac_sha512_transform_loop size ic.hash_values buf 0 size
        ((r.2 : Int), some { ic with hash_values := r.1 })

/-! ## The compression function with unfolded loops

The variant of `libhmac_sha512_transform` that is compiled when
`LIBHMAC_UNFOLLED_LOOPS` is defined. -/

/-- Modelled from the spec: the macro
`libhmac_byte_stream_copy_to_16x_uint64_big_endian` of `libhmac_byte_stream.h`
is not among the sources; the spec takes `W[0..15]` to be the 16 big-endian
64-bit words of the block. -/
def libhmac_byte_stream_copy_to_16x_uint64_big_endian (byte_stream : List Nat)
    (offset : Nat) (values_64bit : List Nat) : List Nat :=
  (List.range 16).foldl
    (fun values i =>
      values.set i (byte_stream_copy_to_uint64_big_endian byte_stream (offset + 8 * i)))
    values_64bit

/-- The macro `libhmac_sha512_transform_unfolded_extend_64bit_values`
(`libhmac_sha512.c`, lines 94-158): the 64 expansions of
`libhmac_sha512_transform_extend_64bit_value`, in order. -/
def libhmac_sha512_transform_unfolded_extend_64bit_values (values_64bit : List Nat) :
    List Nat :=
  List.foldl libhmac_sha512_transform_extend_64bit_value values_64bit
    [16, 17, 18, 19, 20, 21, 22, 23, 24, 25, 26, 27, 28, 29, 30, 31, 32, 33, 34, 35,
     36, 37, 38, 39, 40, 41, 42, 43, 44, 45, 46, 47, 48, 49, 50, 51, 52, 53, 54, 55,
     56, 57, 58, 59, 60, 61, 62, 63, 64, 65, 66, 67, 68, 69, 70, 71, 72, 73, 74, 75,
     76, 77, 78, 79]

/-- The macro `libhmac_sha512_transform_unfolded_calculate_hash_value`
(`libhmac_sha512.c`, lines 160-180): one round that reads the eight working
variables at the indices it is given and writes two of them. -/
def libhmac_sha512_transform_unfolded_calculate_hash_value (values_64bit : List Nat)
    (value_64bit_index : Nat) (hash_values : List Nat)
    (hash_value_index0 hash_value_index1 hash_value_index2 hash_value_index3
      hash_value_index4 hash_value_index5 hash_value_index6 hash_value_index7 : Nat) :
    List Nat :=
  let s0 := byte_stream_bit_rotate_right_64bit (hash_values.getD hash_value_index0 0) 28
        ^^^ byte_stream_bit_rotate_right_64bit (hash_values.getD hash_value_index0 0) 34
        ^^^ byte_stream_bit_rotate_right_64bit (hash_values.getD hash_value_index0 0) 39
  let s1 := byte_stream_bit_rotate_right_64bit (hash_values.getD hash_value_index4 0) 14
        ^^^ byte_stream_bit_rotate_right_64bit (hash_values.getD hash_value_index4 0) 18
        ^^^ byte_stream_bit_rotate_right_64bit (hash_values.getD hash_value_index4 0) 41
  let t1 := hash_values.getD hash_value_index7 0
  let t1 := (t1 + s1) % 2 ^ 64
  let t1 := (t1 + (((hash_values.getD hash_value_index4 0)
                &&& (hash_values.getD hash_value_index5 0))
              ^^^ (((hash_values.getD hash_value_index4 0) ^^^ (2 ^ 64 - 1))
                &&& (hash_values.getD hash_value_index6 0))))
            % 2 ^ 64
  let t1 := (t1 + libhmac_sha512_prime_cube_roots.getD value_64bit_index 0) % 2 ^ 64
  let t1 := (t1 + values_64bit.getD value_64bit_index 0) % 2 ^ 64
  let t2 := s0
  let t2 := (t2 + (((hash_values.getD hash_value_index0 0)
                &&& (hash_values.getD hash_value_index1 0))
              ^^^ ((hash_values.getD hash_value_index0 0)
                &&& (hash_values.getD hash_value_index2 0))
              ^^^ ((hash_values.getD hash_value_index1 0)
                &&& (hash_values.getD hash_value_index2 0)))) % 2 ^ 64
  let hash_values := hash_values.set hash_value_index3
    ((hash_values.getD hash_value_index3 0 + t1) % 2 ^ 64)
  hash_values.set hash_value_index7 ((t1 + t2) % 2 ^ 64)

/-- The arguments of the 80 expansions of
`libhmac_sha512_transform_unfolded_calculate_hash_value` in the macro
`libhmac_sha512_transform_unfolded_calculate_hash_values` (`libhmac_sha512.c`,
lines 182-262), in order: `value_64bit_index`, then `hash_value_index0` to
`hash_value_index7`. -/
def libhmac_sha512_transform_unfolded_calculate_hash_values_arguments :
    List (Nat × Nat × Nat × Nat × Nat × Nat × Nat × Nat × Nat) :=
    [(0, 0, 1, 2, 3, 4, 5, 6, 7), (1, 7, 0, 1, 2, 3, 4, 5, 6),
     (2, 6, 7, 0, 1, 2, 3, 4, 5), (3, 5, 6, 7, 0, 1, 2, 3, 4),
     (4, 4, 5, 6, 7, 0, 1, 2, 3), (5, 3, 4, 5, 6, 7, 0, 1, 2),
     (6, 2, 3, 4, 5, 6, 7, 0, 1), (7, 1, 2, 3, 4, 5, 6, 7, 0),
     (8, 0, 1, 2, 3, 4, 5, 6, 7), (9, 7, 0, 1, 2, 3, 4, 5, 6),
     (10, 6, 7, 0, 1, 2, 3, 4, 5), (11, 5, 6, 7, 0, 1, 2, 3, 4),
     (12, 4, 5, 6, 7, 0, 1, 2, 3), (13, 3, 4, 5, 6, 7, 0, 1, 2),
     (14, 2, 3, 4, 5, 6, 7, 0, 1), (15, 1, 2, 3, 4, 5, 6, 7, 0),
     (16, 0, 1, 2, 3, 4, 5, 6, 7), (17, 7, 0, 1, 2, 3, 4, 5, 6),
     (18, 6, 7, 0, 1, 2, 3, 4, 5), (19, 5, 6, 7, 0, 1, 2, 3, 4),
     (20, 4, 5, 6, 7, 0, 1, 2, 3), (21, 3, 4, 5, 6, 7, 0, 1, 2),
     (22, 2, 3, 4, 5, 6, 7, 0, 1), (23, 1, 2, 3, 4, 5, 6, 7, 0),
     (24, 0, 1, 2, 3, 4, 5, 6, 7), (25, 7, 0, 1, 2, 3, 4, 5, 6),
     (26, 6, 7, 0, 1, 2, 3, 4, 5), (27, 5, 6, 7, 0, 1, 2, 3, 4),
     (28, 4, 5, 6, 7, 0, 1, 2, 3), (29, 3, 4, 5, 6, 7, 0, 1, 2),
     (30, 2, 3, 4, 5, 6, 7, 0, 1), (31, 1, 2, 3, 4, 5, 6, 7, 0),
     (32, 0, 1, 2, 3, 4, 5, 6, 7), (33, 7, 0, 1, 2, 3, 4, 5, 6),
     (34, 6, 7, 0, 1, 2, 3, 4, 5), (35, 5, 6, 7, 0, 1, 2, 3, 4),
     (36, 4, 5, 6, 7, 0, 1, 2, 3), (37, 3, 4, 5, 6, 7, 0, 1, 2),
     (38, 2, 3, 4, 5, 6, 7, 0, 1), (39, 1, 2, 3, 4, 5, 6, 7, 0),
     (40, 0, 1, 2, 3, 4, 5, 6, 7), (41, 7, 0, 1, 2, 3, 4, 5, 6),
     (42, 6, 7, 0, 1, 2, 3, 4, 5), (43, 5, 6, 7, 0, 1, 2, 3, 4),
     (44, 4, 5, 6, 7, 0, 1, 2, 3), (45, 3, 4, 5, 6, 7, 0, 1, 2),
     (46, 2, 3, 4, 5, 6, 7, 0, 1), (47, 1, 2, 3, 4, 5, 6, 7, 0),
     (48, 0, 1, 2, 3, 4, 5, 6, 7), (49, 7, 0, 1, 2, 3, 4, 5, 6),
     (50, 6, 7, 0, 1, 2, 3, 4, 5), (51, 5, 6, 7, 0, 1, 2, 3, 4),
     (52, 4, 5, 6, 7, 0, 1, 2, 3), (53, 3, 4, 5, 6, 7, 0, 1, 2),
     (54, 2, 3, 4, 5, 6, 7, 0, 1), (55, 1, 2, 3, 4, 5, 6, 7, 0),
     (56, 0, 1, 2, 3, 4, 5, 6, 7), (57, 7, 0, 1, 2, 3, 4, 5, 6),
     (58, 6, 7, 0, 1, 2, 3, 4, 5), (59, 5, 6, 7, 0, 1, 2, 3, 4),
     (60, 4, 5, 6, 7, 0, 1, 2, 3), (61, 3, 4, 5, 6, 7, 0, 1, 2),
     (62, 2, 3, 4, 5, 6, 7, 0, 1), (63, 1, 2, 3, 4, 5, 6, 7, 0),
     (64, 0, 1, 2, 3, 4, 5, 6, 7), (65, 7, 0, 1, 2, 3, 4, 5, 6),
     (66, 6, 7, 0, 1, 2, 3, 4, 5), (67, 5, 6, 7, 0, 1, 2, 3, 4),
     (68, 4, 5, 6, 7, 0, 1, 2, 3), (69, 3, 4, 5, 6, 7, 0, 1, 2),
     (70, 2, 3, 4, 5, 6, 7, 0, 1), (71, 1, 2, 3, 4, 5, 6, 7, 0),
     (72, 0, 1, 2, 3, 4, 5, 6, 7), (73, 7, 0, 1, 2, 3, 4, 5, 6),
     (74, 6, 7, 0, 1, 2, 3, 4, 5), (75, 5, 6, 7, 0, 1, 2, 3, 4),
     (76, 4, 5, 6, 7, 0, 1, 2, 3), (77, 3, 4, 5, 6, 7, 0, 1, 2),
     (78, 2, 3, 4, 5, 6, 7, 0, 1), (79, 1, 2, 3, 4, 5, 6, 7, 0)]

/-- The macro `libhmac_sha512_transform_unfolded_calculate_hash_values`
(`libhmac_sha512.c`, lines 182-262). -/
def libhmac_sha512_transform_unfolded_calculate_hash_values (values_64bit : List Nat)
    (hash_values : List Nat) : List Nat :=
  libhmac_sha512_transform_unfolded_calculate_hash_values_arguments.foldl
    (fun hash_values a =>
      libhmac_sha512_transform_unfolded_calculate_hash_value values_64bit a.1 hash_values
        a.2.1 a.2.2.1 a.2.2.2.1 a.2.2.2.2.1 a.2.2.2.2.2.1 a.2.2.2.2.2.2.1
        a.2.2.2.2.2.2.2.1 a.2.2.2.2.2.2.2.2)
    hash_values

/-- The body of the `while` loop of `libhmac_sha512_transform`
(`libhmac_sha512.c`, lines 323-373), unfolded variant. -/
def libhmac_sha512_transform_unfolded_block (context_hash_values : List Nat)
    (buffer : List Nat) (buffer_offset : Nat) : List Nat :=
  let hash_values := context_hash_values
  let values_64bit := libhmac_byte_stream_copy_to_16x_uint64_big_endian buffer buffer_offset
    (List.replicate 80 0)
  let values_64bit := libhmac_sha512_transform_unfolded_extend_64bit_values values_64bit
  let hash_values :=
    libhmac_sha512_transform_unfolded_calculate_hash_values values_64bit hash_values
  let context_hash_values := context_hash_values.set 0
    ((context_hash_values.getD 0 0 + hash_values.getD 0 0) % 2 ^ 64)
  let context_hash_values := context_hash_values.set 1
    ((context_hash_values.getD 1 0 + hash_values.getD 1 0) % 2 ^ 64)
  let context_hash_values := context_hash_values.set 2
    ((context_hash_values.getD 2 0 + hash_values.getD 2 0) % 2 ^ 64)
  let context_hash_values := context_hash_values.set 3
    ((context_hash_values.getD 3 0 + hash_values.getD 3 0) % 2 ^ 64)
  let context_hash_values := context_hash_values.set 4
    ((context_hash_values.getD 4 0 + hash_values.getD 4 0) % 2 ^ 64)
  let context_hash_values := context_hash_values.set 5
    ((context_hash_values.getD 5 0 + hash_values.getD 5 0) % 2 ^ 64)
  let context_hash_values := context_hash_values.set 6
    ((context_hash_values.getD 6 0 + hash_values.getD 6 0) % 2 ^ 64)
  context_hash_values.set 7
    ((context_hash_values.getD 7 0 + hash_values.getD 7 0) % 2 ^ 64)

/-- The `while( size >= LIBHMAC_SHA512_BLOCK_SIZE )` loop of
`libhmac_sha512_transform`, unfolded variant, with `size` turns of fuel as for
the looped variant. -/
def libhmac_sha512_transform_unfolded_loop :
    Nat → List Nat → List Nat → Nat → Nat → List Nat × Nat
  | 0, hash_values, _, buffer_offset, _ => (hash_values, buffer_offset)
  | fuel + 1, hash_values, buffer, buffer_offset, size =>
    if size ≥ LIBHMAC_SHA512_BLOCK_SIZE then
      libhmac_sha512_transform_unfolded_loop fuel
        (libhmac_sha512_transform_unfolded_block hash_values buffer buffer_offset) buffer
        (buffer_offset + LIBHMAC_SHA512_BLOCK_SIZE) (size - LIBHMAC_SHA512_BLOCK_SIZE)
    else (hash_values, buffer_offset)

/-- The function `libhmac_sha512_transform` (`libhmac_sha512.c`, lines
267-488), unfolded variant: returns the number of bytes used or -1, and the
context. -/
def libhmac_sha512_transform_unfolded
    (internal_context : Option libhmac_internal_sha512_context)
    (buffer : Option (List Nat)) (size : Nat) :
    Int × Option libhmac_internal_sha512_context :=
  match internal_context with
  | none => (-1, none)
  | some ic =>
    match buffer with
    | none => (-1, some ic)
    | some buf =>
      if size > SSIZE_MAX then (-1, some ic)
      else
        let r := libhmac_sha512_transform_unfolded_loop size ic.hash_values buf 0 size
        ((r.2 : Int), some { ic with hash_values := r.1 })

/-! ## The incremental interface -/

/-- The function `libhmac_sha512_initialize` (`libhmac_sha512.c`, lines
496-680), portable branch: `context` is the out-parameter, `none` for a NULL
`context`, `some none` for one that points at NULL. The new context is cleared
with `memory_set` and then receives the initial hash values. -/
def libhmac_sha512_initialize (context : Option (Option libhmac_internal_sha512_context)) :
    Int × Option (Option libhmac_internal_sha512_context) :=
  match context with
  | none => (-1, none)
  | some (some c) => (-1, some (some c))
  | some none =>
    let internal_context : libhmac_internal_sha512_context :=
      { hash_count := 0, hash_values := List.replicate 8 0, block_offset := 0,
        block := List.replicate 128 0 }
    let internal_context :=
      { internal_context with
        hash_values := memory_copy internal_context.hash_values 0
          libhmac_sha512_prime_square_roots 8 }
    (1, some (some internal_context))

/-- The last part of `libhmac_sha512_update` (`libhmac_sha512.c`, lines
982-1012): the bytes left over after the whole blocks go into the block of the
context. -/
def libhmac_sha512_update_remainder (internal_context : libhmac_internal_sha512_context)
    (buffer : List Nat) (buffer_offset size : Nat) :
    Int × libhmac_internal_sha512_context :=
  if size > 0 then
    if size ≥ LIBHMAC_SHA512_BLOCK_SIZE then (-1, internal_context)
    else
      let internal_context := { internal_context with
        block := memory_copy internal_context.block 0 (buffer.drop buffer_offset) size }
      (1, { internal_context with block_offset := size })
  else (1, internal_context)

/-- The middle part of `libhmac_sha512_update` (`libhmac_sha512.c`, lines
958-981): the whole blocks of `&( buffer[ buffer_offset ] )` are transformed,
then the remainder is handled. -/
def libhmac_sha512_update_blocks (internal_context : libhmac_internal_sha512_context)
    (buffer : List Nat) (buffer_offset size : Nat) :
    Int × libhmac_internal_sha512_context :=
  if size > 0 then
    let r := libhmac_sha512_transform (some internal_context)
      (some (buffer.drop buffer_offset)) size
    let process_count := r.1
    let internal_context := r.2.getD internal_context
    if process_count = -1 then (-1, internal_context)
    else
      let internal_context := { internal_context with
        hash_count := (internal_context.hash_count + process_count.toNat) % 2 ^ 64 }
      libhmac_sha512_update_remainder internal_context buffer
        (buffer_offset + process_count.toNat) (size - process_count.toNat)
  else libhmac_sha512_update_remainder internal_context buffer buffer_offset size

/-- The function `libhmac_sha512_update` (`libhmac_sha512.c`, lines 754-1013),
portable branch. Subtractions of `size_t` values wrap modulo `2 ^ 64`. The
result is the return value and the context after the call. -/
def libhmac_sha512_update (context : Option libhmac_internal_sha512_context)
    (buffer : Option (List Nat)) (size : Nat) :
    Int × Option libhmac_internal_sha512_context :=
  match context with
  | none => (-1, none)
  | some internal_context =>
    match buffer with
    | none => (-1, some internal_context)
    | some buf =>
      if size = 0 then (1, some internal_context)
      else if size > SSIZE_MAX then (-1, some internal_context)
      else if internal_context.block_offset > 0 then
        let remaining_block_size :=
          (LIBHMAC_SHA512_BLOCK_SIZE + 2 ^ 64 - internal_context.block_offset) % 2 ^ 64
        let remaining_block_size :=
          if remaining_block_size > size then size else remaining_block_size
        let internal_context := { internal_context with
          block := memory_copy internal_context.block internal_context.block_offset buf
            remaining_block_size }
        let internal_context := { internal_context with
          block_offset := (internal_context.block_offset + remaining_block_size) % 2 ^ 64 }
        if internal_context.block_offset < LIBHMAC_SHA512_BLOCK_SIZE then
          (1, some internal_context)
        else
          let buffer_offset := 0 + remaining_block_size
          let size := size - remaining_block_size
          let r := libhmac_sha512_transform (some internal_context)
            (some internal_context.block) LIBHMAC_SHA512_BLOCK_SIZE
          let process_count := r.1
          let internal_context := r.2.getD internal_context
          if process_count = -1 then (-1, some internal_context)
          else
            let internal_context := { internal_context with
              hash_count := (internal_context.hash_count + process_count.toNat) % 2 ^ 64 }
            let internal_context := { internal_context with block_offset := 0 }
            let r := libhmac_sha512_update_blocks internal_context buf buffer_offset size
            (r.1, some r.2)
      else
        let r := libhmac_sha512_update_blocks internal_context buf 0 size
        (r.1, some r.2)

/-- The return value with which the model marks a call that has no defined
behaviour in C: a call of `libhmac_sha512_finalize` whose padding leaves the 128
bytes of `block`. No function of libhmac returns this value (they return 1 or
-1). A function that gets it from a callee hands it on, and the model says
nothing about the memory after such a call: the context and the output buffer
of the result are `none`. -/
def libhmac_undefined_behaviour : Int := 0

/-- The padding part of `libhmac_sha512_finalize` (`libhmac_sha512.c`, lines
1214-1246): the context with the padding written at `block[ block_offset ]`,
and `block_size`. The padding is written into the memory that starts at
`block[ 0 ]`: when `number_of_blocks` is 2, the 256 bytes reach past the 128
bytes declared for `block`; the list then shows where the writes go, and
`libhmac_sha512_finalize` gives such a call no result (see
`libhmac_sha512_finalize_in_bounds`). -/
def libhmac_sha512_finalize_padding (internal_context : libhmac_internal_sha512_context) :
    libhmac_internal_sha512_context × Nat :=
  let number_of_blocks := 1
  let number_of_blocks :=
    if internal_context.block_offset > 119 then number_of_blocks + 1 else number_of_blocks
  let block_size := number_of_blocks * LIBHMAC_SHA512_BLOCK_SIZE
  let internal_context := { internal_context with
    block := memory_set internal_context.block internal_context.block_offset 0
      ((block_size + 2 ^ 64 - internal_context.block_offset) % 2 ^ 64) }
  let internal_context := { internal_context with
    block := internal_context.block.set internal_context.block_offset 0x80 }
  let bit_size :=
    ((internal_context.hash_count + internal_context.block_offset) * 8) % 2 ^ 64
  let internal_context := { internal_context with
    block := byte_stream_copy_from_uint64_big_endian internal_context.block
      (block_size - 8) bit_size }
  (internal_context, block_size)

/-- The indices of `block` that the padding part of `libhmac_sha512_finalize`
(`libhmac_sha512.c`, lines 1214-1252) writes or reads: the bytes that
`memory_set` clears, the byte that receives 0x80, the eight bytes that receive
the bit size, and the `block_size` bytes that `libhmac_sha512_transform` is
given. -/
def libhmac_sha512_finalize_block_indices
    (internal_context : libhmac_internal_sha512_context) : List Nat :=
  let number_of_blocks := 1
  let number_of_blocks :=
    if internal_context.block_offset > 119 then number_of_blocks + 1 else number_of_blocks
  let block_size := number_of_blocks * LIBHMAC_SHA512_BLOCK_SIZE
  List.range' internal_context.block_offset
      ((block_size + 2 ^ 64 - internal_context.block_offset) % 2 ^ 64)
    ++ [internal_context.block_offset]
    ++ List.range' (block_size - 8) 8
    ++ List.range' 0 block_size

/-- Whether the padding part of `libhmac_sha512_finalize` stays within the
array `block`, which is declared as `uint8_t block[ 128 ]`
(`libhmac_sha512.h`, line 94) and is the last member of the context: every
index that the padding writes or hands to `libhmac_sha512_transform` is below
128. -/
def libhmac_sha512_finalize_in_bounds
    (internal_context : libhmac_internal_sha512_context) : Bool :=
  (libhmac_sha512_finalize_block_indices internal_context).all
    (fun i => decide (i < LIBHMAC_SHA512_BLOCK_SIZE))

/-- The function `libhmac_sha512_finalize` (`libhmac_sha512.c`, lines
1018-1329), portable branch. `hash` is the output buffer (`none` for NULL).
The result is the return value, the context after the call and the output
buffer after the call. When the padding would leave the 128 bytes of `block`
the C writes past the end of the context, which has no defined behaviour: the
model gives the result `(libhmac_undefined_behaviour, none, none)`. -/
def libhmac_sha512_finalize (context : Option libhmac_internal_sha512_context)
    (hash : Option (List Nat)) (hash_size : Nat) :
    Int × Option libhmac_internal_sha512_context × Option (List Nat) :=
  match context with
  | none => (-1, none, hash)
  | some internal_context =>
    match hash with
    | none => (-1, some internal_context, none)
    | some out =>
      if hash_size < LIBHMAC_SHA512_HASH_SIZE then (-1, some internal_context, some out)
      else if hash_size > SSIZE_MAX then (-1, some internal_context, some out)
      else if hash_size < LIBHMAC_SHA512_HASH_SIZE then (-1, some internal_context, some out)
      else if libhmac_sha512_finalize_in_bounds internal_context = false then
        (libhmac_undefined_behaviour, none, none)
      else
        let padded := libhmac_sha512_finalize_padding internal_context
        let internal_context := padded.1
        let block_size := padded.2
        let r := libhmac_sha512_transform (some internal_context)
          (some internal_context.block) block_size
        let process_count := r.1
        let internal_context := r.2.getD internal_context
        if process_count = -1 then (-1, some internal_context, some out)
        else
          let out := (List.range 8).foldl
            (fun bytes hash_values_index =>
              byte_stream_copy_from_uint64_big_endian bytes (8 * hash_values_index)
                (internal_context.hash_values.getD hash_values_index 0)) out
          let internal_context : libhmac_internal_sha512_context :=
            { hash_count := 0, hash_values := List.replicate 8 0, block_offset := 0,
              block := List.replicate 128 0 }
          (1, some internal_context, some out)

/-- The function `libhmac_sha512_free` (`libhmac_sha512.c`, lines 685-749),
portable branch: a non-NULL `*context` is released and set to NULL. -/
def libhmac_sha512_free (context : Option (Option libhmac_internal_sha512_context)) :
    Int × Option (Option libhmac_internal_sha512_context) :=
  match context with
  | none => (-1, none)
  | some _ => (1, some none)

/-- The function `libhmac_sha512_calculate` (`libhmac_sha512.c`, lines
1334-1410): the return value and the output buffer after the call. A call of
`libhmac_sha512_finalize` without defined behaviour leaves this call without
one: `(libhmac_undefined_behaviour, none)`. -/
def libhmac_sha512_calculate (buffer : Option (List Nat)) (size : Nat)
    (hash : Option (List Nat)) (hash_size : Nat) : Int × Option (List Nat) :=
  let context : Option libhmac_internal_sha512_context := none
  let r := libhmac_sha512_initialize (some context)
  if r.1 ≠ 1 then (-1, hash)
  else
    let context := r.2.getD none
    let r := libhmac_sha512_update context buffer size
    if r.1 ≠ 1 then (-1, hash)
    else
      let context := r.2
      let r := libhmac_sha512_finalize context hash hash_size
      if r.1 = libhmac_undefined_behaviour then (libhmac_undefined_behaviour, none)
      else
        let hash := r.2.2
        if r.1 ≠ 1 then (-1, hash)
        else
          let context := r.2.1
          let r := libhmac_sha512_free (some context)
          if r.1 ≠ 1 then (-1, hash) else (1, hash)

/-- The key part of `libhmac_sha512_calculate_hmac` (`libhmac_sha512.c`, lines
1468-1602): 1 and `key_data`, made of the key, or of its hash when the key is
longer than `block_size`; -1 when a step fails (the `goto on_error`);
`libhmac_undefined_behaviour` when the call of `libhmac_sha512_finalize` has no
defined behaviour. `key_data` and `key_hash` hold indeterminate bytes when they
are created (the model starts them at 0); all of their bytes are written before
they are read. -/
def libhmac_sha512_calculate_hmac_key_data (key : List Nat) (key_size block_size : Nat) :
    Int × Option (List Nat) :=
  let key_hash : List Nat := List.replicate LIBHMAC_SHA512_HASH_SIZE 0
  let context : Option libhmac_internal_sha512_context := none
  let key_data : List Nat := List.replicate block_size 0
  if key_size ≤ block_size then
    let key_data := memory_copy key_data 0 key key_size
    (1, some (memory_set key_data key_size 0 (block_size - key_size)))
  else
    let r := libhmac_sha512_initialize (some context)
    if r.1 ≠ 1 then (-1, none)
    else
      let context := r.2.getD none
      let r := libhmac_sha512_update context (some key) key_size
      if r.1 ≠ 1 then (-1, none)
      else
        let context := r.2
        let r := libhmac_sha512_finalize context (some key_hash) LIBHMAC_SHA512_HASH_SIZE
        if r.1 = libhmac_undefined_behaviour then (libhmac_undefined_behaviour, none)
        else if r.1 ≠ 1 then (-1, none)
        else
          let key_hash := r.2.2.getD key_hash
          let context := r.2.1
          let r := libhmac_sha512_free (some context)
          if r.1 ≠ 1 then (-1, none)
          else
            let key_data :=
              if block_size > LIBHMAC_SHA512_HASH_SIZE then
                memory_set key_data LIBHMAC_SHA512_HASH_SIZE 0
                  (block_size - LIBHMAC_SHA512_HASH_SIZE)
              else key_data
            (1, some (memory_copy key_data 0 key_hash LIBHMAC_SHA512_HASH_SIZE))

/-- The hashing part of `libhmac_sha512_calculate_hmac` (`libhmac_sha512.c`,
lines 1603-1865): the inner and the outer padding are made from `key_data`,
the inner hash goes through the output buffer `hmac`, the outer hash ends in
it. The result is the return value and `hmac` after the call;
`(libhmac_undefined_behaviour, none)` when a call of `libhmac_sha512_finalize`
has no defined behaviour. -/
def libhmac_sha512_calculate_hmac_hashes (key_data : List Nat) (block_size : Nat)
    (buffer : Option (List Nat)) (size : Nat) (hmac : Option (List Nat)) (hmac_size : Nat) :
    Int × Option (List Nat) :=
  let context : Option libhmac_internal_sha512_context := none
  let inner_padding := memory_set (List.replicate block_size 0) 0 0x36 block_size
  let outer_padding := memory_set (List.replicate block_size 0) 0 0x5c block_size
  let inner_padding := (List.range block_size).foldl
    (fun padding block_index =>
      padding.set block_index (padding.getD block_index 0 ^^^ key_data.getD block_index 0))
    inner_padding
  let outer_padding := (List.range block_size).foldl
    (fun padding block_index =>
      padding.set block_index (padding.getD block_index 0 ^^^ key_data.getD block_index 0))
    outer_padding
  let r := libhmac_sha512_initialize (some context)
  if r.1 ≠ 1 then (-1, hmac)
  else
    let context := r.2.getD none
    let r := libhmac_sha512_update context (some inner_padding) block_size
    if r.1 ≠ 1 then (-1, hmac)
    else
      let context := r.2
      let r := libhmac_sha512_update context buffer size
      if r.1 ≠ 1 then (-1, hmac)
      else
        let context := r.2
        let r := libhmac_sha512_finalize context hmac hmac_size
        if r.1 = libhmac_undefined_behaviour then (libhmac_undefined_behaviour, none)
        else
          let hmac := r.2.2
          if r.1 ≠ 1 then (-1, hmac)
          else
            let context := r.2.1
            let r := libhmac_sha512_free (some context)
            if r.1 ≠ 1 then (-1, hmac)
            else
              let context := r.2.getD none
              let r := libhmac_sha512_initialize (some context)
              if r.1 ≠ 1 then (-1, hmac)
              else
                let context := r.2.getD none
                let r := libhmac_sha512_update context (some outer_padding) block_size
                if r.1 ≠ 1 then (-1, hmac)
                else
                  let context := r.2
                  let r := libhmac_sha512_update context hmac LIBHMAC_SHA512_HASH_SIZE
                  if r.1 ≠ 1 then (-1, hmac)
                  else
                    let context := r.2
                    let r := libhmac_sha512_finalize context hmac hmac_size
                    if r.1 = libhmac_undefined_behaviour then
                      (libhmac_undefined_behaviour, none)
                    else
                      let hmac := r.2.2
                      if r.1 ≠ 1 then (-1, hmac)
                      else
                        let context := r.2.1
                        let r := libhmac_sha512_free (some context)
                        if r.1 ≠ 1 then (-1, hmac) else (1, hmac)

/-- The function `libhmac_sha512_calculate_hmac` (`libhmac_sha512.c`, lines
1416-1905): the return value and the output buffer `hmac` after the call.
`block_size` is the local variable of the function, set to 64 on line 1433.
A call of `libhmac_sha512_finalize` without defined behaviour leaves this call
without one: `(libhmac_undefined_behaviour, none)`. -/
def libhmac_sha512_calculate_hmac (key : Option (List Nat)) (key_size : Nat)
    (buffer : Option (List Nat)) (size : Nat) (hmac : Option (List Nat)) (hmac_size : Nat) :
    Int × Option (List Nat) :=
  let block_size := 64
  match key with
  | none => (-1, hmac)
  | some key_bytes =>
    if key_size > SSIZE_MAX then (-1, hmac)
    else if hmac_size < LIBHMAC_SHA512_HASH_SIZE then (-1, hmac)
    else
      let prepared := libhmac_sha512_calculate_hmac_key_data key_bytes key_size block_size
      if prepared.1 = libhmac_undefined_behaviour then (libhmac_undefined_behaviour, none)
      else
        match prepared.2 with
        | none => (-1, hmac)
        | some key_data =>
          libhmac_sha512_calculate_hmac_hashes key_data block_size buffer size hmac hmac_size

/-! ## The error object of libcerror

Shallow embedding of `src/libcerror/libcerror_error.c` (narrow system
characters). A character is a `Nat`; a string is the list of its characters,
the end-of-string character is written where the code reads or writes it.
`memory_allocate` and `memory_reallocate` are taken to succeed. -/

/-- The constants of `libcerror_definitions.h` that the functions below use.
The header is not among the sources, so the functions take its constants as a
parameter and assume nothing about their values. -/
structure libcerror_definitions where
  LIBCERROR_MESSAGE_INCREMENT_SIZE : Nat
  LIBCERROR_MESSAGE_MAXIMUM_SIZE : Nat
  LIBCERROR_ERROR_DOMAIN_ARGUMENTS : Int
  LIBCERROR_ERROR_DOMAIN_MEMORY : Int
  LIBCERROR_ERROR_DOMAIN_RUNTIME : Int
  LIBCERROR_ARGUMENT_ERROR_INVALID_VALUE : Int
  LIBCERROR_ARGUMENT_ERROR_VALUE_EXCEEDS_MAXIMUM : Int
  LIBCERROR_ARGUMENT_ERROR_VALUE_TOO_SMALL : Int
  LIBCERROR_ARGUMENT_ERROR_UNSUPPORTED_VALUE : Int
  LIBCERROR_MEMORY_ERROR_INSUFFICIENT : Int
  LIBCERROR_MEMORY_ERROR_COPY_FAILED : Int
  LIBCERROR_MEMORY_ERROR_SET_FAILED : Int
  LIBCERROR_RUNTIME_ERROR_VALUE_MISSING : Int
  LIBCERROR_RUNTIME_ERROR_VALUE_ALREADY_SET : Int
  LIBCERROR_RUNTIME_ERROR_INITIALIZE_FAILED : Int
  LIBCERROR_RUNTIME_ERROR_FINALIZE_FAILED : Int
  LIBCERROR_RUNTIME_ERROR_GET_FAILED : Int
  LIBCERROR_RUNTIME_ERROR_SET_FAILED : Int
  LIBCERROR_RUNTIME_ERROR_COPY_FAILED : Int
  LIBCERROR_RUNTIME_ERROR_VALUE_OUT_OF_BOUNDS : Int
  LIBCERROR_RUNTIME_ERROR_VALUE_EXCEEDS_MAXIMUM : Int
  LIBCERROR_RUNTIME_ERROR_UNSUPPORTED_VALUE : Int

/-- The structure `libcerror_internal_error` (`libcerror_error.h`, lines
39-60). `messages` and `sizes` are pointers to arrays (`none` is NULL), and
every message is a pointer to a string. -/
structure libcerror_internal_error where
  domain : Int
  code : Int
  number_of_messages : Int
  messages : Option (List (Option (List Nat)))
  sizes : Option (List Nat)
deriving DecidableEq

/-- The characters of a string literal of the sources. -/
def narrow_string (text : String) : List Nat :=
  text.toList.map Char.toNat

/-- The function `memory_reallocate` on an array, when it succeeds: the result
has `number_of_elements` elements, those of the old array first; the elements
that are new hold indeterminate values (`filler` in the model). -/
def memory_reallocate {α : Type} (buffer : Option (List α)) (number_of_elements : Nat)
    (filler : α) : List α :=
  (buffer.getD []).take number_of_elements
    ++ List.replicate (number_of_elements - (buffer.getD []).length) filler

/-- The function `libcerror_error_initialize` (`libcerror_error.c`, lines
46-77): the return value and `*error` after the call. -/
def libcerror_error_initialize (error : Option (Option libcerror_internal_error))
    (error_domain error_code : Int) : Int × Option (Option libcerror_internal_error) :=
  match error with
  | none => (-1, none)
  | some (some e) => (-1, some (some e))
  | some none =>
    (1, some (some { domain := error_domain, code := error_code, number_of_messages := 0,
                     messages := none, sizes := none }))

/-- The function `libcerror_error_resize` (`libcerror_error.c`, lines
125-166): the return value and the error after the call. -/
def libcerror_error_resize (internal_error : Option libcerror_internal_error) :
    Int × Option libcerror_internal_error :=
  match internal_error with
  | none => (-1, none)
  | some e =>
    let message_index := e.number_of_messages
    let number_of_messages := e.number_of_messages + 1
    let messages := memory_reallocate e.messages number_of_messages.toNat none
    let messages := messages.set message_index.toNat none
    let sizes := memory_reallocate e.sizes number_of_messages.toNat 0
    let sizes := sizes.set message_index.toNat 0
    (1, some { e with messages := some messages, sizes := some sizes,
                      number_of_messages := e.number_of_messages + 1 })

/-- The local variables of `libcerror_error_set` that its loop changes. -/
structure libcerror_error_set_variables where
  error_string : Option (List Nat)
  error_string_size : Nat
  message_size : Nat
  next_message_size : Nat
  print_count : Int
deriving DecidableEq

/-- The `do ... while` loop of `libcerror_error_set` (`libcerror_error.c`,
lines 377-433). `system_string_vsnprintf error_string message_size` stands for
the call of `vsnprintf` on the format string and the arguments of this call of
`libcerror_error_set`: it gives the return value and the string buffer after
the call. The first argument bounds the number of turns; the result says
whether the loop was left by its own condition or its `break` (`true`) or
because the turns were used up (`false`). -/
def libcerror_error_set_loop (D : libcerror_definitions)
    (system_string_vsnprintf : List Nat → Nat → Int × List Nat) :
    Nat → libcerror_error_set_variables → libcerror_error_set_variables × Bool
  | 0, v => (v, false)
  | turns + 1, v =>
    let v :=
      if v.next_message_size ≥ D.LIBCERROR_MESSAGE_MAXIMUM_SIZE then
        { v with next_message_size := D.LIBCERROR_MESSAGE_MAXIMUM_SIZE }
      else v
    let v := { v with
      error_string := some (memory_reallocate v.error_string v.next_message_size 0) }
    let v := { v with message_size := v.next_message_size }
    let r := system_string_vsnprintf (v.error_string.getD []) v.message_size
    let v := { v with print_count := r.1, error_string := some r.2 }
    let v :=
      if v.print_count ≤ -1 then
        { v with next_message_size :=
            (v.next_message_size + D.LIBCERROR_MESSAGE_INCREMENT_SIZE) % 2 ^ 64 }
      else if v.print_count.toNat ≥ v.message_size
          ∨ (v.error_string.getD []).getD v.print_count.toNat 0 ≠ 0 then
        { v with next_message_size := (v.print_count + 1).toNat % 2 ^ 64, print_count := -1 }
      else
        { v with error_string_size := (v.print_count.toNat + 1) % 2 ^ 64 }
    if v.message_size ≥ D.LIBCERROR_MESSAGE_MAXIMUM_SIZE then (v, true)
    else if v.print_count ≤ -1 then libcerror_error_set_loop D system_string_vsnprintf turns v
    else (v, true)

/-- The part of `libcerror_error_set` that makes the string of the message
(`libcerror_error.c`, lines 369-442): the first size to try, the loop, which
gets one more turn than `LIBCERROR_MESSAGE_MAXIMUM_SIZE`, and the truncation
of a string of the maximum size. `error_string` is the pointer found in
`messages[ message_index ]`. The result has the loop variables after the part
and tells whether the loop was left by itself. -/
def libcerror_error_set_string (D : libcerror_definitions) (format_string_length : Nat)
    (error_string : Option (List Nat))
    (system_string_vsnprintf : List Nat → Nat → Int × List Nat) :
    libcerror_error_set_variables × Bool :=
  let next_message_size := D.LIBCERROR_MESSAGE_INCREMENT_SIZE
  let next_message_size :=
    if format_string_length > next_message_size then
      ((format_string_length / D.LIBCERROR_MESSAGE_INCREMENT_SIZE + 1)
        * D.LIBCERROR_MESSAGE_INCREMENT_SIZE) % 2 ^ 64
    else next_message_size
  let r := libcerror_error_set_loop D system_string_vsnprintf
    (D.LIBCERROR_MESSAGE_MAXIMUM_SIZE + 1)
    { error_string := error_string, error_string_size := 0, message_size := 0,
      next_message_size := next_message_size, print_count := 0 }
  let v := r.1
  if v.message_size ≥ D.LIBCERROR_MESSAGE_MAXIMUM_SIZE then
    let s := v.error_string.getD []
    let s := s.set ((D.LIBCERROR_MESSAGE_MAXIMUM_SIZE + 2 ^ 64 - 4) % 2 ^ 64) 0x2E
    let s := s.set ((D.LIBCERROR_MESSAGE_MAXIMUM_SIZE + 2 ^ 64 - 3) % 2 ^ 64) 0x2E
    let s := s.set ((D.LIBCERROR_MESSAGE_MAXIMUM_SIZE + 2 ^ 64 - 2) % 2 ^ 64) 0x2E
    let s := s.set ((D.LIBCERROR_MESSAGE_MAXIMUM_SIZE + 2 ^ 64 - 1) % 2 ^ 64) 0
    ({ v with error_string := some s,
              error_string_size := D.LIBCERROR_MESSAGE_MAXIMUM_SIZE }, r.2)
  else (v, r.2)

/-- The function `libcerror_error_set` (`libcerror_error.c`, lines 303-463):
`*error` after the call (`none` when `error` itself is NULL). `format_string`
holds the characters before the end-of-string character. -/
def libcerror_error_set (D : libcerror_definitions)
    (error : Option (Option libcerror_internal_error)) (error_domain error_code : Int)
    (format_string : Option (List Nat))
    (system_string_vsnprintf : List Nat → Nat → Int × List Nat) :
    Option (Option libcerror_internal_error) :=
  match error with
  | none => none
  | some error_value =>
    match format_string with
    | none => some error_value
    | some format =>
      let format_string_length := format.length
      let r : Int × Option (Option libcerror_internal_error) :=
        match error_value with
        | none => libcerror_error_initialize (some none) error_domain error_code
        | some e => (1, some (some e))
      if r.1 ≠ 1 then r.2
      else
        let r := libcerror_error_resize (r.2.getD none)
        if r.1 ≠ 1 then some r.2
        else
          match r.2 with
          | none => some none
          | some internal_error =>
            let message_index := internal_error.number_of_messages - 1
            let error_string := (internal_error.messages.getD []).getD message_index.toNat none
            let v := (libcerror_error_set_string D format_string_length error_string
              system_string_vsnprintf).1
            some (some { internal_error with
              messages :=
                some ((internal_error.messages.getD []).set message_index.toNat v.error_string),
              sizes :=
                some ((internal_error.sizes.getD []).set message_index.toNat
                  v.error_string_size) })

/-- Modelled from the C standard (C99, 7.19.6.12): the function `vsnprintf`
when the format string and the arguments expand to `text`. At most
`message_size - 1` characters of `text` are written, followed by the
end-of-string character; the return value is the length of `text`. -/
def system_string_vsnprintf (text : List Nat) (error_string : List Nat) (message_size : Nat) :
    Int × List Nat :=
  if message_size = 0 then ((text.length : Int), error_string)
  else
    ((text.length : Int),
     memory_copy error_string 0 (text.take (message_size - 1) ++ [0])
       ((text.take (message_size - 1)).length + 1))

/-- The calls of the sources that have the shape
`libcerror_error_set( error, domain, code, "%s" message, function )`: the
format string is `"%s"` followed by `message`, and it expands to `function`
followed by `message`. -/
def libcerror_error_set_message (D : libcerror_definitions)
    (error : Option (Option libcerror_internal_error)) (error_domain error_code : Int)
    (function message : String) : Option (Option libcerror_internal_error) :=
  libcerror_error_set D error error_domain error_code
    (some (narrow_string "%s" ++ narrow_string message))
    (system_string_vsnprintf (narrow_string function ++ narrow_string message))

/-- Modelled from the C library: the constant `INT_MAX` of `limits.h`, for an
`int` of 32 bits. -/
def INT_MAX : Nat := 2 ^ 31 - 1

/-- The function `libcerror_error_sprint` (`libcerror_error.c`, lines 539-638),
for narrow system characters and `INT_MAX < SSIZE_MAX`: the return value and
the string after the call. The macro `narrow_string_copy` of `narrow_string.h`
is not among the sources and is a parameter: it gives the destination after
the copy of `size` characters, or `none` when it returns NULL. -/
def libcerror_error_sprint
    (narrow_string_copy : List Nat → List Nat → Nat → Option (List Nat))
    (error : Option libcerror_internal_error) (string : Option (List Nat)) (size : Nat) :
    Int × Option (List Nat) :=
  match error with
  | none => (-1, string)
  | some internal_error =>
    match internal_error.messages with
    | none => (-1, string)
    | some messages =>
      match internal_error.sizes with
      | none => (-1, string)
      | some sizes =>
        match string with
        | none => (-1, none)
        | some characters =>
          if size > INT_MAX then (-1, some characters)
          else
            let message_index := ((internal_error.number_of_messages - 1) % 2 ^ 64).toNat
            let error_string := messages.getD message_index none
            match error_string with
            | some error_characters =>
              let error_string_size := sizes.getD message_index 0
              if size < (error_string_size + 1) % 2 ^ 64 then (-1, some characters)
              else
                match narrow_string_copy characters error_characters error_string_size with
                | none => (-1, some characters)
                | some copied =>
                  let print_count := error_string_size
                  if print_count > INT_MAX then (-1, some copied)
                  else ((print_count : Int), some copied)
            | none => (0, some characters)

/-- The error after `libhmac_sha512_initialize` (`libhmac_sha512.c`, lines
503-524): the calls of `libcerror_error_set` on the branches of
`libhmac_sha512_initialize` above, which gives the return value and the
context. -/
def libhmac_sha512_initialize_error (D : libcerror_definitions)
    (context : Option (Option libhmac_internal_sha512_context))
    (error : Option (Option libcerror_internal_error)) :
    Option (Option libcerror_internal_error) :=
  let function := "libhmac_sha512_initialize"
  match context with
  | none =>
    libcerror_error_set_message D error D.LIBCERROR_ERROR_DOMAIN_ARGUMENTS
      D.LIBCERROR_ARGUMENT_ERROR_INVALID_VALUE function ": invalid context."
  | some (some _) =>
    libcerror_error_set_message D error D.LIBCERROR_ERROR_DOMAIN_RUNTIME
      D.LIBCERROR_RUNTIME_ERROR_VALUE_ALREADY_SET function
      ": invalid context value already set."
  | some none => error

/-- The error after `libhmac_sha512_transform` (`libhmac_sha512.c`, lines
288-321): the calls of `libcerror_error_set` on the branches of
`libhmac_sha512_transform` above. -/
def libhmac_sha512_transform_error (D : libcerror_definitions)
    (internal_context : Option libhmac_internal_sha512_context)
    (buffer : Option (List Nat)) (size : Nat)
    (error : Option (Option libcerror_internal_error)) :
    Option (Option libcerror_internal_error) :=
  let function := "libhmac_sha512_transform"
  match internal_context with
  | none =>
    libcerror_error_set_message D error D.LIBCERROR_ERROR_DOMAIN_ARGUMENTS
      D.LIBCERROR_ARGUMENT_ERROR_INVALID_VALUE function ": invalid internal context."
  | some _ =>
    match buffer with
    | none =>
      libcerror_error_set_message D error D.LIBCERROR_ERROR_DOMAIN_ARGUMENTS
        D.LIBCERROR_ARGUMENT_ERROR_INVALID_VALUE function ": invalid buffer."
    | some _ =>
      if size > SSIZE_MAX then
        libcerror_error_set_message D error D.LIBCERROR_ERROR_DOMAIN_ARGUMENTS
          D.LIBCERROR_ARGUMENT_ERROR_VALUE_EXCEEDS_MAXIMUM function
          ": invalid size value exceeds maximum."
      else error

/-- The error after the last part of `libhmac_sha512_update`
(`libhmac_sha512.c`, lines 982-1012). -/
def libhmac_sha512_update_remainder_error (D : libcerror_definitions) (size : Nat)
    (error : Option (Option libcerror_internal_error)) :
    Option (Option libcerror_internal_error) :=
  if size > 0 then
    if size ≥ LIBHMAC_SHA512_BLOCK_SIZE then
      libcerror_error_set_message D error D.LIBCERROR_ERROR_DOMAIN_RUNTIME
        D.LIBCERROR_RUNTIME_ERROR_VALUE_OUT_OF_BOUNDS "libhmac_sha512_update"
        ": invalid size value out of bounds."
    else error
  else error

/-- The error after the middle and last part of `libhmac_sha512_update`
(`libhmac_sha512.c`, lines 958-1012). -/
def libhmac_sha512_update_blocks_error (D : libcerror_definitions)
    (internal_context : libhmac_internal_sha512_context) (buffer : List Nat)
    (buffer_offset size : Nat) (error : Option (Option libcerror_internal_error)) :
    Option (Option libcerror_internal_error) :=
  if size > 0 then
    let r := libhmac_sha512_transform (some internal_context)
      (some (buffer.drop buffer_offset)) size
    let error := libhmac_sha512_transform_error D (some internal_context)
      (some (buffer.drop buffer_offset)) size error
    let process_count := r.1
    if process_count = -1 then
      libcerror_error_set_message D error D.LIBCERROR_ERROR_DOMAIN_RUNTIME
        D.LIBCERROR_RUNTIME_ERROR_SET_FAILED "libhmac_sha512_update"
        ": unable to transform buffer."
    else libhmac_sha512_update_remainder_error D (size - process_count.toNat) error
  else libhmac_sha512_update_remainder_error D size error

/-- The error after `libhmac_sha512_update` (`libhmac_sha512.c`, lines
754-1013): the calls of `libcerror_error_set` on the branches of
`libhmac_sha512_update` above. -/
def libhmac_sha512_update_error (D : libcerror_definitions)
    (context : Option libhmac_internal_sha512_context) (buffer : Option (List Nat))
    (size : Nat) (error : Option (Option libcerror_internal_error)) :
    Option (Option libcerror_internal_error) :=
  let function := "libhmac_sha512_update"
  match context with
  | none =>
    libcerror_error_set_message D error D.LIBCERROR_ERROR_DOMAIN_ARGUMENTS
      D.LIBCERROR_ARGUMENT_ERROR_INVALID_VALUE function ": invalid context."
  | some internal_context =>
    match buffer with
    | none =>
      libcerror_error_set_message D error D.LIBCERROR_ERROR_DOMAIN_ARGUMENTS
        D.LIBCERROR_ARGUMENT_ERROR_INVALID_VALUE function ": invalid buffer."
    | some buf =>
      if size = 0 then error
      else if size > SSIZE_MAX then
        libcerror_error_set_message D error D.LIBCERROR_ERROR_DOMAIN_ARGUMENTS
          D.LIBCERROR_ARGUMENT_ERROR_VALUE_EXCEEDS_MAXIMUM function
          ": invalid size value exceeds maximum."
      else if internal_context.block_offset > 0 then
        let remaining_block_size :=
          (LIBHMAC_SHA512_BLOCK_SIZE + 2 ^ 64 - internal_context.block_offset) % 2 ^ 64
        let remaining_block_size :=
          if remaining_block_size > size then size else remaining_block_size
        let internal_context := { internal_context with
          block := memory_copy internal_context.block internal_context.block_offset buf
            remaining_block_size }
        let internal_context := { internal_context with
          block_offset := (internal_context.block_offset + remaining_block_size) % 2 ^ 64 }
        if internal_context.block_offset < LIBHMAC_SHA512_BLOCK_SIZE then error
        else
          let buffer_offset := 0 + remaining_block_size
          let size := size - remaining_block_size
          let r := libhmac_sha512_transform (some internal_context)
            (some internal_context.block) LIBHMAC_SHA512_BLOCK_SIZE
          let error := libhmac_sha512_transform_error D (some internal_context)
            (some internal_context.block) LIBHMAC_SHA512_BLOCK_SIZE error
          let process_count := r.1
          let internal_context := r.2.getD internal_context
          if process_count = -1 then
            libcerror_error_set_message D error D.LIBCERROR_ERROR_DOMAIN_RUNTIME
              D.LIBCERROR_RUNTIME_ERROR_SET_FAILED function
              ": unable to transform context block."
          else
            let internal_context := { internal_context with
              hash_count := (internal_context.hash_count + process_count.toNat) % 2 ^ 64 }
            let internal_context := { internal_context with block_offset := 0 }
            libhmac_sha512_update_blocks_error D internal_context buf buffer_offset size error
      else libhmac_sha512_update_blocks_error D internal_context buf 0 size error

/-- The error after `libhmac_sha512_finalize` (`libhmac_sha512.c`, lines
1018-1329): the calls of `libcerror_error_set` on the branches of
`libhmac_sha512_finalize` above. Where the padding leaves `block` the function
has no defined result; nothing is known of the error then, and the error is
handed on as it came. -/
def libhmac_sha512_finalize_error (D : libcerror_definitions)
    (context : Option libhmac_internal_sha512_context) (hash : Option (List Nat))
    (hash_size : Nat) (error : Option (Option libcerror_internal_error)) :
    Option (Option libcerror_internal_error) :=
  let function := "libhmac_sha512_finalize"
  match context with
  | none =>
    libcerror_error_set_message D error D.LIBCERROR_ERROR_DOMAIN_ARGUMENTS
      D.LIBCERROR_ARGUMENT_ERROR_INVALID_VALUE function ": invalid context."
  | some internal_context =>
    match hash with
    | none =>
      libcerror_error_set_message D error D.LIBCERROR_ERROR_DOMAIN_ARGUMENTS
        D.LIBCERROR_ARGUMENT_ERROR_INVALID_VALUE function ": invalid hash."
    | some _ =>
      if hash_size < LIBHMAC_SHA512_HASH_SIZE then
        libcerror_error_set_message D error D.LIBCERROR_ERROR_DOMAIN_ARGUMENTS
          D.LIBCERROR_ARGUMENT_ERROR_VALUE_TOO_SMALL function
          ": invalid hash value too small."
      else if hash_size > SSIZE_MAX then
        libcerror_error_set_message D error D.LIBCERROR_ERROR_DOMAIN_ARGUMENTS
          D.LIBCERROR_ARGUMENT_ERROR_VALUE_EXCEEDS_MAXIMUM function
          ": invalid hash size value exceeds maximum."
      else if hash_size < LIBHMAC_SHA512_HASH_SIZE then
        libcerror_error_set_message D error D.LIBCERROR_ERROR_DOMAIN_ARGUMENTS
          D.LIBCERROR_ARGUMENT_ERROR_VALUE_TOO_SMALL function
          ": invalid hash size value too small."
      else if libhmac_sha512_finalize_in_bounds internal_context = false then error
      else
        let padded := libhmac_sha512_finalize_padding internal_context
        let internal_context := padded.1
        let block_size := padded.2
        let r := libhmac_sha512_transform (some internal_context)
          (some internal_context.block) block_size
        let error := libhmac_sha512_transform_error D (some internal_context)
          (some internal_context.block) block_size error
        if r.1 = -1 then
          libcerror_error_set_message D error D.LIBCERROR_ERROR_DOMAIN_RUNTIME
            D.LIBCERROR_RUNTIME_ERROR_SET_FAILED function
            ": unable to transform context block."
        else error

/-- The error after `libhmac_sha512_free` (`libhmac_sha512.c`, lines
685-749). -/
def libhmac_sha512_free_error (D : libcerror_definitions)
    (context : Option (Option libhmac_internal_sha512_context))
    (error : Option (Option libcerror_internal_error)) :
    Option (Option libcerror_internal_error) :=
  match context with
  | none =>
    libcerror_error_set_message D error D.LIBCERROR_ERROR_DOMAIN_ARGUMENTS
      D.LIBCERROR_ARGUMENT_ERROR_INVALID_VALUE "libhmac_sha512_free" ": invalid context."
  | some _ => error

/-- The error after `libhmac_sha512_calculate` (`libhmac_sha512.c`, lines
1334-1410): every step that does not return 1 has set the error, and the
function appends its own message; the `libhmac_sha512_free` after `on_error`
is called with a NULL error. Where `libhmac_sha512_finalize` has no defined
result nothing is known of the error, and it is handed on as it came. -/
def libhmac_sha512_calculate_error (D : libcerror_definitions) (buffer : Option (List Nat))
    (size : Nat) (hash : Option (List Nat)) (hash_size : Nat)
    (error : Option (Option libcerror_internal_error)) :
    Option (Option libcerror_internal_error) :=
  let function := "libhmac_sha512_calculate"
  let context : Option libhmac_internal_sha512_context := none
  let r := libhmac_sha512_initialize (some context)
  let error := libhmac_sha512_initialize_error D (some context) error
  if r.1 ≠ 1 then
    libcerror_error_set_message D error D.LIBCERROR_ERROR_DOMAIN_RUNTIME
      D.LIBCERROR_RUNTIME_ERROR_INITIALIZE_FAILED function ": unable to initialize context."
  else
    let context := r.2.getD none
    let r := libhmac_sha512_update context buffer size
    let error := libhmac_sha512_update_error D context buffer size error
    if r.1 ≠ 1 then
      libcerror_error_set_message D error D.LIBCERROR_ERROR_DOMAIN_RUNTIME
        D.LIBCERROR_RUNTIME_ERROR_SET_FAILED function ": unable to update context."
    else
      let context := r.2
      let r := libhmac_sha512_finalize context hash hash_size
      let error := libhmac_sha512_finalize_error D context hash hash_size error
      if r.1 = libhmac_undefined_behaviour then error
      else if r.1 ≠ 1 then
        libcerror_error_set_message D error D.LIBCERROR_ERROR_DOMAIN_RUNTIME
          D.LIBCERROR_RUNTIME_ERROR_FINALIZE_FAILED function ": unable to finalize context."
      else
        let context := r.2.1
        let r := libhmac_sha512_free (some context)
        let error := libhmac_sha512_free_error D (some context) error
        if r.1 ≠ 1 then
          libcerror_error_set_message D error D.LIBCERROR_ERROR_DOMAIN_RUNTIME
            D.LIBCERROR_RUNTIME_ERROR_FINALIZE_FAILED function ": unable to free context."
        else error

/-! ## The AES contexts of libcaes

Shallow embedding of `src/libcaes/libcaes_context.c` and
`src/libcaes/libcaes_tweaked_context.c`, in the branch compiled without WINAPI
and without libcrypto. The outcome of `memory_allocate` is a parameter of the
constructors; `memory_set` is taken to succeed. The blocks of memory that are
allocated and not yet freed are kept in a list, newest first. -/

/-- The parts of libcaes that the embedded functions use and that are not among
the sources: the type `Context` of `libcaes_internal_context_t`
(`libcaes_context.h`) with its value after `memory_set` to 0, the two modes of
`libcaes_definitions.h`, and the functions that `libcaes_crypt.h` declares.
The functions of `libcaes_crypt.h` give their return value, the context they
worked on and the error after the call. -/
structure libcaes_environment (Context : Type) where
  LIBCAES_CRYPT_MODE_DECRYPT : Int
  LIBCAES_CRYPT_MODE_ENCRYPT : Int
  cleared_context : Context
  libcaes_initialize_tables :
    Option (Option libcerror_internal_error) → Int × Option (Option libcerror_internal_error)
  libcaes_crypt_set_decryption_key :
    Context → Option (List Nat) → Nat → Option (Option libcerror_internal_error) →
      Int × Context × Option (Option libcerror_internal_error)
  libcaes_crypt_set_encryption_key :
    Context → Option (List Nat) → Nat → Option (Option libcerror_internal_error) →
      Int × Context × Option (Option libcerror_internal_error)

/-- The kinds of memory blocks that the functions of libcaes allocate. -/
inductive libcaes_allocation where
  | libcaes_internal_context_t
  | libcaes_internal_tweaked_context_t
deriving DecidableEq

/-- The function `memory_free` on the list of the allocated blocks. -/
def memory_free (allocations : List libcaes_allocation) (block : libcaes_allocation) :
    List libcaes_allocation :=
  allocations.erase block

/-- The structure `libcaes_internal_tweaked_context` as the functions of
`libcaes_tweaked_context.c` use it: two pointers to AES contexts. -/
structure libcaes_internal_tweaked_context (Context : Type) where
  main_context : Option Context
  tweak_context : Option Context
deriving DecidableEq

/-- What a function of libcaes leaves: the return value, the context (or the
value of the out-parameter) and the error after the call. -/
structure libcaes_result (α : Type) where
  result : Int
  context : α
  error : Option (Option libcerror_internal_error)
deriving DecidableEq

/-- What a constructor or destructor of libcaes leaves: the return value, the
value of the out-parameter `*context`, the error, the static variable
`libcaes_tables_initialized` and the allocated blocks after the call. -/
structure libcaes_constructor_result (α : Type) where
  result : Int
  context : Option α
  error : Option (Option libcerror_internal_error)
  libcaes_tables_initialized : Int
  allocations : List libcaes_allocation
deriving DecidableEq

/-- The function `libcaes_context_initialize` (`libcaes_context.c`, lines
54-207). `context` is the out-parameter (`none` when it is NULL, `some none`
when it points at NULL); `memory_allocate_succeeds` tells whether
`memory_allocate_structure` returns a block. -/
def libcaes_context_initialize {Context : Type} (D : libcerror_definitions)
    (E : libcaes_environment Context) (context : Option (Option Context))
    (error : Option (Option libcerror_internal_error)) (libcaes_tables_initialized : Int)
    (allocations : List libcaes_allocation) (memory_allocate_succeeds : Bool) :
    libcaes_constructor_result (Option Context) :=
  let function := "libcaes_context_initialize"
  match context with
  | none =>
    { result := -1, context := none,
      error := libcerror_error_set_message D error D.LIBCERROR_ERROR_DOMAIN_ARGUMENTS
        D.LIBCERROR_ARGUMENT_ERROR_INVALID_VALUE function ": invalid context.",
      libcaes_tables_initialized := libcaes_tables_initialized, allocations := allocations }
  | some (some c) =>
    { result := -1, context := some (some c),
      error := libcerror_error_set_message D error D.LIBCERROR_ERROR_DOMAIN_RUNTIME
        D.LIBCERROR_RUNTIME_ERROR_VALUE_ALREADY_SET function
        ": invalid context value already set.",
      libcaes_tables_initialized := libcaes_tables_initialized, allocations := allocations }
  | some none =>
    if ¬ memory_allocate_succeeds then
      { result := -1, context := some none,
        error := libcerror_error_set_message D error D.LIBCERROR_ERROR_DOMAIN_MEMORY
          D.LIBCERROR_MEMORY_ERROR_INSUFFICIENT function ": unable to create context.",
        libcaes_tables_initialized := libcaes_tables_initialized, allocations := allocations }
    else
      let allocations := libcaes_allocation.libcaes_internal_context_t :: allocations
      let internal_context := E.cleared_context
      if libcaes_tables_initialized = 0 then
        let r := E.libcaes_initialize_tables error
        if r.1 ≠ 1 then
          { result := -1, context := some none,
            error := libcerror_error_set_message D r.2 D.LIBCERROR_ERROR_DOMAIN_RUNTIME
              D.LIBCERROR_RUNTIME_ERROR_INITIALIZE_FAILED function
              ": unable to initialize tables.",
            libcaes_tables_initialized := libcaes_tables_initialized,
            allocations := memory_free allocations
              libcaes_allocation.libcaes_internal_context_t }
        else
          { result := 1, context := some (some internal_context), error := r.2,
            libcaes_tables_initialized := 1, allocations := allocations }
      else
        { result := 1, context := some (some internal_context), error := error,
          libcaes_tables_initialized := libcaes_tables_initialized,
          allocations := allocations }

/-- The function `libcaes_context_free` (`libcaes_context.c`, lines 212-267):
a non-NULL `*context` is set to NULL and its block is freed. -/
def libcaes_context_free {Context : Type} (D : libcerror_definitions)
    (context : Option (Option Context)) (error : Option (Option libcerror_internal_error))
    (libcaes_tables_initialized : Int) (allocations : List libcaes_allocation) :
    libcaes_constructor_result (Option Context) :=
  let function := "libcaes_context_free"
  match context with
  | none =>
    { result := -1, context := none,
      error := libcerror_error_set_message D error D.LIBCERROR_ERROR_DOMAIN_ARGUMENTS
        D.LIBCERROR_ARGUMENT_ERROR_INVALID_VALUE function ": invalid context.",
      libcaes_tables_initialized := libcaes_tables_initialized, allocations := allocations }
  | some none =>
    { result := 1, context := some none, error := error,
      libcaes_tables_initialized := libcaes_tables_initialized, allocations := allocations }
  | some (some _) =>
    { result := 1, context := some none, error := error,
      libcaes_tables_initialized := libcaes_tables_initialized,
      allocations := memory_free allocations libcaes_allocation.libcaes_internal_context_t }

/-- The block that `libcaes_context_free` passes to `memory_free`, with the
contents that it has at that moment (`libcaes_context.c`, lines 232-265);
`none` when no block is freed. Between `*context = NULL` and
`memory_free( internal_context )` the function writes nothing to the block. -/
def libcaes_context_free_released_block {Context : Type}
    (context : Option (Option Context)) : Option Context :=
  match context with
  | none => none
  | some none => none
  | some (some internal_context) => some internal_context

/-- The function `libcaes_context_set_key` (`libcaes_context.c`, lines
272-491): the return value, the context and the error after the call. -/
def libcaes_context_set_key {Context : Type} (D : libcerror_definitions)
    (E : libcaes_environment Context) (context : Option Context) (mode : Int)
    (key : Option (List Nat)) (key_bit_size : Nat)
    (error : Option (Option libcerror_internal_error)) : libcaes_result (Option Context) :=
  let function := "libcaes_context_set_key"
  match context with
  | none =>
    { result := -1, context := none,
      error := libcerror_error_set_message D error D.LIBCERROR_ERROR_DOMAIN_ARGUMENTS
        D.LIBCERROR_ARGUMENT_ERROR_INVALID_VALUE function ": invalid context." }
  | some internal_context =>
    if mode ≠ E.LIBCAES_CRYPT_MODE_DECRYPT ∧ mode ≠ E.LIBCAES_CRYPT_MODE_ENCRYPT then
      { result := -1, context := some internal_context,
        error := libcerror_error_set_message D error D.LIBCERROR_ERROR_DOMAIN_ARGUMENTS
          D.LIBCERROR_ARGUMENT_ERROR_UNSUPPORTED_VALUE function ": unsupported mode." }
    else if key_bit_size ≠ 128 ∧ key_bit_size ≠ 192 ∧ key_bit_size ≠ 256 then
      { result := -1, context := some internal_context,
        error := libcerror_error_set_message D error D.LIBCERROR_ERROR_DOMAIN_ARGUMENTS
          D.LIBCERROR_ARGUMENT_ERROR_UNSUPPORTED_VALUE function
          ": unsupported key bit size." }
    else if mode = E.LIBCAES_CRYPT_MODE_ENCRYPT then
      let r := E.libcaes_crypt_set_encryption_key internal_context key key_bit_size error
      if r.1 ≠ 1 then
        { result := -1, context := some r.2.1,
          error := libcerror_error_set_message D r.2.2 D.LIBCERROR_ERROR_DOMAIN_RUNTIME
            D.LIBCERROR_RUNTIME_ERROR_SET_FAILED function ": unable to set encryption key." }
      else { result := 1, context := some r.2.1, error := r.2.2 }
    else
      let r := E.libcaes_crypt_set_decryption_key internal_context key key_bit_size error
      if r.1 ≠ 1 then
        { result := -1, context := some r.2.1,
          error := libcerror_error_set_message D r.2.2 D.LIBCERROR_ERROR_DOMAIN_RUNTIME
            D.LIBCERROR_RUNTIME_ERROR_SET_FAILED function ": unable to set decryption key." }
      else { result := 1, context := some r.2.1, error := r.2.2 }

/-- The label `on_error` of `libcaes_tweaked_context_initialize`
(`libcaes_tweaked_context.c`, lines 127-139): `internal_context` is `none`
when it is NULL. The main context is freed with `libcaes_context_free` and a
NULL error, then the tweaked context is freed. -/
def libcaes_tweaked_context_initialize_on_error {Context : Type} (D : libcerror_definitions)
    (internal_context : Option (libcaes_internal_tweaked_context Context))
    (error : Option (Option libcerror_internal_error)) (libcaes_tables_initialized : Int)
    (allocations : List libcaes_allocation) :
    libcaes_constructor_result (Option (libcaes_internal_tweaked_context Context)) :=
  match internal_context with
  | none =>
    { result := -1, context := some none, error := error,
      libcaes_tables_initialized := libcaes_tables_initialized, allocations := allocations }
  | some internal_context =>
    let allocations :=
      if internal_context.main_context.isSome then
        (libcaes_context_free D (some internal_context.main_context) none
          libcaes_tables_initialized allocations).allocations
      else allocations
    { result := -1, context := some none, error := error,
      libcaes_tables_initialized := libcaes_tables_initialized,
      allocations := memory_free allocations
        libcaes_allocation.libcaes_internal_tweaked_context_t }

/-- The function `libcaes_tweaked_context_initialize`
(`libcaes_tweaked_context.c`, lines 37-140). `memory_allocate_succeeds`,
`main_allocate_succeeds` and `tweak_allocate_succeeds` tell whether the
allocation of the tweaked context, of the main context and of the tweak context
returns a block. -/
def libcaes_tweaked_context_initialize {Context : Type} (D : libcerror_definitions)
    (E : libcaes_environment Context)
    (context : Option (Option (libcaes_internal_tweaked_context Context)))
    (error : Option (Option libcerror_internal_error)) (libcaes_tables_initialized : Int)
    (allocations : List libcaes_allocation)
    (memory_allocate_succeeds main_allocate_succeeds tweak_allocate_succeeds : Bool) :
    libcaes_constructor_result (Option (libcaes_internal_tweaked_context Context)) :=
  let function := "libcaes_tweaked_context_initialize"
  match context with
  | none =>
    { result := -1, context := none,
      error := libcerror_error_set_message D error D.LIBCERROR_ERROR_DOMAIN_ARGUMENTS
        D.LIBCERROR_ARGUMENT_ERROR_INVALID_VALUE function ": invalid context.",
      libcaes_tables_initialized := libcaes_tables_initialized, allocations := allocations }
  | some (some c) =>
    { result := -1, context := some (some c),
      error := libcerror_error_set_message D error D.LIBCERROR_ERROR_DOMAIN_RUNTIME
        D.LIBCERROR_RUNTIME_ERROR_VALUE_ALREADY_SET function
        ": invalid context value already set.",
      libcaes_tables_initialized := libcaes_tables_initialized, allocations := allocations }
  | some none =>
    if ¬ memory_allocate_succeeds then
      libcaes_tweaked_context_initialize_on_error D none
        (libcerror_error_set_message D error D.LIBCERROR_ERROR_DOMAIN_MEMORY
          D.LIBCERROR_MEMORY_ERROR_INSUFFICIENT function ": unable to create context.")
        libcaes_tables_initialized allocations
    else
      let allocations := libcaes_allocation.libcaes_internal_tweaked_context_t :: allocations
      let internal_context : libcaes_internal_tweaked_context Context :=
        { main_context := none, tweak_context := none }
      let r := libcaes_context_initialize D E (some internal_context.main_context) error
        libcaes_tables_initialized allocations main_allocate_succeeds
      let internal_context := { internal_context with main_context := r.context.getD none }
      if r.result ≠ 1 then
        libcaes_tweaked_context_initialize_on_error D (some internal_context)
          (libcerror_error_set_message D r.error D.LIBCERROR_ERROR_DOMAIN_RUNTIME
            D.LIBCERROR_RUNTIME_ERROR_INITIALIZE_FAILED function
            ": unable to initialize main context.")
          r.libcaes_tables_initialized r.allocations
      else
        let r := libcaes_context_initialize D E (some internal_context.tweak_context) r.error
          r.libcaes_tables_initialized r.allocations tweak_allocate_succeeds
        let internal_context := { internal_context with tweak_context := r.context.getD none }
        if r.result ≠ 1 then
          libcaes_tweaked_context_initialize_on_error D (some internal_context)
            (libcerror_error_set_message D r.error D.LIBCERROR_ERROR_DOMAIN_RUNTIME
              D.LIBCERROR_RUNTIME_ERROR_INITIALIZE_FAILED function
              ": unable to initialize tweak context.")
            r.libcaes_tables_initialized r.allocations
        else
          { result := 1, context := some (some internal_context), error := r.error,
            libcaes_tables_initialized := r.libcaes_tables_initialized,
            allocations := r.allocations }

/-- The function `libcaes_tweaked_context_set_keys`
(`libcaes_tweaked_context.c`, lines 204-287): the return value, the tweaked
context and the error after the call. -/
def libcaes_tweaked_context_set_keys {Context : Type} (D : libcerror_definitions)
    (E : libcaes_environment Context)
    (context : Option (libcaes_internal_tweaked_context Context)) (mode : Int)
    (key : Option (List Nat)) (key_bit_size : Nat) (tweak_key : Option (List Nat))
    (tweak_key_bit_size : Nat) (error : Option (Option libcerror_internal_error)) :
    libcaes_result (Option (libcaes_internal_tweaked_context Context)) :=
  let function := "libcaes_tweaked_context_set_key"
  match context with
  | none =>
    { result := -1, context := none,
      error := libcerror_error_set_message D error D.LIBCERROR_ERROR_DOMAIN_ARGUMENTS
        D.LIBCERROR_ARGUMENT_ERROR_INVALID_VALUE function ": invalid context." }
  | some internal_context =>
    if mode ≠ E.LIBCAES_CRYPT_MODE_DECRYPT ∧ mode ≠ E.LIBCAES_CRYPT_MODE_ENCRYPT then
      { result := -1, context := some internal_context,
        error := libcerror_error_set_message D error D.LIBCERROR_ERROR_DOMAIN_ARGUMENTS
          D.LIBCERROR_ARGUMENT_ERROR_UNSUPPORTED_VALUE function ": unsupported mode." }
    else if key_bit_size ≠ 128 ∧ key_bit_size ≠ 192 ∧ key_bit_size ≠ 256 then
      { result := -1, context := some internal_context,
        error := libcerror_error_set_message D error D.LIBCERROR_ERROR_DOMAIN_ARGUMENTS
          D.LIBCERROR_ARGUMENT_ERROR_UNSUPPORTED_VALUE function
          ": unsupported key bit size." }
    else
      let r := libcaes_context_set_key D E internal_context.main_context mode key
        key_bit_size error
      let internal_context := { internal_context with main_context := r.context }
      if r.result ≠ 1 then
        { result := -1, context := some internal_context,
          error := libcerror_error_set_message D r.error D.LIBCERROR_ERROR_DOMAIN_RUNTIME
            D.LIBCERROR_RUNTIME_ERROR_SET_FAILED function
            ": unable to set key in main context." }
      else
        let r := libcaes_context_set_key D E internal_context.tweak_context
          E.LIBCAES_CRYPT_MODE_ENCRYPT tweak_key tweak_key_bit_size r.error
        let internal_context := { internal_context with tweak_context := r.context }
        if r.result ≠ 1 then
          { result := -1, context := some internal_context,
            error := libcerror_error_set_message D r.error D.LIBCERROR_ERROR_DOMAIN_RUNTIME
              D.LIBCERROR_RUNTIME_ERROR_SET_FAILED function
              ": unable to set tweak key in tweak context." }
        else { result := 1, context := some internal_context, error := r.error }

/-! ## The property lists of libfplist

Shallow embedding of the functions of `src/libfplist/libfplist_property.c` and
`src/libfplist/libfplist_property_list.c` that the properties are about. The
error object is not threaded through these functions; `memory_allocate`,
`memory_copy` and `memory_set` are taken to succeed. A tag is a value of a type
`Tag`; a pointer to a tag is an `Option Tag`. -/

/-- The value `LIBFPLIST_VALUE_TYPE_UNKNOWN` (`libfplist_definitions.h`, line
47). -/
def LIBFPLIST_VALUE_TYPE_UNKNOWN : Int := 0

/-- The value `LIBFPLIST_VALUE_TYPE_DICTIONARY` (`libfplist_definitions.h`,
line 52). -/
def LIBFPLIST_VALUE_TYPE_DICTIONARY : Int := 5

/-- The structure `libfplist_internal_property` (`libfplist_property.h`, lines
39-52). -/
structure libfplist_internal_property (Tag : Type) where
  key_tag : Option Tag
  value_tag : Option Tag
  value_type : Int
deriving DecidableEq

/-- The structure `libfplist_internal_property_list`
(`libfplist_property_list.h`, lines 39-52). -/
structure libfplist_internal_property_list (Tag : Type) where
  plist_tag : Option Tag
  root_tag : Option Tag
  dict_tag : Option Tag
deriving DecidableEq

/-- The parts of libfplist that the embedded functions use and that are not
among the sources: the fields `value` and `value_size` of a tag
(`libfplist_xml_tag.h`, lines 49-55) as functions of the tag, the functions
that `libfplist_xml_tag.h` declares, the macro `narrow_string_compare` of
`narrow_string.h` and the parser `xml_parser_parse_buffer`.
`libfplist_xml_tag_get_value_type` gives its return value and
`*value_type` after the call, `libfplist_xml_tag_get_number_of_elements` its
return value and `*number_of_elements`; `libfplist_xml_tag_get_element` gives
the element when it returns 1 and `none` otherwise; the parser gives its return
value and the property list after the call. -/
structure libfplist_environment (Tag : Type) where
  value : Tag → Option (List Nat)
  value_size : Tag → Nat
  libfplist_xml_tag_get_value_type : Tag → Int → Int × Int
  libfplist_xml_tag_compare_name : Tag → List Nat → Nat → Int
  libfplist_xml_tag_get_number_of_elements : Tag → Int × Int
  libfplist_xml_tag_get_element : Tag → Int → Option Tag
  narrow_string_compare : Option (List Nat) → List Nat → Nat → Int
  xml_parser_parse_buffer :
    libfplist_internal_property_list Tag → List Nat → Nat →
      Int × libfplist_internal_property_list Tag

/-- The function `libfplist_property_initialize` (`libfplist_property.c`,
lines 41-160): the return value and `*property` after the call. -/
def libfplist_property_initialize {Tag : Type} (E : libfplist_environment Tag)
    (property : Option (Option (libfplist_internal_property Tag)))
    (key_tag value_tag : Option Tag) :
    Int × Option (Option (libfplist_internal_property Tag)) :=
  match property with
  | none => (-1, none)
  | some (some p) => (-1, some (some p))
  | some none =>
    match value_tag with
    | none => (-1, some none)
    | some _ =>
      let result : Int :=
        match key_tag with
        | some tag => E.libfplist_xml_tag_compare_name tag (narrow_string "key") 3
        | none => 1
      if key_tag.isSome ∧ result = -1 then (-1, some none)
      else if key_tag.isSome ∧ result = 0 then (-1, some none)
      else
        (1, some (some { key_tag := key_tag, value_tag := value_tag,
                         value_type := LIBFPLIST_VALUE_TYPE_UNKNOWN }))

/-- The first loop of `libfplist_property_get_sub_property_by_utf8_name`
(`libfplist_property.c`, lines 1336-1383), which looks for the key. The first
argument bounds the number of turns. The result is -1 when the function
returns -1 inside the loop and 0 when the loop is left, then `element_index`
and `key_tag`. -/
def libfplist_property_get_sub_property_key_loop {Tag : Type}
    (E : libfplist_environment Tag) (value_tag : Tag) (utf8_string : List Nat)
    (utf8_string_length : Nat) (number_of_elements : Int) :
    Nat → Int → Option Tag → Int × Int × Option Tag
  | 0, element_index, key_tag => (0, element_index, key_tag)
  | turns + 1, element_index, key_tag =>
    if element_index < number_of_elements then
      match E.libfplist_xml_tag_get_element value_tag element_index with
      | none => (-1, element_index, key_tag)
      | some tag =>
        let result := E.libfplist_xml_tag_compare_name tag (narrow_string "key") 3
        if result = -1 then (-1, element_index, some tag)
        else if result ≠ 0
            ∧ (E.value_size tag = utf8_string_length + 1
              ∧ E.narrow_string_compare (E.value tag) utf8_string utf8_string_length = 0) then
          (0, element_index, some tag)
        else
          libfplist_property_get_sub_property_key_loop E value_tag utf8_string
            utf8_string_length number_of_elements turns (element_index + 1) (some tag)
    else (0, element_index, key_tag)

/-- The second loop of `libfplist_property_get_sub_property_by_utf8_name`
(`libfplist_property.c`, lines 1390-1432), which looks for the value, with the
results of the first loop. -/
def libfplist_property_get_sub_property_value_loop {Tag : Type}
    (E : libfplist_environment Tag) (value_tag : Tag) (number_of_elements : Int) :
    Nat → Int → Option Tag → Int × Int × Option Tag
  | 0, element_index, found_tag => (0, element_index, found_tag)
  | turns + 1, element_index, found_tag =>
    if element_index < number_of_elements then
      match E.libfplist_xml_tag_get_element value_tag element_index with
      | none => (-1, element_index, found_tag)
      | some tag =>
        let result := E.libfplist_xml_tag_compare_name tag (narrow_string "text") 4
        if result = -1 then (-1, element_index, some tag)
        else if result = 0 then (0, element_index, some tag)
        else
          libfplist_property_get_sub_property_value_loop E value_tag number_of_elements
            turns (element_index + 1) (some tag)
    else (0, element_index, found_tag)

/-- The function `libfplist_property_get_sub_property_by_utf8_name`
(`libfplist_property.c`, lines 1209-1453): the return value, the property
after the call (its `value_type` may have been set) and `*sub_property` after
the call. Each loop gets as many turns as there are elements. -/
def libfplist_property_get_sub_property_by_utf8_name {Tag : Type}
    (E : libfplist_environment Tag) (property : Option (libfplist_internal_property Tag))
    (utf8_string : Option (List Nat)) (utf8_string_length : Nat)
    (sub_property : Option (Option (libfplist_internal_property Tag))) :
    Int × Option (libfplist_internal_property Tag)
      × Option (Option (libfplist_internal_property Tag)) :=
  match property with
  | none => (-1, none, sub_property)
  | some internal_property =>
    match internal_property.value_tag with
    | none => (-1, some internal_property, sub_property)
    | some value_tag =>
      match utf8_string with
      | none => (-1, some internal_property, sub_property)
      | some characters =>
        if utf8_string_length > SSIZE_MAX then (-1, some internal_property, sub_property)
        else
          match sub_property with
          | none => (-1, some internal_property, none)
          | some (some p) => (-1, some internal_property, some (some p))
          | some none =>
            let r :=
              if internal_property.value_type = LIBFPLIST_VALUE_TYPE_UNKNOWN then
                E.libfplist_xml_tag_get_value_type value_tag internal_property.value_type
              else (1, internal_property.value_type)
            let internal_property := { internal_property with value_type := r.2 }
            if r.1 ≠ 1 then (-1, some internal_property, some none)
            else if internal_property.value_type ≠ LIBFPLIST_VALUE_TYPE_DICTIONARY then
              (-1, some internal_property, some none)
            else
              let n := E.libfplist_xml_tag_get_number_of_elements value_tag
              if n.1 ≠ 1 then (-1, some internal_property, some none)
              else
                let number_of_elements := n.2
                let r1 := libfplist_property_get_sub_property_key_loop E value_tag characters
                  utf8_string_length number_of_elements number_of_elements.toNat 0 none
                if r1.1 = -1 then (-1, some internal_property, some none)
                else if r1.2.1 ≥ number_of_elements then
                  (0, some internal_property, some none)
                else
                  let r2 := libfplist_property_get_sub_property_value_loop E value_tag
                    number_of_elements number_of_elements.toNat (r1.2.1 + 1) none
                  if r2.1 = -1 then (-1, some internal_property, some none)
                  else if r2.2.1 ≥ number_of_elements then
                    (0, some internal_property, some none)
                  else
                    let r3 := libfplist_property_initialize E (some none) r1.2.2 r2.2.2
                    if r3.1 ≠ 1 then (-1, some internal_property, some none)
                    else (1, some internal_property, r3.2)

/-- The value `LIBFPLIST_VALUE_TYPE_ARRAY` (`libfplist_definitions.h`, line
48). -/
def LIBFPLIST_VALUE_TYPE_ARRAY : Int := 1

/-- The `for` loop of `libfplist_property_get_array_number_of_entries`
(`libfplist_property.c`, lines 967-1010), which counts the elements that are
not text nodes. The first argument bounds the number of turns. The result is
-1 when the function returns -1 inside the loop and 1 otherwise, and
`number_of_nodes`. -/
def libfplist_property_get_array_number_of_entries_loop {Tag : Type}
    (E : libfplist_environment Tag) (value_tag : Tag) (number_of_elements : Int) :
    Nat → Int → Int → Int × Int
  | 0, _, number_of_nodes => (1, number_of_nodes)
  | turns + 1, element_index, number_of_nodes =>
    if element_index < number_of_elements then
      match E.libfplist_xml_tag_get_element value_tag element_index with
      | none => (-1, number_of_nodes)
      | some element_tag =>
        let result := E.libfplist_xml_tag_compare_name element_tag (narrow_string "text") 4
        if result = -1 then (-1, number_of_nodes)
        else if result = 0 then
          libfplist_property_get_array_number_of_entries_loop E value_tag number_of_elements
            turns (element_index + 1) (number_of_nodes + 1)
        else
          libfplist_property_get_array_number_of_entries_loop E value_tag number_of_elements
            turns (element_index + 1) number_of_nodes
    else (1, number_of_nodes)

/-- The function `libfplist_property_get_array_number_of_entries`
(`libfplist_property.c`, lines 877-1014): the return value, the property after
the call (its `value_type` may have been set) and `*number_of_entries` after
the call. The loop gets as many turns as there are elements. -/
def libfplist_property_get_array_number_of_entries {Tag : Type}
    (E : libfplist_environment Tag) (property : Option (libfplist_internal_property Tag))
    (number_of_entries : Option Int) :
    Int × Option (libfplist_internal_property Tag) × Option Int :=
  match property with
  | none => (-1, none, number_of_entries)
  | some internal_property =>
    match internal_property.value_tag with
    | none => (-1, some internal_property, number_of_entries)
    | some value_tag =>
      match number_of_entries with
      | none => (-1, some internal_property, none)
      | some entries =>
        let r :=
          if internal_property.value_type = LIBFPLIST_VALUE_TYPE_UNKNOWN then
            E.libfplist_xml_tag_get_value_type value_tag internal_property.value_type
          else (1, internal_property.value_type)
        let internal_property := { internal_property with value_type := r.2 }
        if r.1 ≠ 1 then (-1, some internal_property, some entries)
        else if internal_property.value_type ≠ LIBFPLIST_VALUE_TYPE_ARRAY then
          (-1, some internal_property, some entries)
        else
          let n := E.libfplist_xml_tag_get_number_of_elements value_tag
          if n.1 ≠ 1 then (-1, some internal_property, some entries)
          else
            let r1 := libfplist_property_get_array_number_of_entries_loop E value_tag n.2
              n.2.toNat 0 0
            if r1.1 = -1 then (-1, some internal_property, some entries)
            else (1, some internal_property, some r1.2)

/-- The `while` loop of `libfplist_property_get_array_entry_by_index`
(`libfplist_property.c`, lines 1136-1182). The first argument bounds the number
of turns. The result is -1 when the function returns -1 inside the loop and 0
when the loop is left, then `element_index` and `value_tag`. -/
def libfplist_property_get_array_entry_by_index_loop {Tag : Type}
    (E : libfplist_environment Tag) (value_tag : Tag) (number_of_elements : Int) :
    Nat → Int → Int → Option Tag → Int × Int × Option Tag
  | 0, element_index, _, found_tag => (0, element_index, found_tag)
  | turns + 1, element_index, entry_index, found_tag =>
    if element_index < number_of_elements then
      match E.libfplist_xml_tag_get_element value_tag element_index with
      | none => (-1, element_index, found_tag)
      | some tag =>
        let result := E.libfplist_xml_tag_compare_name tag (narrow_string "text") 4
        if result = -1 then (-1, element_index, some tag)
        else if result = 0 then
          if entry_index = 0 then (0, element_index, some tag)
          else
            libfplist_property_get_array_entry_by_index_loop E value_tag number_of_elements
              turns (element_index + 1) (entry_index - 1) (some tag)
        else
          libfplist_property_get_array_entry_by_index_loop E value_tag number_of_elements
            turns (element_index + 1) entry_index (some tag)
    else (0, element_index, found_tag)

/-- The function `libfplist_property_get_array_entry_by_index`
(`libfplist_property.c`, lines 1019-1204): the return value, the property after
the call (its `value_type` may have been set) and `*array_entry` after the
call. The loop gets as many turns as there are elements. -/
def libfplist_property_get_array_entry_by_index {Tag : Type}
    (E : libfplist_environment Tag) (property : Option (libfplist_internal_property Tag))
    (array_entry_index : Int)
    (array_entry : Option (Option (libfplist_internal_property Tag))) :
    Int × Option (libfplist_internal_property Tag)
      × Option (Option (libfplist_internal_property Tag)) :=
  match property with
  | none => (-1, none, array_entry)
  | some internal_property =>
    match internal_property.value_tag with
    | none => (-1, some internal_property, array_entry)
    | some value_tag =>
      if array_entry_index < 0 then (-1, some internal_property, array_entry)
      else
        match array_entry with
        | none => (-1, some internal_property, none)
        | some (some p) => (-1, some internal_property, some (some p))
        | some none =>
          let r :=
            if internal_property.value_type = LIBFPLIST_VALUE_TYPE_UNKNOWN then
              E.libfplist_xml_tag_get_value_type value_tag internal_property.value_type
            else (1, internal_property.value_type)
          let internal_property := { internal_property with value_type := r.2 }
          if r.1 ≠ 1 then (-1, some internal_property, some none)
          else if internal_property.value_type ≠ LIBFPLIST_VALUE_TYPE_ARRAY then
            (-1, some internal_property, some none)
          else
            let n := E.libfplist_xml_tag_get_number_of_elements value_tag
            if n.1 ≠ 1 then (-1, some internal_property, some none)
            else
              let number_of_elements := n.2
              let r1 := libfplist_property_get_array_entry_by_index_loop E value_tag
                number_of_elements number_of_elements.toNat 0 array_entry_index none
              if r1.1 = -1 then (-1, some internal_property, some none)
              else if r1.2.1 ≥ number_of_elements then
                (0, some internal_property, some none)
              else
                let r2 := libfplist_property_initialize E (some none) none r1.2.2
                if r2.1 ≠ 1 then (-1, some internal_property, some none)
                else (1, some internal_property, r2.2)

/-- The buffer that `libfplist_property_list_copy_from_byte_stream` gives to
the parser (`libfplist_property_list.c`, lines 242-290): the byte stream
itself when it ends in two zero bytes, and else a copy that does; with the
size of the buffer. -/
def libfplist_property_list_copy_from_byte_stream_buffer (byte_stream : List Nat)
    (byte_stream_size : Nat) : List Nat × Nat :=
  if byte_stream.getD (byte_stream_size - 2) 0 = 0
      ∧ byte_stream.getD (byte_stream_size - 1) 0 = 0 then
    (byte_stream, byte_stream_size)
  else
    let buffer_size :=
      if byte_stream.getD (byte_stream_size - 1) 0 = 0 then byte_stream_size + 1
      else byte_stream_size + 2
    let buffer := memory_copy (List.replicate buffer_size 0) 0 byte_stream byte_stream_size
    let buffer := buffer.set (buffer_size - 2) 0
    let buffer := buffer.set (buffer_size - 1) 0
    (buffer, buffer_size)

/-- The `for` loop of `libfplist_property_list_copy_from_byte_stream`
(`libfplist_property_list.c`, lines 387-457) over the elements of the plist
tag. The first argument bounds the number of turns. The result is -1 when the
loop leaves through `on_error` and 1 otherwise, and the property list. -/
def libfplist_property_list_copy_from_byte_stream_loop {Tag : Type}
    (E : libfplist_environment Tag) (root_tag : Tag) (number_of_elements : Int) :
    Nat → Int → libfplist_internal_property_list Tag →
      Int × libfplist_internal_property_list Tag
  | 0, _, internal_property_list => (1, internal_property_list)
  | turns + 1, element_index, internal_property_list =>
    if element_index < number_of_elements then
      match E.libfplist_xml_tag_get_element root_tag element_index with
      | none => (-1, internal_property_list)
      | some element_tag =>
        let result := E.libfplist_xml_tag_compare_name element_tag (narrow_string "text") 4
        if result = -1 then (-1, internal_property_list)
        else if result ≠ 0 then
          libfplist_property_list_copy_from_byte_stream_loop E root_tag number_of_elements
            turns (element_index + 1) internal_property_list
        else
          let result := E.libfplist_xml_tag_compare_name element_tag (narrow_string "dict") 4
          if result = -1 then (-1, internal_property_list)
          else if result ≠ 0 then
            libfplist_property_list_copy_from_byte_stream_loop E root_tag number_of_elements
              turns (element_index + 1)
              { internal_property_list with dict_tag := some element_tag }
          else (1, internal_property_list)
    else (1, internal_property_list)

/-- The function `libfplist_property_list_copy_from_byte_stream`
(`libfplist_property_list.c`, lines 168-470): the return value and the property
list after the call. -/
def libfplist_property_list_copy_from_byte_stream {Tag : Type}
    (E : libfplist_environment Tag)
    (property_list : Option (libfplist_internal_property_list Tag))
    (byte_stream : Option (List Nat)) (byte_stream_size : Nat) :
    Int × Option (libfplist_internal_property_list Tag) :=
  match property_list with
  | none => (-1, none)
  | some internal_property_list =>
    if internal_property_list.dict_tag.isSome then (-1, some internal_property_list)
    else if internal_property_list.root_tag.isSome then (-1, some internal_property_list)
    else
      match byte_stream with
      | none => (-1, some internal_property_list)
      | some bytes =>
        if byte_stream_size < 2 ∨ byte_stream_size > INT_MAX
            ∨ byte_stream_size > SSIZE_MAX then
          (-1, some internal_property_list)
        else
          let buffer := libfplist_property_list_copy_from_byte_stream_buffer bytes
            byte_stream_size
          let r := E.xml_parser_parse_buffer internal_property_list buffer.1 buffer.2
          let internal_property_list := r.2
          if r.1 = -1 then (-1, some internal_property_list)
          else
            match internal_property_list.root_tag with
            | none => (-1, some internal_property_list)
            | some root_tag =>
              let result := E.libfplist_xml_tag_compare_name root_tag (narrow_string "dict") 4
              if result = -1 then (-1, some internal_property_list)
              else if result = 1 then
                (1, some { internal_property_list with
                  dict_tag := internal_property_list.root_tag })
              else
                let result :=
                  E.libfplist_xml_tag_compare_name root_tag (narrow_string "plist") 5
                if result = -1 then (-1, some internal_property_list)
                else if result = 1 then
                  let internal_property_list := { internal_property_list with
                    plist_tag := internal_property_list.root_tag }
                  let n := E.libfplist_xml_tag_get_number_of_elements root_tag
                  if n.1 ≠ 1 then (-1, some internal_property_list)
                  else
                    let r := libfplist_property_list_copy_from_byte_stream_loop E root_tag
                      n.2 n.2.toNat 0 internal_property_list
                    (r.1, some r.2)
                else (1, some internal_property_list)

/-- The function `libfplist_property_list_get_root_property`
(`libfplist_property_list.c`, lines 505-568): the return value and `*property`
after the call. -/
def libfplist_property_list_get_root_property {Tag : Type}
    (E : libfplist_environment Tag)
    (property_list : Option (libfplist_internal_property_list Tag))
    (property : Option (Option (libfplist_internal_property Tag))) :
    Int × Option (Option (libfplist_internal_property Tag)) :=
  match property_list with
  | none => (-1, property)
  | some internal_property_list =>
    match property with
    | none => (-1, none)
    | some (some p) => (-1, some (some p))
    | some none =>
      match internal_property_list.dict_tag with
      | none => (0, some none)
      | some dict_tag =>
        let r := libfplist_property_initialize E (some none) none (some dict_tag)
        if r.1 ≠ 1 then (-1, some none) else (1, r.2)

/-! ## Definitions used to state the properties -/

/-- The eight bytes of a 64-bit word, most significant first. -/
def uint64_big_endian_bytes (value : Nat) : List Nat :=
  [(value >>> 56) &&& 0xff, (value >>> 48) &&& 0xff, (value >>> 40) &&& 0xff,
   (value >>> 32) &&& 0xff, (value >>> 24) &&& 0xff, (value >>> 16) &&& 0xff,
   (value >>> 8) &&& 0xff, (value >>> 0) &&& 0xff]

/-- The 64 bytes that serialise eight 64-bit hash values big-endian, in order. -/
def sha512_hash_values_bytes (hash_values : List Nat) : List Nat :=
  (List.range 8).foldl
    (fun bytes i => bytes ++ uint64_big_endian_bytes (hash_values.getD i 0)) []

/-- The hash values after the first `k` blocks of 128 bytes of `data` have been
folded, in order, into `hash_values` by the loop body of the transform. -/
def sha512_compress_blocks : Nat → List Nat → List Nat → List Nat
  | 0, hash_values, _ => hash_values
  | k + 1, hash_values, data =>
    sha512_compress_blocks k (libhmac_sha512_transform_block hash_values data 0)
      (data.drop 128)

/-- The context `ic` has absorbed the bytes `data`, starting from the hash
values `iv`: the whole blocks of `data` are folded into `hash_values` and
counted in `hash_count` (a `uint64_t`), the rest of `data` waits in `block`. -/
structure sha512_context_absorbed (iv : List Nat) (ic : libhmac_internal_sha512_context)
    (data : List Nat) : Prop where
  block_offset_eq : ic.block_offset = data.length % 128
  hash_count_eq : ic.hash_count = (128 * (data.length / 128)) % 2 ^ 64
  block_length : ic.block.length = 128
  block_eq : ic.block.take (data.length % 128) = data.drop (128 * (data.length / 128))
  hash_values_eq : ic.hash_values = sha512_compress_blocks (data.length / 128) iv data

/-- The bytes that `libhmac_sha512_finalize` hands to the transform for a
buffered `tail` and a byte counter `hash_count`: the tail, the byte 0x80, zero
bytes, and the bit count in 8 bytes big-endian; 128 bytes when the tail has at
most 119 bytes, 256 bytes otherwise. -/
def sha512_finalize_bytes (tail : List Nat) (hash_count : Nat) : List Nat :=
  tail ++ [0x80]
    ++ List.replicate ((if tail.length > 119 then 256 else 128) - 9 - tail.length) 0
    ++ uint64_big_endian_bytes (((hash_count + tail.length) * 8) % 2 ^ 64)

/-- The eight hash values that `libhmac_sha512_finalize` serialises when the
context has absorbed `data` from the hash values `iv`. -/
def sha512_digest_words (iv data : List Nat) : List Nat :=
  let tail := data.drop (128 * (data.length / 128))
  sha512_compress_blocks (if tail.length > 119 then 2 else 1)
    (sha512_compress_blocks (data.length / 128) iv data)
    (sha512_finalize_bytes tail ((128 * (data.length / 128)) % 2 ^ 64))

/-- The context right after `libhmac_sha512_initialize`. -/
def sha512_initial_context : libhmac_internal_sha512_context :=
  { hash_count := 0, hash_values := libhmac_sha512_prime_square_roots, block_offset := 0,
    block := List.replicate 128 0 }

/-- The cleared context that `libhmac_sha512_finalize` leaves behind. -/
def sha512_cleared_context : libhmac_internal_sha512_context :=
  { hash_count := 0, hash_values := List.replicate 8 0, block_offset := 0,
    block := List.replicate 128 0 }

/-- The output loop of `libhmac_sha512_finalize`, on the output buffer `out`. -/
def sha512_write_hash_values (hash_values out : List Nat) : List Nat :=
  (List.range 8).foldl
    (fun bytes hash_values_index =>
      byte_stream_copy_from_uint64_big_endian bytes (8 * hash_values_index)
        (hash_values.getD hash_values_index 0)) out

/-- One call of `libhmac_sha512_update` per buffer of `buffers`, in order, on
the context `context`: the context after the last call, or `none` as soon as a
call does not return 1. -/
def sha512_update_all :
    Option libhmac_internal_sha512_context → List (List Nat) →
      Option (Option libhmac_internal_sha512_context)
  | context, [] => some context
  | context, buffer :: buffers =>
    let r := libhmac_sha512_update context (some buffer) buffer.length
    if r.1 = 1 then sha512_update_all r.2 buffers else none

/-! ### The compression function in the words of the specification (section 4.7) -/

/-- The rotation `ROTR` of the specification. -/
def spec_ROTR (n x : Nat) : Nat := byte_stream_bit_rotate_right_64bit x n

/-- The function `σ0(x) = ROTR1 ⊕ ROTR8 ⊕ SHR7` of the specification. -/
def spec_sigma0 (x : Nat) : Nat := spec_ROTR 1 x ^^^ spec_ROTR 8 x ^^^ (x >>> 7)

/-- The function `σ1(x) = ROTR19 ⊕ ROTR61 ⊕ SHR6` of the specification. -/
def spec_sigma1 (x : Nat) : Nat := spec_ROTR 19 x ^^^ spec_ROTR 61 x ^^^ (x >>> 6)

/-- The function `Σ0(x) = ROTR28 ⊕ ROTR34 ⊕ ROTR39` of the specification. -/
def spec_Sigma0 (x : Nat) : Nat := spec_ROTR 28 x ^^^ spec_ROTR 34 x ^^^ spec_ROTR 39 x

/-- The function `Σ1(x) = ROTR14 ⊕ ROTR18 ⊕ ROTR41` of the specification. -/
def spec_Sigma1 (x : Nat) : Nat := spec_ROTR 14 x ^^^ spec_ROTR 18 x ^^^ spec_ROTR 41 x

/-- The function `Ch(x,y,z) = (x∧y) ⊕ (¬x∧z)` of the specification; the
complement of a 64-bit word `x` is `2 ^ 64 - 1 - x`. -/
def spec_Ch (x y z : Nat) : Nat := (x &&& y) ^^^ ((2 ^ 64 - 1 - x) &&& z)

/-- The function `Maj(x,y,z) = (x∧y) ⊕ (x∧z) ⊕ (y∧z)` of the specification. -/
def spec_Maj (x y z : Nat) : Nat := (x &&& y) ^^^ (x &&& z) ^^^ (y &&& z)

/-- The message schedule of the specification: `W[0..15]` are the 16
big-endian 64-bit words of the block, and for `t` from 16 on
`W[t] = σ1(W[t-2]) + W[t-7] + σ0(W[t-15]) + W[t-16]` modulo `2 ^ 64`. -/
def spec_W (block : List Nat) (t : Nat) : Nat :=
  if h : t < 16 then byte_stream_copy_to_uint64_big_endian block (8 * t)
  else
    (spec_sigma1 (spec_W block (t - 2)) + spec_W block (t - 7)
      + spec_sigma0 (spec_W block (t - 15)) + spec_W block (t - 16)) % 2 ^ 64
termination_by t
decreasing_by all_goals omega

/-- The working variables `a..h` of the specification. -/
structure spec_working_variables where
  a : Nat
  b : Nat
  c : Nat
  d : Nat
  e : Nat
  f : Nat
  g : Nat
  h : Nat

/-- Round `t` of the specification: `T1 = h + Σ1(e) + Ch(e,f,g) + K[t] + W[t]`,
`T2 = Σ0(a) + Maj(a,b,c)`, `(a..h) := (T1+T2, a, b, c, d+T1, e, f, g)`, all
modulo `2 ^ 64`. -/
def spec_round (block : List Nat) (t : Nat) (v : spec_working_variables) :
    spec_working_variables :=
  let T1 := (v.h + spec_Sigma1 v.e + spec_Ch v.e v.f v.g
    + libhmac_sha512_prime_cube_roots.getD t 0 + spec_W block t) % 2 ^ 64
  let T2 := (spec_Sigma0 v.a + spec_Maj v.a v.b v.c) % 2 ^ 64
  { a := (T1 + T2) % 2 ^ 64, b := v.a, c := v.b, d := v.c, e := (v.d + T1) % 2 ^ 64,
    f := v.e, g := v.f, h := v.g }

/-- The rounds `0 .. t-1` of the specification, in order. -/
def spec_rounds (block : List Nat) : Nat → spec_working_variables → spec_working_variables
  | 0, v => v
  | t + 1, v => spec_round block t (spec_rounds block t v)

/-- The function `compress(H, block)` of the specification: the working
variables after the 80 rounds that start from `H[0..7]`. -/
def spec_compress (H block : List Nat) : List Nat :=
  let v := spec_rounds block 80
    { a := H.getD 0 0, b := H.getD 1 0, c := H.getD 2 0, d := H.getD 3 0,
      e := H.getD 4 0, f := H.getD 5 0, g := H.getD 6 0, h := H.getD 7 0 }
  [v.a, v.b, v.c, v.d, v.e, v.f, v.g, v.h]

/-- The working variables as the array `hash_values` of the transform. -/
def spec_working_variables_list (v : spec_working_variables) : List Nat :=
  [v.a, v.b, v.c, v.d, v.e, v.f, v.g, v.h]

/-! ### HMAC in the words of the specification (section 4.9) -/

/-- The one-shot digest `D` of the repository: the 64 bytes that
`libhmac_sha512_calculate` writes for the message `m`. -/
def spec_D (m : List Nat) : List Nat :=
  (libhmac_sha512_calculate (some m) m.length (some (List.replicate 64 0)) 64).2.getD []

/-- The HMAC of the specification for a key of at most `B = 128` bytes:
`D((K xor opad) || D((K xor ipad) || message))`, where `K` is the key
zero-padded on the right to 128 bytes, `ipad` is 128 bytes of 0x36 and `opad`
is 128 bytes of 0x5c. -/
def spec_hmac_sha512 (key message : List Nat) : List Nat :=
  let K := key ++ List.replicate (128 - key.length) 0
  let ipad := List.replicate 128 0x36
  let opad := List.replicate 128 0x5c
  spec_D (List.zipWith (fun x y => x ^^^ y) K opad
    ++ spec_D (List.zipWith (fun x y => x ^^^ y) K ipad ++ message))

/-- The bytes that the specification has `libhmac_sha512_finalize` compress for
`b` buffered bytes `tail` out of `n` bytes fed: `tail || 0x80 || 0^k || L`,
where `k` is the least number with `b + 1 + k` congruent to 112 modulo 128 and
`L` is `8 * n` in 16 bytes big-endian (high 8 bytes zero). -/
def spec_finalize_bytes (tail : List Nat) (n : Nat) : List Nat :=
  tail ++ [0x80] ++ List.replicate ((112 + 128 - (tail.length + 1) % 128) % 128) 0
    ++ (List.replicate 8 0 ++ uint64_big_endian_bytes (8 * n))

/-- One of the two paddings of `libhmac_sha512_calculate_hmac`: `block_size`
bytes `value`, xored byte by byte with `key_data`. -/
def sha512_hmac_padding (value : Nat) (key_data : List Nat) (block_size : Nat) : List Nat :=
  (List.range block_size).foldl
    (fun padding block_index =>
      padding.set block_index (padding.getD block_index 0 ^^^ key_data.getD block_index 0))
    (memory_set (List.replicate block_size 0) 0 value block_size)

/-! ### Test vectors -/

/-- The key of test case 1 of RFC 4231: 20 bytes 0x0b. -/
def rfc4231_test1_key : List Nat := List.replicate 20 0x0b

/-- The data of test case 1 of RFC 4231: "Hi There". -/
def rfc4231_test1_data : List Nat := [0x48, 0x69, 0x20, 0x54, 0x68, 0x65, 0x72, 0x65]

/-- The key of test case 2 of RFC 4231: "Jefe". -/
def rfc4231_test2_key : List Nat := [0x4a, 0x65, 0x66, 0x65]

/-- The data of test case 2 of RFC 4231: "what do ya want for nothing?". -/
def rfc4231_test2_data : List Nat :=
    [0x77, 0x68, 0x61, 0x74, 0x20, 0x64, 0x6f, 0x20, 0x79, 0x61, 0x20, 0x77, 0x61, 0x6e,
     0x74, 0x20, 0x66, 0x6f, 0x72, 0x20, 0x6e, 0x6f, 0x74, 0x68, 0x69, 0x6e, 0x67, 0x3f]

/-! ### Values for the parts that are not among the sources -/

/-- Values for the constants of `libcerror_definitions.h`, used where a
property is evaluated on an input. -/
def libcerror_definitions_sample : libcerror_definitions :=
  { LIBCERROR_MESSAGE_INCREMENT_SIZE := 64,
    LIBCERROR_MESSAGE_MAXIMUM_SIZE := 4096,
    LIBCERROR_ERROR_DOMAIN_ARGUMENTS := 97,
    LIBCERROR_ERROR_DOMAIN_MEMORY := 109,
    LIBCERROR_ERROR_DOMAIN_RUNTIME := 114,
    LIBCERROR_ARGUMENT_ERROR_INVALID_VALUE := 1,
    LIBCERROR_ARGUMENT_ERROR_VALUE_EXCEEDS_MAXIMUM := 4,
    LIBCERROR_ARGUMENT_ERROR_VALUE_TOO_SMALL := 5,
    LIBCERROR_ARGUMENT_ERROR_UNSUPPORTED_VALUE := 8,
    LIBCERROR_MEMORY_ERROR_INSUFFICIENT := 1,
    LIBCERROR_MEMORY_ERROR_COPY_FAILED := 2,
    LIBCERROR_MEMORY_ERROR_SET_FAILED := 3,
    LIBCERROR_RUNTIME_ERROR_VALUE_MISSING := 1,
    LIBCERROR_RUNTIME_ERROR_VALUE_ALREADY_SET := 2,
    LIBCERROR_RUNTIME_ERROR_INITIALIZE_FAILED := 3,
    LIBCERROR_RUNTIME_ERROR_FINALIZE_FAILED := 5,
    LIBCERROR_RUNTIME_ERROR_GET_FAILED := 6,
    LIBCERROR_RUNTIME_ERROR_SET_FAILED := 7,
    LIBCERROR_RUNTIME_ERROR_COPY_FAILED := 9,
    LIBCERROR_RUNTIME_ERROR_VALUE_OUT_OF_BOUNDS := 12,
    LIBCERROR_RUNTIME_ERROR_VALUE_EXCEEDS_MAXIMUM := 13,
    LIBCERROR_RUNTIME_ERROR_UNSUPPORTED_VALUE := 14 }

/-- A stand-in for the parts of libcaes that are not among the sources, used
where a property is evaluated on an input: the context holds the direction (1
to encrypt, 0 to decrypt) followed by the bytes of the key; a key-schedule
function fails on a NULL key and leaves the context as it was. -/
def libcaes_environment_sample : libcaes_environment (List Nat) :=
  { LIBCAES_CRYPT_MODE_DECRYPT := 0,
    LIBCAES_CRYPT_MODE_ENCRYPT := 1,
    cleared_context := [],
    libcaes_initialize_tables := fun error => (1, error),
    libcaes_crypt_set_decryption_key := fun internal_context key key_bit_size error =>
      match key with
      | none => (-1, internal_context, error)
      | some bytes => (1, 0 :: bytes.take (key_bit_size / 8), error),
    libcaes_crypt_set_encryption_key := fun internal_context key key_bit_size error =>
      match key with
      | none => (-1, internal_context, error)
      | some bytes => (1, 1 :: bytes.take (key_bit_size / 8), error) }

/-- A stand-in for the macro `narrow_string_copy` of `narrow_string.h`, used
where a property is evaluated on an input: the copy of `size` characters to
the start of the destination, which succeeds. -/
def narrow_string_copy_sample (destination source : List Nat) (size : Nat) :
    Option (List Nat) :=
  some (memory_copy destination 0 source size)

/-- An error object is well formed when `messages` and `sizes` have
`number_of_messages` elements each. -/
def libcerror_error_well_formed (internal_error : libcerror_internal_error) : Prop :=
  0 ≤ internal_error.number_of_messages
    ∧ (internal_error.messages.getD []).length = internal_error.number_of_messages.toNat
    ∧ (internal_error.sizes.getD []).length = internal_error.number_of_messages.toNat

/-- Whether a child is named "key" and has a value equal to the name
`utf8_string` of `utf8_string_length` characters: the value has one character
more, the end-of-string character, and compares equal over the length. -/
def libfplist_xml_tag_is_key {Tag : Type} (E : libfplist_environment Tag)
    (utf8_string : List Nat) (utf8_string_length : Nat) (tag : Tag) : Bool :=
  decide (E.libfplist_xml_tag_compare_name tag (narrow_string "key") 3 ≠ 0
    ∧ (E.value_size tag = utf8_string_length + 1
      ∧ E.narrow_string_compare (E.value tag) utf8_string utf8_string_length = 0))

/-- Whether a child has a name other than "text". -/
def libfplist_xml_tag_is_not_text {Tag : Type} (E : libfplist_environment Tag) (tag : Tag) :
    Bool :=
  decide (E.libfplist_xml_tag_compare_name tag (narrow_string "text") 4 = 0)

/-- The sub-property of a dictionary with the child elements `elements` for a
name, as the specification words it: 0 when no child named "key" has a value
equal to the name; else, with the first such child, 0 when no child after it
has a name other than "text", and else 1 with a property whose key tag is that
child and whose value tag is the first child after it that is not named
"text". -/
def libfplist_sub_property_of_elements {Tag : Type} (E : libfplist_environment Tag)
    (elements : List Tag) (utf8_string : List Nat) (utf8_string_length : Nat) :
    Int × Option (libfplist_internal_property Tag) :=
  match elements.dropWhile
      (fun tag => !(libfplist_xml_tag_is_key E utf8_string utf8_string_length tag)) with
  | [] => (0, none)
  | key_tag :: following =>
    match following.find? (libfplist_xml_tag_is_not_text E) with
    | none => (0, none)
    | some value_tag =>
      (1, some { key_tag := some key_tag, value_tag := some value_tag,
                 value_type := LIBFPLIST_VALUE_TYPE_UNKNOWN })

/-- The primes below 410 in increasing order: the first 80 primes, 2 to 409. -/
def sha512_primes : List Nat :=
  (List.range 410).filter (fun n => decide (Nat.Prime n))

/-- The integer part of the `k`-th root of `p`: the greatest `c` with
`c ^ k ≤ p`. -/
def sha512_integer_root (k p : Nat) : Nat :=
  Nat.findGreatest (fun c => c ^ k ≤ p) p

/-- The 64-bit value `fraction` holds the first 64 bits of the fractional part
of the `k`-th root of `p`: with `c` the integer part of the root and
`n = c * 2^64 + fraction`, `n^k ≤ p * 2^(64 k) < (n + 1)^k`. -/
def sha512_root_fraction (k p fraction : Nat) : Prop :=
  fraction < 2 ^ 64
    ∧ sha512_integer_root k p ^ k ≤ p
    ∧ p < (sha512_integer_root k p + 1) ^ k
    ∧ (sha512_integer_root k p * 2 ^ 64 + fraction) ^ k ≤ p * 2 ^ (64 * k)
    ∧ p * 2 ^ (64 * k) < (sha512_integer_root k p * 2 ^ 64 + fraction + 1) ^ k

instance sha512_root_fraction_decidable (k p fraction : Nat) :
    Decidable (sha512_root_fraction k p fraction) := by
  unfold sha512_root_fraction
  infer_instance

/-- The entries of an array with the child elements `elements`, as the
specification words it: the children that are not named "text", in the order
of the document. -/
def libfplist_array_entries_of_elements {Tag : Type} (E : libfplist_environment Tag)
    (elements : List Tag) : List Tag :=
  elements.filter (libfplist_xml_tag_is_not_text E)

/-- Whether a child is named "dict". -/
def libfplist_xml_tag_is_dict {Tag : Type} (E : libfplist_environment Tag) (tag : Tag) :
    Bool :=
  decide (E.libfplist_xml_tag_compare_name tag (narrow_string "dict") 4 ≠ 0)

/-- The dict tag of a plist element with the child elements `elements`, as the
specification words it: the last child named "dict" within the longest leading
run of children that are named "text" or "dict"; `none` when there is none. -/
def libfplist_dict_tag_of_elements {Tag : Type} (E : libfplist_environment Tag)
    (elements : List Tag) : Option Tag :=
  ((elements.takeWhile
      (fun tag => !(libfplist_xml_tag_is_not_text E tag) || libfplist_xml_tag_is_dict E tag)).filter
    (libfplist_xml_tag_is_dict E)).getLast?

/-- The tags of the stand-in for the parts of libfplist that are not among the
sources: a tag is a number, and this is its name, its value without the
end-of-string character, and its child elements. The number of a tag is the
code of a letter: `p` is a plist element that holds the dictionary `d`, `h` is
an element that is neither, `a` is an array. -/
def libfplist_xml_tag_sample (tag : Nat) : String × Option String × List Nat :=
  if tag = 0x70 then ("plist", none, [0x74, 0x64, 0x74])
  else if tag = 0x64 then ("dict", none, [0x74, 0x6B, 0x74, 0x73, 0x74, 0x6C, 0x74])
  else if tag = 0x68 then ("html", none, [])
  else if tag = 0x74 then ("text", some "\n", [])
  else if tag = 0x6B then ("key", some "Name", [])
  else if tag = 0x73 then ("string", some "x", [])
  else if tag = 0x6C then ("key", some "Last", [])
  else if tag = 0x61 then ("array", none, [0x74, 0x73, 0x74, 0x69, 0x74])
  else if tag = 0x69 then ("integer", some "7", [])
  else ("", none, [])

/-- A stand-in for the parts of libfplist that are not among the sources, over
the tags of `libfplist_xml_tag_sample`. The stand-in for the parser reads a
document of the form `<p>`: the root tag is the tag of the letter. -/
def libfplist_environment_sample : libfplist_environment Nat :=
  ⟨fun tag => (libfplist_xml_tag_sample tag).2.1.map (fun text => narrow_string text ++ [0]),
   fun tag =>
    match (libfplist_xml_tag_sample tag).2.1 with
    | some text => text.length + 1
    | none => 0,
   fun tag _ =>
    if (libfplist_xml_tag_sample tag).1 = "dict" then (1, 5)
    else if (libfplist_xml_tag_sample tag).1 = "array" then (1, 1) else (1, 8),
   fun tag name name_length =>
    if narrow_string (libfplist_xml_tag_sample tag).1 = name.take name_length then 1 else 0,
   fun tag => (1, ((libfplist_xml_tag_sample tag).2.2.length : Int)),
   fun tag element_index =>
    if 0 ≤ element_index then (libfplist_xml_tag_sample tag).2.2.get? element_index.toNat
    else none,
   fun value string length =>
    if (value.getD []).take length = string.take length then 0 else 1,
   fun property_list buffer _ =>
    if buffer.getD 0 0 = 0x3C ∧ buffer.getD 2 0 = 0x3E then
      (1, { property_list with root_tag := some (buffer.getD 1 0) })
    else (-1, property_list)⟩

/-! # Properties -/

set_option maxRecDepth 1000000
set_option maxHeartbeats 4000000


theorem list_range_eight : List.range 8 = [0, 1, 2, 3, 4, 5, 6, 7] := by decide

theorem byte_stream_copy_from_uint64_big_endian_eq (bytes : List Nat) (offset value : Nat)
    (h : offset + 8 ≤ bytes.length) :
    byte_stream_copy_from_uint64_big_endian bytes offset value
      = bytes.take offset ++ uint64_big_endian_bytes value ++ bytes.drop (offset + 8) := by
  unfold byte_stream_copy_from_uint64_big_endian uint64_big_endian_bytes
  rw [list_range_eight]
  simp only [List.foldl_cons, List.foldl_nil]
  induction offset generalizing bytes with
  | zero =>
    match bytes, h with
    | a0 :: a1 :: a2 :: a3 :: a4 :: a5 :: a6 :: a7 :: rest, _ => simp [List.set]
  | succ k ih =>
    match bytes, h with
    | a :: tl, h =>
      have h2 : k + 8 ≤ tl.length := by simpa [Nat.add_right_comm] using h
      have := ih tl h2
      simp only [Nat.add_right_comm k 1, List.set_cons_succ, List.take_succ_cons,
        List.drop_succ_cons, List.cons_append] at this ⊢
      simp only [Nat.add_zero] at this ⊢
      rw [this]

theorem uint64_big_endian_bytes_length (value : Nat) :
    (uint64_big_endian_bytes value).length = 8 := rfl

theorem byte_stream_copy_from_uint64_big_endian_append (front rest : List Nat) (value : Nat)
    (h : 8 ≤ rest.length) :
    byte_stream_copy_from_uint64_big_endian (front ++ rest) front.length value
      = (front ++ uint64_big_endian_bytes value) ++ rest.drop 8 := by
  rw [byte_stream_copy_from_uint64_big_endian_eq _ _ _ (by simp; omega)]
  simp [List.take_append_eq_append_take, List.drop_append_eq_append_drop]

theorem sha512_hash_values_bytes_length (hash_values : List Nat) :
    (sha512_hash_values_bytes hash_values).length = 64 := by
  simp [sha512_hash_values_bytes, list_range_eight, uint64_big_endian_bytes_length]

theorem finalize_output_eq (out hash_values : List Nat) (h : 64 ≤ out.length) :
    (List.range 8).foldl
      (fun bytes hash_values_index =>
        byte_stream_copy_from_uint64_big_endian bytes (8 * hash_values_index)
          (hash_values.getD hash_values_index 0)) out
    = sha512_hash_values_bytes hash_values ++ out.drop 64 := by
  have key : ∀ k, k ≤ 8 →
      (List.range k).foldl
        (fun bytes hash_values_index =>
          byte_stream_copy_from_uint64_big_endian bytes (8 * hash_values_index)
            (hash_values.getD hash_values_index 0)) out
      = (List.range k).foldl
          (fun bytes i => bytes ++ uint64_big_endian_bytes (hash_values.getD i 0)) []
        ++ out.drop (8 * k) ∧
      ((List.range k).foldl
          (fun bytes i => bytes ++ uint64_big_endian_bytes (hash_values.getD i 0)) []).length
        = 8 * k := by
    intro k
    induction k with
    | zero => intro _; simp
    | succ k ih =>
      intro hk
      obtain ⟨e1, e2⟩ := ih (by omega)
      rw [List.range_succ, List.foldl_append, List.foldl_append, e1]
      simp only [List.foldl_cons, List.foldl_nil]
      constructor
      · have h8 : 8 ≤ (out.drop (8 * k)).length := by simp; omega
        have := byte_stream_copy_from_uint64_big_endian_append
          ((List.range k).foldl
            (fun bytes i => bytes ++ uint64_big_endian_bytes (hash_values.getD i 0)) [])
          (out.drop (8 * k)) (hash_values.getD k 0) h8
        rw [e2] at this
        rw [this, List.drop_drop]
        congr 2
      · rw [List.length_append, e2, uint64_big_endian_bytes_length]; omega
  exact (key 8 (le_refl _)).1

/-! ## The transform reads whole blocks, in order -/

theorem getD_take_drop (buffer : List Nat) (offset size k : Nat) (h : k < size) :
    ((buffer.drop offset).take size).getD k 0 = buffer.getD (offset + k) 0 := by
  simp [List.getD_eq_getElem?_getD, List.getElem?_take, h]

theorem byte_stream_copy_to_uint64_big_endian_window (buffer : List Nat)
    (offset size k : Nat) (h : k + 8 ≤ size) :
    byte_stream_copy_to_uint64_big_endian ((buffer.drop offset).take size) k
      = byte_stream_copy_to_uint64_big_endian buffer (offset + k) := by
  unfold byte_stream_copy_to_uint64_big_endian
  apply List.foldl_ext
  intro value i hi
  have hi8 : i < 8 := List.mem_range.mp hi
  rw [getD_take_drop buffer offset size (k + i) (by omega), Nat.add_assoc]

theorem libhmac_sha512_transform_block_window (hash_values buffer : List Nat)
    (buffer_offset : Nat) :
    libhmac_sha512_transform_block hash_values ((buffer.drop buffer_offset).take 128) 0
      = libhmac_sha512_transform_block hash_values buffer buffer_offset := by
  unfold libhmac_sha512_transform_block
  have e : (List.range 16).foldl
      (fun values i => values.set i
        (byte_stream_copy_to_uint64_big_endian ((buffer.drop buffer_offset).take 128)
          (0 + 8 * i))) (List.replicate 80 0)
      = (List.range 16).foldl
      (fun values i => values.set i
        (byte_stream_copy_to_uint64_big_endian buffer (buffer_offset + 8 * i)))
      (List.replicate 80 0) := by
    apply List.foldl_ext
    intro values i hi
    have hi16 : i < 16 := List.mem_range.mp hi
    rw [Nat.zero_add,
      byte_stream_copy_to_uint64_big_endian_window buffer buffer_offset 128 (8 * i) (by omega)]
  simp only [e]

theorem libhmac_sha512_transform_loop_eq (buffer : List Nat) :
    ∀ (fuel : Nat) (hash_values : List Nat) (buffer_offset size : Nat), size / 128 ≤ fuel →
      libhmac_sha512_transform_loop fuel hash_values buffer buffer_offset size
        = (sha512_compress_blocks (size / 128) hash_values (buffer.drop buffer_offset),
           buffer_offset + 128 * (size / 128)) := by
  intro fuel
  induction fuel with
  | zero =>
    intro hash_values buffer_offset size h
    have h0 : size / 128 = 0 := by omega
    simp [libhmac_sha512_transform_loop, h0, sha512_compress_blocks]
  | succ fuel ih =>
    intro hash_values buffer_offset size h
    unfold libhmac_sha512_transform_loop
    by_cases hs : size ≥ LIBHMAC_SHA512_BLOCK_SIZE
    · have hs2 : 128 ≤ size := hs
      have hq : size / 128 = (size - 128) / 128 + 1 := by omega
      rw [if_pos hs, ih _ _ _ (by simp only [LIBHMAC_SHA512_BLOCK_SIZE]; omega)]
      simp only [LIBHMAC_SHA512_BLOCK_SIZE]
      have e1 : sha512_compress_blocks (size / 128) hash_values (buffer.drop buffer_offset)
          = sha512_compress_blocks ((size - 128) / 128)
              (libhmac_sha512_transform_block hash_values buffer buffer_offset)
              (buffer.drop (buffer_offset + 128)) := by
        rw [hq, sha512_compress_blocks, List.drop_drop,
          ← libhmac_sha512_transform_block_window hash_values (buffer.drop buffer_offset) 0,
          List.drop_zero,
          libhmac_sha512_transform_block_window hash_values buffer buffer_offset]
      have e2 : buffer_offset + 128 + 128 * ((size - 128) / 128)
          = buffer_offset + 128 * (size / 128) := by omega
      rw [e1, e2]
    · have hs2 : size < 128 := by simpa [LIBHMAC_SHA512_BLOCK_SIZE] using hs
      have h0 : size / 128 = 0 := by omega
      rw [if_neg hs]
      simp [h0, sha512_compress_blocks]

theorem sha512_compress_blocks_take :
    ∀ (k : Nat) (hash_values data : List Nat) (n : Nat), 128 * k ≤ n →
      sha512_compress_blocks k hash_values (data.take n)
        = sha512_compress_blocks k hash_values data := by
  intro k
  induction k with
  | zero => intro hash_values data n _; rfl
  | succ k ih =>
    intro hash_values data n h
    rw [sha512_compress_blocks, sha512_compress_blocks,
      ← libhmac_sha512_transform_block_window hash_values (data.take n) 0,
      ← libhmac_sha512_transform_block_window hash_values data 0]
    simp only [List.drop_zero]
    rw [List.take_take, Nat.min_eq_left (by omega), List.drop_take, ih _ _ _ (by omega)]

theorem sha512_compress_blocks_add :
    ∀ (j k : Nat) (hash_values data : List Nat),
      sha512_compress_blocks (j + k) hash_values data
        = sha512_compress_blocks k (sha512_compress_blocks j hash_values data)
            (data.drop (128 * j)) := by
  intro j
  induction j with
  | zero => intro k hash_values data; simp [sha512_compress_blocks]
  | succ j ih =>
    intro k hash_values data
    rw [Nat.add_right_comm, sha512_compress_blocks, ih, sha512_compress_blocks, List.drop_drop]
    congr 2
    omega

theorem libhmac_sha512_transform_eq (ic : libhmac_internal_sha512_context)
    (buffer : List Nat) (size : Nat) (h : size ≤ SSIZE_MAX) :
    libhmac_sha512_transform (some ic) (some buffer) size
      = (((128 * (size / 128) : Nat) : Int),
         some { ic with
           hash_values := sha512_compress_blocks (size / 128) ic.hash_values buffer }) := by
  unfold libhmac_sha512_transform
  simp only [if_neg (Nat.not_lt.mpr h)]
  rw [libhmac_sha512_transform_loop_eq buffer size ic.hash_values 0 size (Nat.div_le_self _ _)]
  simp

/-! ## The invariant of the incremental context -/

theorem sha512_compress_blocks_append_left (k : Nat) (iv data more : List Nat)
    (h : 128 * k ≤ data.length) :
    sha512_compress_blocks k iv (data ++ more) = sha512_compress_blocks k iv data := by
  rw [← sha512_compress_blocks_take k iv (data ++ more) (128 * k) (le_refl _),
    ← sha512_compress_blocks_take k iv data (128 * k) (le_refl _),
    List.take_append_of_le_length h]

theorem libhmac_sha512_update_remainder_eq (ic : libhmac_internal_sha512_context)
    (buffer : List Nat) (buffer_offset size : Nat) (h : size < 128) :
    libhmac_sha512_update_remainder ic buffer buffer_offset size
      = (1, if size > 0 then
          { ic with
            block := memory_copy ic.block 0 (buffer.drop buffer_offset) size,
            block_offset := size }
        else ic) := by
  unfold libhmac_sha512_update_remainder
  by_cases h0 : size > 0
  · have h1 : ¬ size ≥ LIBHMAC_SHA512_BLOCK_SIZE := by
      simp only [LIBHMAC_SHA512_BLOCK_SIZE]; omega
    simp [h0, h1]
  · simp [h0]

theorem libhmac_sha512_update_blocks_absorbed (iv : List Nat)
    (ic : libhmac_internal_sha512_context) (data buffer : List Nat) (buffer_offset : Nat)
    (h : sha512_context_absorbed iv ic data) (h0 : data.length % 128 = 0)
    (hoff : buffer_offset ≤ buffer.length) (hsize : buffer.length - buffer_offset ≤ SSIZE_MAX) :
    ∃ ic', libhmac_sha512_update_blocks ic buffer buffer_offset (buffer.length - buffer_offset)
        = (1, ic') ∧ sha512_context_absorbed iv ic' (data ++ buffer.drop buffer_offset) := by
  obtain ⟨hbo, hhc, hbl, hbe, hhv⟩ := h
  generalize hs : buffer.length - buffer_offset = size at hsize ⊢
  have htl : (buffer.drop buffer_offset).length = size := by simp [hs]
  unfold libhmac_sha512_update_blocks
  by_cases hpos : size > 0
  · rw [if_pos hpos, libhmac_sha512_transform_eq ic _ size hsize]
    have hne : ¬ (((128 * (size / 128) : Nat) : Int) = -1) := by omega
    simp only [hne, if_false, Option.getD_some, Int.toNat_ofNat]
    have hrem : size - 128 * (size / 128) = size % 128 := by omega
    have hlt : size % 128 < 128 := Nat.mod_lt _ (by norm_num)
    rw [hrem, libhmac_sha512_update_remainder_eq _ _ _ _ hlt]
    refine ⟨_, rfl, ?_⟩
    have hlen : (data ++ buffer.drop buffer_offset).length = data.length + size := by
      simp [hs]
    have hq : (data.length + size) / 128 = data.length / 128 + size / 128 := by omega
    have hr : (data.length + size) % 128 = size % 128 := by omega
    have hd : 128 * (data.length / 128) = data.length := by omega
    have hhash : sha512_compress_blocks (size / 128) ic.hash_values (buffer.drop buffer_offset)
        = sha512_compress_blocks ((data.length + size) / 128) iv
            (data ++ buffer.drop buffer_offset) := by
      rw [hq, sha512_compress_blocks_add, sha512_compress_blocks_append_left _ _ _ _ (by omega),
        hd, List.drop_left, hhv]
    have hcount : (ic.hash_count + 128 * (size / 128)) % 2 ^ 64
        = (128 * ((data.length + size) / 128)) % 2 ^ 64 := by
      rw [hhc, hq, Nat.mul_add]; simp [Nat.add_mod]
    have hdrop : (data ++ buffer.drop buffer_offset).drop (128 * ((data.length + size) / 128))
        = buffer.drop (buffer_offset + 128 * (size / 128)) := by
      rw [hq, Nat.mul_add, hd, List.drop_append, List.drop_drop]
    by_cases hz : size % 128 > 0
    · simp only [hz, if_true]
      constructor
      · simp [hlen, hr]
      · simp only [hlen]; exact hcount
      · simp [memory_copy, hbl, htl, hs]; omega
      · simp only [hlen, hr, hdrop, memory_copy, List.take_zero, List.nil_append]
        have hlen2 : (buffer.drop (buffer_offset + 128 * (size / 128))).length = size % 128 := by
          simp; omega
        have e : List.take (size % 128) (buffer.drop (buffer_offset + 128 * (size / 128)))
            = buffer.drop (buffer_offset + 128 * (size / 128)) :=
          List.take_of_length_le (le_of_eq hlen2)
        rw [e, List.take_append_of_le_length (le_of_eq hlen2.symm), e]
      · simp only [hlen]; exact hhash
    · simp only [hz, if_false]
      have hz0 : size % 128 = 0 := by omega
      constructor
      · simp [hlen, hr, hz0, hbo, h0]
      · simp only [hlen]; exact hcount
      · exact hbl
      · simp only [hlen, hr, hdrop, hz0, List.take_zero]
        symm; apply List.drop_eq_nil_of_le; omega
      · simp only [hlen]; exact hhash
  · have hz : size = 0 := by omega
    rw [if_neg hpos, libhmac_sha512_update_remainder_eq _ _ _ _ (by omega)]
    simp only [hpos, if_false]
    refine ⟨ic, rfl, ?_⟩
    have hnil : buffer.drop buffer_offset = [] := by
      apply List.drop_eq_nil_of_le; omega
    rw [hnil, List.append_nil]
    exact ⟨hbo, hhc, hbl, hbe, hhv⟩

theorem libhmac_sha512_update_absorbed (iv : List Nat) (ic : libhmac_internal_sha512_context)
    (data m : List Nat) (h : sha512_context_absorbed iv ic data) (hm : m.length ≤ SSIZE_MAX) :
    ∃ ic', libhmac_sha512_update (some ic) (some m) m.length = (1, some ic')
      ∧ sha512_context_absorbed iv ic' (data ++ m) := by
  have hall := h
  obtain ⟨hbo, hhc, hbl, hbe, hhv⟩ := h
  unfold libhmac_sha512_update
  by_cases hz : m.length = 0
  · have hnil : m = [] := List.length_eq_zero.mp hz
    subst hnil
    exact ⟨ic, by simp, by simpa using hall⟩
  · have hgt : ¬ m.length > SSIZE_MAX := Nat.not_lt.mpr hm
    simp only [hz, hgt, if_false]
    have hblt : data.length % 128 < 128 := Nat.mod_lt _ (by norm_num)
    by_cases hb : ic.block_offset > 0
    · simp only [hb, if_true]
      have hrem : (LIBHMAC_SHA512_BLOCK_SIZE + 2 ^ 64 - ic.block_offset) % 2 ^ 64
          = 128 - data.length % 128 := by
        simp only [LIBHMAC_SHA512_BLOCK_SIZE]; rw [hbo] at hb ⊢; omega
      rw [hrem]
      by_cases hshort : 128 - data.length % 128 > m.length
      · -- the new bytes do not fill the block
        simp only [hshort, if_true]
        have hoff : (ic.block_offset + m.length) % 2 ^ 64 = data.length % 128 + m.length := by
          rw [hbo]; omega
        have hlt : data.length % 128 + m.length < LIBHMAC_SHA512_BLOCK_SIZE := by
          simp only [LIBHMAC_SHA512_BLOCK_SIZE]; omega
        simp only [hoff, hlt, if_true]
        refine ⟨_, rfl, ?_⟩
        have hq : (data.length + m.length) / 128 = data.length / 128 := by omega
        have hr : (data.length + m.length) % 128 = data.length % 128 + m.length := by omega
        constructor
        · simp [hr]
        · simp [hq, hhc]
        · simp [memory_copy, hbl, hbo]; omega
        · simp only [List.length_append, hr, hq, memory_copy, hbo, List.take_length]
          rw [List.drop_append_of_le_length (by omega), ← hbe]
          have hl1 : (List.take (data.length % 128) ic.block).length = data.length % 128 := by
            simp [hbl]; omega
          rw [List.append_assoc, List.take_append_eq_append_take, hl1,
            List.take_of_length_le (by omega), Nat.add_sub_cancel_left,
            List.take_append_of_le_length (le_refl _), List.take_length]
        · simp only [List.length_append, hq]
          rw [sha512_compress_blocks_append_left _ _ _ _ (by omega), hhv]
      · -- the block is filled, transformed, and the rest of the buffer follows
        simp only [hshort, if_false]
        have hoff : (ic.block_offset + (128 - data.length % 128)) % 2 ^ 64 = 128 := by
          rw [hbo]; omega
        have hnlt : ¬ (128 < LIBHMAC_SHA512_BLOCK_SIZE) := by
          simp [LIBHMAC_SHA512_BLOCK_SIZE]
        simp only [hoff, hnlt, if_false]
        rw [libhmac_sha512_transform_eq _ _ _ (by simp [LIBHMAC_SHA512_BLOCK_SIZE, SSIZE_MAX])]
        have hne : ¬ (((128 * (LIBHMAC_SHA512_BLOCK_SIZE / 128) : Nat) : Int) = -1) := by omega
        simp only [hne, if_false, Option.getD_some, Int.toNat_ofNat, Nat.zero_add]
        -- the context after the block has been transformed
        have hstep : sha512_context_absorbed iv
            { hash_count := (ic.hash_count + 128 * (LIBHMAC_SHA512_BLOCK_SIZE / 128)) % 2 ^ 64,
              hash_values := sha512_compress_blocks (LIBHMAC_SHA512_BLOCK_SIZE / 128)
                ic.hash_values
                (memory_copy ic.block ic.block_offset m (128 - data.length % 128)),
              block_offset := 0,
              block := memory_copy ic.block ic.block_offset m (128 - data.length % 128) }
            (data ++ m.take (128 - data.length % 128)) := by
          have hlen : (data ++ m.take (128 - data.length % 128)).length
              = data.length + (128 - data.length % 128) := by
            simp; omega
          have hq : (data.length + (128 - data.length % 128)) / 128
              = data.length / 128 + 1 := by omega
          have hr : (data.length + (128 - data.length % 128)) % 128 = 0 := by omega
          have hl1 : (List.take (data.length % 128) ic.block).length = data.length % 128 := by
            simp [hbl]; omega
          have hblock : memory_copy ic.block ic.block_offset m (128 - data.length % 128)
              = data.drop (128 * (data.length / 128)) ++ m.take (128 - data.length % 128) := by
            simp only [memory_copy, hbo]
            have hd : List.drop (data.length % 128 + (128 - data.length % 128)) ic.block
                = [] := List.drop_eq_nil_of_le (by rw [hbl]; omega)
            rw [hd, hbe, List.append_nil]
          constructor
          · simp [hlen, hr]
          · simp only [hlen, hq, LIBHMAC_SHA512_BLOCK_SIZE, hhc]; omega
          · rw [hblock]; simp; omega
          · simp only [hlen, hr, List.take_zero]
            symm; apply List.drop_eq_nil_of_le; simp; omega
          · simp only [hlen, hq, LIBHMAC_SHA512_BLOCK_SIZE]
            rw [sha512_compress_blocks_add,
              sha512_compress_blocks_append_left _ _ _ _ (by omega),
              List.drop_append_of_le_length (by omega), ← hblock, hhv]
        have hmod : (data ++ m.take (128 - data.length % 128)).length % 128 = 0 := by
          simp; omega
        have hle : 128 - data.length % 128 ≤ m.length := by omega
        obtain ⟨ic', e1, e2⟩ := libhmac_sha512_update_blocks_absorbed iv _ _ m
          (128 - data.length % 128) hstep hmod hle (by omega)
        rw [e1]
        refine ⟨ic', rfl, ?_⟩
        rw [List.append_assoc, List.take_append_drop] at e2
        exact e2
    · simp only [hb, if_false]
      have hmod : data.length % 128 = 0 := by omega
      obtain ⟨ic', e1, e2⟩ := libhmac_sha512_update_blocks_absorbed iv ic data m 0 hall hmod
        (Nat.zero_le _) (by omega)
      rw [Nat.sub_zero] at e1
      rw [e1]
      exact ⟨ic', rfl, by simpa using e2⟩

/-! ## Finalization -/

theorem list_set_append_cons (front rest : List Nat) (x y : Nat) :
    (front ++ x :: rest).set front.length y = front ++ y :: rest := by
  induction front with
  | nil => rfl
  | cons a tl ih => simp [List.set, ih]

theorem sha512_finalize_bytes_length (tail : List Nat) (hash_count : Nat)
    (h : tail.length < 128) :
    (sha512_finalize_bytes tail hash_count).length
      = if tail.length > 119 then 256 else 128 := by
  unfold sha512_finalize_bytes
  simp only [List.length_append, List.length_replicate, uint64_big_endian_bytes_length,
    List.length_singleton]
  split <;> omega

theorem libhmac_sha512_finalize_padding_eq (ic : libhmac_internal_sha512_context)
    (hbl : ic.block.length = 128) (hb : ic.block_offset < 128) :
    libhmac_sha512_finalize_padding ic
      = ({ ic with
            block := sha512_finalize_bytes (ic.block.take ic.block_offset) ic.hash_count },
         if ic.block_offset > 119 then 256 else 128) := by
  have hl : (ic.block.take ic.block_offset).length = ic.block_offset := by
    simp [hbl]; omega
  unfold libhmac_sha512_finalize_padding sha512_finalize_bytes
  simp only [LIBHMAC_SHA512_BLOCK_SIZE, hl]
  generalize hbs : (if ic.block_offset > 119 then 1 + 1 else 1) * 128 = block_size
  have hbs2 : (if ic.block_offset > 119 then 256 else 128) = block_size := by
    rw [← hbs]; split <;> rfl
  rw [hbs2]
  have hge : ic.block_offset + 9 ≤ block_size := by
    rw [← hbs]; split <;> omega
  have h128 : 128 ≤ block_size := by
    rw [← hbs]; split <;> omega
  have h256 : block_size ≤ 256 := by
    rw [← hbs]; split <;> omega
  have hsz : (block_size + 2 ^ 64 - ic.block_offset) % 2 ^ 64
      = ((block_size - 9 - ic.block_offset) + 8) + 1 := by omega
  have hset : memory_set ic.block ic.block_offset 0
        ((block_size + 2 ^ 64 - ic.block_offset) % 2 ^ 64)
      = ic.block.take ic.block_offset
          ++ 0 :: (List.replicate (block_size - 9 - ic.block_offset) 0 ++ List.replicate 8 0) := by
    unfold memory_set
    rw [hsz, List.drop_eq_nil_of_le (by rw [hbl]; omega), List.append_nil,
      List.replicate_succ, List.replicate_add]
  have hmark : (memory_set ic.block ic.block_offset 0
        ((block_size + 2 ^ 64 - ic.block_offset) % 2 ^ 64)).set ic.block_offset 0x80
      = (ic.block.take ic.block_offset ++ [0x80]
          ++ List.replicate (block_size - 9 - ic.block_offset) 0) ++ List.replicate 8 0 := by
    rw [hset]
    have := list_set_append_cons (ic.block.take ic.block_offset)
      (List.replicate (block_size - 9 - ic.block_offset) 0 ++ List.replicate 8 0) 0 0x80
    rw [hl] at this
    rw [this]
    simp
  have hfl : (ic.block.take ic.block_offset ++ [0x80]
      ++ List.replicate (block_size - 9 - ic.block_offset) 0).length = block_size - 8 := by
    simp only [List.length_append, List.length_replicate, List.length_singleton, hl]; omega
  simp only [hmark]
  have hw := byte_stream_copy_from_uint64_big_endian_append
    (ic.block.take ic.block_offset ++ [0x80]
      ++ List.replicate (block_size - 9 - ic.block_offset) 0) (List.replicate 8 0)
    (((ic.hash_count + ic.block_offset) * 8) % 2 ^ 64) (by simp)
  rw [hfl] at hw
  rw [hw]
  simp

theorem libhmac_sha512_finalize_block_indices_bound (ic : libhmac_internal_sha512_context)
    (h : ic.block_offset < 128) :
    (∀ i ∈ libhmac_sha512_finalize_block_indices ic, i < 128) ↔ ic.block_offset ≤ 119 := by
  unfold libhmac_sha512_finalize_block_indices
  simp only [LIBHMAC_SHA512_BLOCK_SIZE]
  by_cases hb : ic.block_offset > 119
  · simp only [hb, if_true]
    constructor
    · intro hall
      have := hall 255 (by simp [List.mem_range'_1])
      omega
    · intro hle; omega
  · simp only [hb, if_false]
    constructor
    · intro _; omega
    · intro _ i hi
      simp only [List.mem_append, List.mem_range'_1, List.mem_singleton] at hi
      have e : (1 * 128 + 2 ^ 64 - ic.block_offset) % 2 ^ 64 = 128 - ic.block_offset := by
        omega
      rw [e] at hi
      omega

theorem libhmac_sha512_finalize_in_bounds_iff (ic : libhmac_internal_sha512_context) :
    libhmac_sha512_finalize_in_bounds ic = true ↔ ic.block_offset ≤ 119 := by
  unfold libhmac_sha512_finalize_in_bounds
  rw [List.all_eq_true]
  simp only [decide_eq_true_eq, LIBHMAC_SHA512_BLOCK_SIZE]
  by_cases h : ic.block_offset < 128
  · exact libhmac_sha512_finalize_block_indices_bound ic h
  · constructor
    · intro hall
      have := hall ic.block_offset (by unfold libhmac_sha512_finalize_block_indices; simp)
      omega
    · intro hle; omega

theorem libhmac_undefined_behaviour_ne_one : ¬ ((1 : Int) = libhmac_undefined_behaviour) := by
  decide

theorem libhmac_sha512_finalize_absorbed (iv : List Nat)
    (ic : libhmac_internal_sha512_context) (data out : List Nat) (hash_size : Nat)
    (h : sha512_context_absorbed iv ic data) (h1 : 64 ≤ hash_size) (h2 : hash_size ≤ SSIZE_MAX)
    (hin : data.length % 128 ≤ 119) :
    libhmac_sha512_finalize (some ic) (some out) hash_size
      = (1, some sha512_cleared_context,
         some (sha512_write_hash_values (sha512_digest_words iv data) out)) := by
  obtain ⟨hbo, hhc, hbl, hbe, hhv⟩ := h
  have hblt : data.length % 128 < 128 := Nat.mod_lt _ (by norm_num)
  have hb : libhmac_sha512_finalize_in_bounds ic = true :=
    (libhmac_sha512_finalize_in_bounds_iff ic).2 (by omega)
  unfold libhmac_sha512_finalize
  have c1 : ¬ hash_size < LIBHMAC_SHA512_HASH_SIZE := by
    simp only [LIBHMAC_SHA512_HASH_SIZE]; omega
  have c2 : ¬ hash_size > SSIZE_MAX := Nat.not_lt.mpr h2
  simp only [c1, c2, hb, Bool.true_eq_false, if_false]
  rw [libhmac_sha512_finalize_padding_eq ic hbl (by omega)]
  simp only []
  rw [libhmac_sha512_transform_eq _ _ _ (by split <;> simp [SSIZE_MAX])]
  have hne : ¬ (((128 * ((if ic.block_offset > 119 then 256 else 128) / 128) : Nat) : Int)
      = -1) := by omega
  simp only [hne, if_false, Option.getD_some]
  have hq : (if ic.block_offset > 119 then 256 else 128) / 128
      = if ic.block_offset > 119 then 2 else 1 := by split <;> rfl
  have htl : (data.drop (128 * (data.length / 128))).length = data.length % 128 := by
    simp; omega
  unfold sha512_digest_words sha512_write_hash_values sha512_cleared_context
  rw [hbo] at hq
  simp only [hq, htl, hbo, hbe, hhc, hhv]

theorem uint64_complement_eq (x : Nat) (h : x < 2 ^ 64) :
    x ^^^ (2 ^ 64 - 1) = 2 ^ 64 - 1 - x := by
  apply Nat.eq_of_testBit_eq
  intro i
  have e : 2 ^ 64 - 1 - x = 2 ^ 64 - (x + 1) := by omega
  rw [e, Nat.testBit_xor, Nat.testBit_two_pow_sub_one, Nat.testBit_two_pow_sub_succ h]
  by_cases hi : i < 64
  · simp [hi]
  · have hx : x.testBit i = false := by
      apply Nat.testBit_eq_false_of_lt
      calc x < 2 ^ 64 := h
        _ ≤ 2 ^ i := Nat.pow_le_pow_right (by norm_num) (by omega)
    simp [hi, hx]

/-! ## The compression function as the specification words it -/

/-! ### the message schedule -/

theorem schedule_load (buffer : List Nat) (buffer_offset : Nat) :
    ∀ k, k ≤ 16 →
      ((List.range k).foldl
        (fun values i => values.set i
          (byte_stream_copy_to_uint64_big_endian buffer (buffer_offset + 8 * i)))
        (List.replicate 80 0)).length = 80 ∧
      ∀ i, i < k →
        ((List.range k).foldl
          (fun values i => values.set i
            (byte_stream_copy_to_uint64_big_endian buffer (buffer_offset + 8 * i)))
          (List.replicate 80 0)).getD i 0
        = byte_stream_copy_to_uint64_big_endian buffer (buffer_offset + 8 * i) := by
  intro k
  induction k with
  | zero =>
    intro _
    exact ⟨by simp only [List.range_zero, List.foldl_nil, List.length_replicate],
      fun i hi => absurd hi (Nat.not_lt_zero i)⟩
  | succ k ih =>
    intro hk
    obtain ⟨hl, hv⟩ := ih (by omega)
    rw [List.range_succ, List.foldl_append]
    simp only [List.foldl_cons, List.foldl_nil]
    generalize (List.range k).foldl
      (fun values i => values.set i
        (byte_stream_copy_to_uint64_big_endian buffer (buffer_offset + 8 * i)))
      (List.replicate 80 0) = values at hl hv ⊢
    refine ⟨by rw [List.length_set, hl], ?_⟩
    intro i hi
    by_cases e : i = k
    · subst e
      have hlt : i < values.length := by omega
      simp only [List.getD_eq_getElem?_getD, List.getElem?_set, hlt, if_true, Option.getD_some]
    · have := hv i (by omega)
      simp only [List.getD_eq_getElem?_getD] at this ⊢
      rw [List.getElem?_set_ne (Ne.symm e)]
      exact this

theorem schedule_extend (block values0 : List Nat) (hl0 : values0.length = 80)
    (h0 : ∀ i, i < 16 → values0.getD i 0 = spec_W block i) :
    ∀ k, k ≤ 64 →
      ((List.range' 16 k).foldl libhmac_sha512_transform_extend_64bit_value values0).length = 80
      ∧ ∀ i, i < 16 + k →
        ((List.range' 16 k).foldl libhmac_sha512_transform_extend_64bit_value values0).getD i 0
          = spec_W block i := by
  intro k
  induction k with
  | zero =>
    intro _
    simp only [List.range'_zero, List.foldl_nil, Nat.add_zero]
    exact ⟨hl0, h0⟩
  | succ k ih =>
    intro hk
    obtain ⟨hl, hv⟩ := ih (by omega)
    rw [List.range'_concat, List.foldl_append]
    simp only [List.foldl_cons, List.foldl_nil, Nat.one_mul]
    generalize (List.range' 16 k).foldl libhmac_sha512_transform_extend_64bit_value values0
      = values at hl hv ⊢
    unfold libhmac_sha512_transform_extend_64bit_value
    refine ⟨by simp [hl], ?_⟩
    intro i hi
    by_cases e : i = 16 + k
    · subst e
      simp only [List.getD_eq_getElem?_getD, List.getElem?_set, hl]
      simp only [← List.getD_eq_getElem?_getD]
      rw [hv _ (by omega), hv _ (by omega), hv _ (by omega), hv _ (by omega)]
      have hlt : 16 + k < 80 := by omega
      simp only [hlt, if_true, Option.getD_some]
      conv_rhs => rw [spec_W]
      have hn : ¬ (16 + k < 16) := by omega
      simp only [hn, dite_false, spec_sigma0, spec_sigma1, spec_ROTR]
      congr 1
      omega
    · have := hv i (by omega)
      simp only [List.getD_eq_getElem?_getD] at this ⊢
      rw [List.getElem?_set_ne (Ne.symm e)]
      exact this

/-! ### the rounds -/

theorem round_refines (values block : List Nat) (t : Nat) (v : spec_working_variables)
    (hW : values.getD t 0 = spec_W block t) (he : v.e < 2 ^ 64) :
    libhmac_sha512_transform_calculate_hash_value values (spec_working_variables_list v) t
      = spec_working_variables_list (spec_round block t v) := by
  unfold libhmac_sha512_transform_calculate_hash_value spec_working_variables_list spec_round
  simp only [List.getD_cons_zero, List.getD_cons_succ, List.set_cons_zero, List.set_cons_succ,
    hW, spec_Sigma0, spec_Sigma1, spec_Ch, spec_Maj, spec_ROTR, uint64_complement_eq v.e he]
  congr 1
  · omega
  · congr 4
    omega

theorem rounds_refine (values block : List Nat)
    (hW : ∀ i, i < 80 → values.getD i 0 = spec_W block i) (v : spec_working_variables)
    (he : v.e < 2 ^ 64) :
    ∀ t, t ≤ 80 →
      (List.range' 0 t).foldl (libhmac_sha512_transform_calculate_hash_value values)
          (spec_working_variables_list v)
        = spec_working_variables_list (spec_rounds block t v)
      ∧ (spec_rounds block t v).e < 2 ^ 64 := by
  intro t
  induction t with
  | zero => intro _; exact ⟨rfl, he⟩
  | succ t ih =>
    intro ht
    obtain ⟨e1, e2⟩ := ih (by omega)
    rw [List.range'_concat, List.foldl_append, e1]
    simp only [List.foldl_cons, List.foldl_nil, Nat.one_mul, Nat.zero_add]
    rw [round_refines values block t _ (hW t (by omega)) e2]
    refine ⟨rfl, ?_⟩
    show (spec_round block t (spec_rounds block t v)).e < 2 ^ 64
    unfold spec_round
    exact Nat.mod_lt _ (by norm_num)

theorem libhmac_sha512_transform_block_refines (H block : List Nat) (hlen : H.length = 8)
    (hH : ∀ x ∈ H, x < 2 ^ 64) :
    libhmac_sha512_transform_block H block 0
      = List.zipWith (fun x y => (x + y) % 2 ^ 64) H (spec_compress H block) := by
  match H, hlen, hH with
  | [h0, h1, h2, h3, h4, h5, h6, h7], _, hH =>
    have he : h4 < 2 ^ 64 := hH h4 (by simp)
    unfold libhmac_sha512_transform_block
    obtain ⟨hl0, hv0⟩ := schedule_load block 0 16 (le_refl _)
    have hW0 : ∀ i, i < 16 →
        ((List.range 16).foldl
          (fun values i => values.set i
            (byte_stream_copy_to_uint64_big_endian block (0 + 8 * i)))
          (List.replicate 80 0)).getD i 0 = spec_W block i := by
      intro i hi
      rw [hv0 i hi, spec_W, dif_pos hi, Nat.zero_add]
    obtain ⟨_, hW⟩ := schedule_extend block _ hl0 hW0 64 (le_refl _)
    have hr := (rounds_refine _ block (fun i hi => hW i (by omega))
      { a := h0, b := h1, c := h2, d := h3, e := h4, f := h5, g := h6, h := h7 } he
      80 (le_refl _)).1
    simp only [spec_working_variables_list] at hr
    simp only []
    rw [hr]
    simp [spec_compress, List.range_succ, List.set, List.getD]

/-! ## The one-shot digest -/

theorem libhmac_sha512_initialize_eq :
    libhmac_sha512_initialize (some none) = (1, some (some sha512_initial_context)) := by
  decide

theorem sha512_initial_context_absorbed :
    sha512_context_absorbed libhmac_sha512_prime_square_roots sha512_initial_context [] := by
  constructor <;> simp [sha512_initial_context, sha512_compress_blocks]

theorem sha512_cleared_context_absorbed :
    sha512_context_absorbed (List.replicate 8 0) sha512_cleared_context [] := by
  constructor <;> simp [sha512_cleared_context, sha512_compress_blocks]

theorem libhmac_sha512_calculate_eq (m out : List Nat) (hash_size : Nat)
    (hm : m.length ≤ SSIZE_MAX) (h1 : 64 ≤ hash_size) (h2 : hash_size ≤ SSIZE_MAX)
    (hin : m.length % 128 ≤ 119) :
    libhmac_sha512_calculate (some m) m.length (some out) hash_size
      = (1, some (sha512_write_hash_values
          (sha512_digest_words libhmac_sha512_prime_square_roots m) out)) := by
  obtain ⟨ic, e1, e2⟩ := libhmac_sha512_update_absorbed _ _ [] m
    sha512_initial_context_absorbed hm
  rw [List.nil_append] at e2
  unfold libhmac_sha512_calculate
  simp only [libhmac_sha512_initialize_eq, Option.getD_some, e1,
    libhmac_sha512_finalize_absorbed _ ic m out hash_size e2 h1 h2 hin, libhmac_sha512_free,
    libhmac_undefined_behaviour_ne_one, if_false]
  simp

theorem sha512_write_hash_values_eq (hash_values out : List Nat) (h : out.length = 64) :
    sha512_write_hash_values hash_values out = sha512_hash_values_bytes hash_values := by
  unfold sha512_write_hash_values
  rw [finalize_output_eq out hash_values (by omega), List.drop_eq_nil_of_le (by omega),
    List.append_nil]

/-! ## The properties of the specification -/

theorem sha512_update_all_absorbed (iv : List Nat) :
    ∀ (buffers : List (List Nat)) (ic ic' : libhmac_internal_sha512_context) (data : List Nat),
      sha512_context_absorbed iv ic data →
      sha512_update_all (some ic) buffers = some (some ic') →
      sha512_context_absorbed iv ic' (data ++ buffers.flatten) := by
  intro buffers
  induction buffers with
  | nil =>
    intro ic ic' data h hrun
    simp only [sha512_update_all, Option.some.injEq] at hrun
    subst hrun
    simpa using h
  | cons m ms ih =>
    intro ic ic' data h hrun
    by_cases hm : m.length ≤ SSIZE_MAX
    · obtain ⟨ic1, e1, e2⟩ := libhmac_sha512_update_absorbed iv ic data m h hm
      simp only [sha512_update_all, e1, if_true] at hrun
      have := ih ic1 ic' (data ++ m) e2 hrun
      simpa [List.append_assoc] using this
    · exfalso
      have hz : ¬ m.length = 0 := by
        simp only [SSIZE_MAX] at hm; omega
      have hgt : m.length > SSIZE_MAX := by omega
      simp [sha512_update_all, libhmac_sha512_update, hz, hgt] at hrun

/-- C9: after `libhmac_sha512_initialize` and any sequence of successful
`libhmac_sha512_update` calls that feed `n` bytes in total (`n` below `2 ^ 64`,
the range of the byte counter), `block_offset = n mod 128` (so below 128),
`hash_count = 128 * floor(n / 128)`, the first `block_offset` bytes of `block`
are the last `n mod 128` bytes fed, and `hash_values` is the result of folding
the first `floor(n / 128)` whole blocks of the input, in order, into the
initial hash values. -/
theorem libhmac_sha512_context_invariant (buffers : List (List Nat))
    (ic : libhmac_internal_sha512_context)
    (hrun : sha512_update_all (( libhmac_sha512_initialize (some none)).2.getD none) buffers
      = some (some ic))
    (hn : buffers.flatten.length < 2 ^ 64) :
    ic.block_offset = buffers.flatten.length % 128
      ∧ ic.block_offset < 128
      ∧ ic.hash_count = 128 * (buffers.flatten.length / 128)
      ∧ ic.block.take ic.block_offset
          = buffers.flatten.drop (buffers.flatten.length - buffers.flatten.length % 128)
      ∧ ic.hash_values = sha512_compress_blocks (buffers.flatten.length / 128)
          libhmac_sha512_prime_square_roots buffers.flatten := by
  rw [libhmac_sha512_initialize_eq] at hrun
  have h := sha512_update_all_absorbed _ buffers _ ic [] sha512_initial_context_absorbed hrun
  rw [List.nil_append] at h
  obtain ⟨hbo, hhc, _, hbe, hhv⟩ := h
  have hlt : buffers.flatten.length % 128 < 128 := Nat.mod_lt _ (by norm_num)
  refine ⟨hbo, by omega, ?_, ?_, hhv⟩
  · rw [hhc]; omega
  · rw [hbo, hbe]
    congr 1
    omega

/-- C9, at a concrete run: two buffers of 100 and 60 bytes leave 32 bytes in the block. -/
theorem libhmac_sha512_context_invariant_witness :
    sha512_update_all (( libhmac_sha512_initialize (some none)).2.getD none)
        [List.replicate 100 1, List.replicate 60 2]
      = some (some
          { hash_count := 128,
            hash_values :=
              [0x5bb2a4d8fbbc2c72, 0x93d7e5ef61c6b823, 0x4c20ef6daab26b9d, 0xf2d47dad08a9a1b0,
               0x9c920d64c6c66f82, 0xd99e4ee301bf8d04, 0x36d1f1e6e605cd9e, 0x509814bfe386693c],
            block_offset := 32,
            block := List.replicate 32 2 ++ List.replicate 68 1 ++ List.replicate 28 2 })
    ∧ [List.replicate 100 1, List.replicate 60 2].flatten.length < 2 ^ 64
    ∧ (32 = [List.replicate 100 1, List.replicate 60 2].flatten.length % 128
      ∧ 32 < 128
      ∧ 128 = 128 * ([List.replicate 100 1, List.replicate 60 2].flatten.length / 128)
      ∧ (List.replicate 32 2 ++ List.replicate 68 1 ++ List.replicate 28 2).take 32
          = [List.replicate 100 1, List.replicate 60 2].flatten.drop
              ([List.replicate 100 1, List.replicate 60 2].flatten.length
                - [List.replicate 100 1, List.replicate 60 2].flatten.length % 128)
      ∧ [0x5bb2a4d8fbbc2c72, 0x93d7e5ef61c6b823, 0x4c20ef6daab26b9d, 0xf2d47dad08a9a1b0,
         0x9c920d64c6c66f82, 0xd99e4ee301bf8d04, 0x36d1f1e6e605cd9e, 0x509814bfe386693c]
          = sha512_compress_blocks
              ([List.replicate 100 1, List.replicate 60 2].flatten.length / 128)
              libhmac_sha512_prime_square_roots
              [List.replicate 100 1, List.replicate 60 2].flatten) :=
  ⟨by decide, by decide,
    libhmac_sha512_context_invariant [List.replicate 100 1, List.replicate 60 2]
      { hash_count := 128,
        hash_values :=
          [0x5bb2a4d8fbbc2c72, 0x93d7e5ef61c6b823, 0x4c20ef6daab26b9d, 0xf2d47dad08a9a1b0,
           0x9c920d64c6c66f82, 0xd99e4ee301bf8d04, 0x36d1f1e6e605cd9e, 0x509814bfe386693c],
        block_offset := 32,
        block := List.replicate 32 2 ++ List.replicate 68 1 ++ List.replicate 28 2 }
      (by decide) (by decide)⟩

/-- C4: `libhmac_sha512_calculate` on the 3-byte input "abc" with a 64-byte
output buffer returns 1 and writes ddaf35a1 ... a54ca49f. -/
theorem libhmac_sha512_calculate_abc (out : List Nat) (hout : out.length = 64) :
    libhmac_sha512_calculate (some [0x61, 0x62, 0x63]) 3 (some out) 64
      = (1, some
          [0xdd, 0xaf, 0x35, 0xa1, 0x93, 0x61, 0x7a, 0xba, 0xcc, 0x41, 0x73, 0x49, 0xae, 0x20,
           0x41, 0x31, 0x12, 0xe6, 0xfa, 0x4e, 0x89, 0xa9, 0x7e, 0xa2, 0x0a, 0x9e, 0xee, 0xe6,
           0x4b, 0x55, 0xd3, 0x9a, 0x21, 0x92, 0x99, 0x2a, 0x27, 0x4f, 0xc1, 0xa8, 0x36, 0xba,
           0x3c, 0x23, 0xa3, 0xfe, 0xeb, 0xbd, 0x45, 0x4d, 0x44, 0x23, 0x64, 0x3c, 0xe8, 0x0e,
           0x2a, 0x9a, 0xc9, 0x4f, 0xa5, 0x4c, 0xa4, 0x9f]) := by
  have e := libhmac_sha512_calculate_eq [0x61, 0x62, 0x63] out 64 (by decide) (by decide)
    (by decide) (by decide)
  have hd : sha512_hash_values_bytes
      (sha512_digest_words libhmac_sha512_prime_square_roots [0x61, 0x62, 0x63])
      = [0xdd, 0xaf, 0x35, 0xa1, 0x93, 0x61, 0x7a, 0xba, 0xcc, 0x41, 0x73, 0x49, 0xae, 0x20,
           0x41, 0x31, 0x12, 0xe6, 0xfa, 0x4e, 0x89, 0xa9, 0x7e, 0xa2, 0x0a, 0x9e, 0xee, 0xe6,
           0x4b, 0x55, 0xd3, 0x9a, 0x21, 0x92, 0x99, 0x2a, 0x27, 0x4f, 0xc1, 0xa8, 0x36, 0xba,
           0x3c, 0x23, 0xa3, 0xfe, 0xeb, 0xbd, 0x45, 0x4d, 0x44, 0x23, 0x64, 0x3c, 0xe8, 0x0e,
           0x2a, 0x9a, 0xc9, 0x4f, 0xa5, 0x4c, 0xa4, 0x9f] := by decide
  rw [sha512_write_hash_values_eq _ out hout, hd] at e
  exact e

/-- C4, with an output buffer of 64 zero bytes. -/
theorem libhmac_sha512_calculate_abc_witness :
    (List.replicate 64 0).length = 64
    ∧ libhmac_sha512_calculate (some [0x61, 0x62, 0x63]) 3 (some (List.replicate 64 0)) 64
      = (1, some
          [0xdd, 0xaf, 0x35, 0xa1, 0x93, 0x61, 0x7a, 0xba, 0xcc, 0x41, 0x73, 0x49, 0xae, 0x20,
           0x41, 0x31, 0x12, 0xe6, 0xfa, 0x4e, 0x89, 0xa9, 0x7e, 0xa2, 0x0a, 0x9e, 0xee, 0xe6,
           0x4b, 0x55, 0xd3, 0x9a, 0x21, 0x92, 0x99, 0x2a, 0x27, 0x4f, 0xc1, 0xa8, 0x36, 0xba,
           0x3c, 0x23, 0xa3, 0xfe, 0xeb, 0xbd, 0x45, 0x4d, 0x44, 0x23, 0x64, 0x3c, 0xe8, 0x0e,
           0x2a, 0x9a, 0xc9, 0x4f, 0xa5, 0x4c, 0xa4, 0x9f]) :=
  ⟨by decide, libhmac_sha512_calculate_abc (List.replicate 64 0) (by decide)⟩

/-- C5: `libhmac_sha512_calculate` on the empty input (any non-null buffer,
size 0) with a 64-byte output buffer returns 1 and writes
cf83e135 ... f927da3e. -/
theorem libhmac_sha512_calculate_empty (buffer out : List Nat) (hout : out.length = 64) :
    libhmac_sha512_calculate (some buffer) 0 (some out) 64
      = (1, some
          [0xcf, 0x83, 0xe1, 0x35, 0x7e, 0xef, 0xb8, 0xbd, 0xf1, 0x54, 0x28, 0x50, 0xd6, 0x6d,
           0x80, 0x07, 0xd6, 0x20, 0xe4, 0x05, 0x0b, 0x57, 0x15, 0xdc, 0x83, 0xf4, 0xa9, 0x21,
           0xd3, 0x6c, 0xe9, 0xce, 0x47, 0xd0, 0xd1, 0x3c, 0x5d, 0x85, 0xf2, 0xb0, 0xff, 0x83,
           0x18, 0xd2, 0x87, 0x7e, 0xec, 0x2f, 0x63, 0xb9, 0x31, 0xbd, 0x47, 0x41, 0x7a, 0x81,
           0xa5, 0x38, 0x32, 0x7a, 0xf9, 0x27, 0xda, 0x3e]) := by
  have hd : sha512_hash_values_bytes
      (sha512_digest_words libhmac_sha512_prime_square_roots [])
      = [0xcf, 0x83, 0xe1, 0x35, 0x7e, 0xef, 0xb8, 0xbd, 0xf1, 0x54, 0x28, 0x50, 0xd6, 0x6d,
           0x80, 0x07, 0xd6, 0x20, 0xe4, 0x05, 0x0b, 0x57, 0x15, 0xdc, 0x83, 0xf4, 0xa9, 0x21,
           0xd3, 0x6c, 0xe9, 0xce, 0x47, 0xd0, 0xd1, 0x3c, 0x5d, 0x85, 0xf2, 0xb0, 0xff, 0x83,
           0x18, 0xd2, 0x87, 0x7e, 0xec, 0x2f, 0x63, 0xb9, 0x31, 0xbd, 0x47, 0x41, 0x7a, 0x81,
           0xa5, 0x38, 0x32, 0x7a, 0xf9, 0x27, 0xda, 0x3e] := by decide
  have hf := libhmac_sha512_finalize_absorbed _ sha512_initial_context [] out 64
    sha512_initial_context_absorbed (by decide) (by decide) (by decide)
  rw [sha512_write_hash_values_eq _ out hout, hd] at hf
  unfold libhmac_sha512_calculate
  simp only [libhmac_sha512_initialize_eq, Option.getD_some]
  have hu : libhmac_sha512_update (some sha512_initial_context) (some buffer) 0
      = (1, some sha512_initial_context) := by
    simp [libhmac_sha512_update]
  simp only [hu, hf, libhmac_sha512_free, libhmac_undefined_behaviour_ne_one, if_false]
  simp

/-- C5, with the empty buffer and an output buffer of 64 bytes 0xff. -/
theorem libhmac_sha512_calculate_empty_witness :
    (List.replicate 64 0xff).length = 64
    ∧ libhmac_sha512_calculate (some []) 0 (some (List.replicate 64 0xff)) 64
      = (1, some
          [0xcf, 0x83, 0xe1, 0x35, 0x7e, 0xef, 0xb8, 0xbd, 0xf1, 0x54, 0x28, 0x50, 0xd6, 0x6d,
           0x80, 0x07, 0xd6, 0x20, 0xe4, 0x05, 0x0b, 0x57, 0x15, 0xdc, 0x83, 0xf4, 0xa9, 0x21,
           0xd3, 0x6c, 0xe9, 0xce, 0x47, 0xd0, 0xd1, 0x3c, 0x5d, 0x85, 0xf2, 0xb0, 0xff, 0x83,
           0x18, 0xd2, 0x87, 0x7e, 0xec, 0x2f, 0x63, 0xb9, 0x31, 0xbd, 0x47, 0x41, 0x7a, 0x81,
           0xa5, 0x38, 0x32, 0x7a, 0xf9, 0x27, 0xda, 0x3e]) :=
  ⟨by decide, libhmac_sha512_calculate_empty [] (List.replicate 64 0xff) (by decide)⟩

/-- C2: for every state `H` of eight 64-bit words and every block of 128
bytes, `libhmac_sha512_transform` on that single block uses 128 bytes and
replaces `H` by `H + compress(H, block)`, word by word modulo `2 ^ 64`, where
`compress` is the function of the specification (`spec_compress`: schedule
`spec_W`, 80 rounds `spec_round`). -/
theorem libhmac_sha512_transform_refines_spec (ic : libhmac_internal_sha512_context)
    (block : List Nat) (hlen : ic.hash_values.length = 8)
    (hH : ∀ x ∈ ic.hash_values, x < 2 ^ 64) (hblock : block.length = 128) :
    libhmac_sha512_transform (some ic) (some block) block.length
      = (128, some { ic with
          hash_values := List.zipWith (fun x y => (x + y) % 2 ^ 64) ic.hash_values
            (spec_compress ic.hash_values block) }) := by
  rw [hblock, libhmac_sha512_transform_eq ic block 128 (by decide)]
  have e : sha512_compress_blocks (128 / 128) ic.hash_values block
      = libhmac_sha512_transform_block ic.hash_values block 0 := rfl
  rw [e, libhmac_sha512_transform_block_refines _ block hlen hH]
  rfl

/-- C2, at the initial context and the block of 128 bytes 0x61. -/
theorem libhmac_sha512_transform_refines_spec_witness :
    sha512_initial_context.hash_values.length = 8
    ∧ (∀ x ∈ sha512_initial_context.hash_values, x < 2 ^ 64)
    ∧ (List.replicate 128 0x61).length = 128
    ∧ libhmac_sha512_transform (some sha512_initial_context) (some (List.replicate 128 0x61))
        (List.replicate 128 0x61).length
      = (128, some { sha512_initial_context with
          hash_values := List.zipWith (fun x y => (x + y) % 2 ^ 64)
            sha512_initial_context.hash_values
            (spec_compress sha512_initial_context.hash_values (List.replicate 128 0x61)) }) :=
  ⟨by decide, by decide, by decide,
    libhmac_sha512_transform_refines_spec sha512_initial_context (List.replicate 128 0x61)
      (by decide) (by decide) (by decide)⟩

/-! ## After finalization -/

theorem libhmac_sha512_finalize_success (context : Option libhmac_internal_sha512_context)
    (hash : Option (List Nat)) (hash_size : Nat)
    (h : (libhmac_sha512_finalize context hash hash_size).1 = 1) :
    (libhmac_sha512_finalize context hash hash_size).2.1 = some sha512_cleared_context := by
  unfold libhmac_sha512_finalize at h ⊢
  match context, hash with
  | none, _ => simp at h
  | some ic, none => simp at h
  | some ic, some out =>
    simp only at h ⊢
    split at h
    · simp at h
    · split at h
      · simp at h
      · split at h
        · exact absurd h (by decide)
        · split at h
          · simp at h
          · rename_i h1 h2 h3 h4
            simp only [h1, h2, h3, h4, Bool.true_eq_false, if_false]
            rfl

/-- C10 as the code has it: after `libhmac_sha512_finalize` has succeeded on a
context, the context is cleared to zero and nothing marks it as finalized;
every later `libhmac_sha512_update` on it with a non-null buffer of at most
`SSIZE_MAX` bytes, empty or not, returns 1. -/
theorem libhmac_sha512_update_after_finalize
    (context : Option libhmac_internal_sha512_context) (hash : Option (List Nat))
    (hash_size : Nat) (m : List Nat)
    (hfinal : (libhmac_sha512_finalize context hash hash_size).1 = 1)
    (hm : m.length ≤ SSIZE_MAX) :
    (libhmac_sha512_finalize context hash hash_size).2.1 = some sha512_cleared_context
    ∧ (libhmac_sha512_update (libhmac_sha512_finalize context hash hash_size).2.1
        (some m) m.length).1 = 1 := by
  have hc := libhmac_sha512_finalize_success context hash hash_size hfinal
  refine ⟨hc, ?_⟩
  rw [hc]
  obtain ⟨ic, e, _⟩ := libhmac_sha512_update_absorbed _ _ [] m
    sha512_cleared_context_absorbed hm
  rw [e]

/-- C10 as the code has it, after the digest of the empty message, with one
more byte. -/
theorem libhmac_sha512_update_after_finalize_witness :
    (libhmac_sha512_finalize (some sha512_initial_context) (some (List.replicate 64 0)) 64).1 = 1
    ∧ [0x61].length ≤ SSIZE_MAX
    ∧ ((libhmac_sha512_finalize (some sha512_initial_context)
          (some (List.replicate 64 0)) 64).2.1 = some sha512_cleared_context
      ∧ (libhmac_sha512_update
          (libhmac_sha512_finalize (some sha512_initial_context)
            (some (List.replicate 64 0)) 64).2.1 (some [0x61]) [0x61].length).1 = 1) :=
  ⟨by decide, by decide,
    libhmac_sha512_update_after_finalize (some sha512_initial_context)
      (some (List.replicate 64 0)) 64 [0x61] (by decide) (by decide)⟩

/-- C10 fails as stated: on a fresh context `libhmac_sha512_finalize` returns 1,
and a later `libhmac_sha512_update` with the one-byte buffer "a" returns 1,
not -1. -/
theorem libhmac_sha512_update_after_finalize_not_rejected :
    (libhmac_sha512_finalize (( libhmac_sha512_initialize (some none)).2.getD none)
        (some (List.replicate 64 0)) 64).1 = 1
    ∧ ¬ ((libhmac_sha512_update
          (libhmac_sha512_finalize (( libhmac_sha512_initialize (some none)).2.getD none)
            (some (List.replicate 64 0)) 64).2.1 (some [0x61]) 1).1 = -1) := by
  decide

/-! ## HMAC -/

theorem sha512_hmac_padding_length (value : Nat) (key_data : List Nat) (block_size : Nat) :
    (sha512_hmac_padding value key_data block_size).length = block_size := by
  unfold sha512_hmac_padding
  have key : ∀ (l : List Nat) (init : List Nat),
      (l.foldl (fun padding block_index =>
        padding.set block_index (padding.getD block_index 0 ^^^ key_data.getD block_index 0))
        init).length = init.length := by
    intro l
    induction l with
    | nil => intro init; rfl
    | cons a tl ih => intro init; rw [List.foldl_cons, ih, List.length_set]
  rw [key]
  simp [memory_set]

theorem libhmac_sha512_update_absorbed_size (iv : List Nat)
    (ic : libhmac_internal_sha512_context) (data m : List Nat) (size : Nat)
    (h : sha512_context_absorbed iv ic data) (hsize : m.length = size)
    (hm : size ≤ SSIZE_MAX) :
    ∃ ic', libhmac_sha512_update (some ic) (some m) size = (1, some ic')
      ∧ sha512_context_absorbed iv ic' (data ++ m) := by
  subst hsize
  exact libhmac_sha512_update_absorbed iv ic data m h hm

theorem libhmac_sha512_calculate_hmac_hashes_eq (key_data m out : List Nat) (hmac_size : Nat)
    (hm : m.length ≤ SSIZE_MAX) (hout : out.length = 64) (h1 : 64 ≤ hmac_size)
    (h2 : hmac_size ≤ SSIZE_MAX) (hin : (64 + m.length) % 128 ≤ 119) :
    libhmac_sha512_calculate_hmac_hashes key_data 64 (some m) m.length (some out) hmac_size
      = (1, some (sha512_hash_values_bytes
          (sha512_digest_words libhmac_sha512_prime_square_roots
            (sha512_hmac_padding 0x5c key_data 64
              ++ sha512_hash_values_bytes
                (sha512_digest_words libhmac_sha512_prime_square_roots
                  (sha512_hmac_padding 0x36 key_data 64 ++ m)))))) := by
  have hil := sha512_hmac_padding_length 0x36 key_data 64
  have hol := sha512_hmac_padding_length 0x5c key_data 64
  obtain ⟨c1, e1, a1⟩ := libhmac_sha512_update_absorbed_size _ _ []
    (sha512_hmac_padding 0x36 key_data 64) 64 sha512_initial_context_absorbed hil (by decide)
  obtain ⟨c2, e2, a2⟩ := libhmac_sha512_update_absorbed _ c1 _ m a1 hm
  rw [List.nil_append] at a2
  have f2 := libhmac_sha512_finalize_absorbed _ c2 _ out hmac_size a2 h1 h2
    (by rw [List.length_append, hil]; exact hin)
  rw [sha512_write_hash_values_eq _ out hout] at f2
  obtain ⟨c3, e3, a3⟩ := libhmac_sha512_update_absorbed_size _ _ []
    (sha512_hmac_padding 0x5c key_data 64) 64 sha512_initial_context_absorbed hol (by decide)
  have hdl := sha512_hash_values_bytes_length
    (sha512_digest_words libhmac_sha512_prime_square_roots
      (sha512_hmac_padding 0x36 key_data 64 ++ m))
  obtain ⟨c4, e4, a4⟩ := libhmac_sha512_update_absorbed_size _ c3 _ _ 64 a3 hdl (by decide)
  rw [List.nil_append] at a4
  have f4 := libhmac_sha512_finalize_absorbed _ c4 _
    (sha512_hash_values_bytes
      (sha512_digest_words libhmac_sha512_prime_square_roots
        (sha512_hmac_padding 0x36 key_data 64 ++ m))) hmac_size a4 h1 h2
    (by rw [List.length_append, hol, hdl]; decide)
  rw [sha512_write_hash_values_eq _ _ hdl] at f4
  unfold libhmac_sha512_calculate_hmac_hashes
  unfold sha512_hmac_padding at e1 e3
  simp only [libhmac_sha512_initialize_eq, Option.getD_some, e1, e2, f2, libhmac_sha512_free,
    e3, LIBHMAC_SHA512_HASH_SIZE, e4, f4, libhmac_undefined_behaviour_ne_one, if_false]
  simp
theorem sha512_digest_words_second_block (iv data : List Nat) (h1 : data.length / 128 = 1)
    (h2 : data.length - 128 ≤ 119) :
    sha512_digest_words iv data
      = sha512_compress_blocks 1 (sha512_compress_blocks 1 iv data)
          (sha512_finalize_bytes (data.drop 128) 128) := by
  unfold sha512_digest_words
  have hl : (data.drop 128).length = data.length - 128 := by simp
  have hn : ¬ (data.length - 128 > 119) := by omega
  have e : 128 * 1 % 2 ^ 64 = 128 := by norm_num
  simp only [h1, e, Nat.mul_one, hl, hn, if_false]

theorem libhmac_sha512_calculate_hmac_key_data_short (key : List Nat) (block_size : Nat)
    (h : key.length ≤ block_size) :
    libhmac_sha512_calculate_hmac_key_data key key.length block_size
      = (1, some (key ++ List.replicate (block_size - key.length) 0)) := by
  unfold libhmac_sha512_calculate_hmac_key_data
  simp only [h, if_true, memory_copy, memory_set, List.take_zero, List.nil_append,
    List.take_length, Nat.zero_add]
  have e1 : List.drop key.length (List.replicate block_size 0)
      = List.replicate (block_size - key.length) 0 := by
    simp
  rw [e1, List.take_append_of_le_length (le_refl _), List.take_length,
    List.drop_eq_nil_of_le (by simp), List.append_nil]

theorem spec_D_eq (m : List Nat) (hm : m.length ≤ SSIZE_MAX) (hin : m.length % 128 ≤ 119) :
    spec_D m = sha512_hash_values_bytes
      (sha512_digest_words libhmac_sha512_prime_square_roots m) := by
  unfold spec_D
  rw [libhmac_sha512_calculate_eq m _ 64 hm (by decide) (by decide) hin,
    sha512_write_hash_values_eq _ _ (by simp)]
  rfl

theorem rfc4231_test1_inner_digest :
    sha512_hash_values_bytes (sha512_digest_words libhmac_sha512_prime_square_roots
      (sha512_hmac_padding 0x36 (rfc4231_test1_key ++ List.replicate (64 - rfc4231_test1_key.length) 0) 64 ++ rfc4231_test1_data))
    = [0x3b, 0x63, 0x80, 0x19, 0xef, 0xc3, 0x99, 0x51, 0x81, 0xb7, 0xe3, 0xe3, 0x8f, 0xcc,
     0x2d, 0xd5, 0x3f, 0xff, 0x9c, 0x02, 0xd6, 0x68, 0xb4, 0x33, 0x17, 0x29, 0xd9, 0xdc,
     0x50, 0x33, 0x79, 0xd5, 0xf8, 0xfc, 0xdc, 0x56, 0x09, 0x94, 0x6e, 0x81, 0x47, 0xb9,
     0x94, 0x78, 0x79, 0x1c, 0xf1, 0x51, 0xc3, 0x93, 0xa3, 0xd8, 0x07, 0xc3, 0x3b, 0xb8,
     0x35, 0x7e, 0x64, 0x98, 0xe4, 0x80, 0xc8, 0x07] := by
  decide

theorem rfc4231_test1_outer_block :
    sha512_compress_blocks 1 libhmac_sha512_prime_square_roots
      (sha512_hmac_padding 0x5c (rfc4231_test1_key ++ List.replicate (64 - rfc4231_test1_key.length) 0) 64 ++
    [0x3b, 0x63, 0x80, 0x19, 0xef, 0xc3, 0x99, 0x51, 0x81, 0xb7, 0xe3, 0xe3, 0x8f, 0xcc,
     0x2d, 0xd5, 0x3f, 0xff, 0x9c, 0x02, 0xd6, 0x68, 0xb4, 0x33, 0x17, 0x29, 0xd9, 0xdc,
     0x50, 0x33, 0x79, 0xd5, 0xf8, 0xfc, 0xdc, 0x56, 0x09, 0x94, 0x6e, 0x81, 0x47, 0xb9,
     0x94, 0x78, 0x79, 0x1c, 0xf1, 0x51, 0xc3, 0x93, 0xa3, 0xd8, 0x07, 0xc3, 0x3b, 0xb8,
     0x35, 0x7e, 0x64, 0x98, 0xe4, 0x80, 0xc8, 0x07])
    = [0x45ee3d27aab04ea8, 0xecb0e3dfb94b7afb, 0x912703e71a030064, 0x69590b0a3a7fdbe6,
     0xdc2305b032e259fb, 0x878719a8c8dea41e, 0x550f01509185268f, 0x00dc22ac4d2eba53] := by
  decide

theorem rfc4231_test1_outer_digest :
    sha512_hash_values_bytes (sha512_compress_blocks 1
    [0x45ee3d27aab04ea8, 0xecb0e3dfb94b7afb, 0x912703e71a030064, 0x69590b0a3a7fdbe6,
     0xdc2305b032e259fb, 0x878719a8c8dea41e, 0x550f01509185268f, 0x00dc22ac4d2eba53]
      (sha512_finalize_bytes
        ((sha512_hmac_padding 0x5c (rfc4231_test1_key ++ List.replicate (64 - rfc4231_test1_key.length) 0) 64 ++
    [0x3b, 0x63, 0x80, 0x19, 0xef, 0xc3, 0x99, 0x51, 0x81, 0xb7, 0xe3, 0xe3, 0x8f, 0xcc,
     0x2d, 0xd5, 0x3f, 0xff, 0x9c, 0x02, 0xd6, 0x68, 0xb4, 0x33, 0x17, 0x29, 0xd9, 0xdc,
     0x50, 0x33, 0x79, 0xd5, 0xf8, 0xfc, 0xdc, 0x56, 0x09, 0x94, 0x6e, 0x81, 0x47, 0xb9,
     0x94, 0x78, 0x79, 0x1c, 0xf1, 0x51, 0xc3, 0x93, 0xa3, 0xd8, 0x07, 0xc3, 0x3b, 0xb8,
     0x35, 0x7e, 0x64, 0x98, 0xe4, 0x80, 0xc8, 0x07]).drop 128) 128))
    = [0x96, 0x56, 0x97, 0x5e, 0xe5, 0xde, 0x55, 0xe7, 0x5f, 0x29, 0x76, 0xec, 0xce, 0x9a,
     0x04, 0x50, 0x10, 0x60, 0xb9, 0xdc, 0x22, 0xa6, 0xed, 0xa2, 0xea, 0xef, 0x63, 0x89,
     0x66, 0x28, 0x01, 0x82, 0x47, 0x7f, 0xe0, 0x9f, 0x08, 0x0b, 0x2b, 0xf5, 0x64, 0x64,
     0x9c, 0xad, 0x42, 0xaf, 0x86, 0x07, 0xa2, 0xbd, 0x8d, 0x02, 0x97, 0x9d, 0xf3, 0xa9,
     0x80, 0xf1, 0x5e, 0x23, 0x26, 0xa0, 0xa2, 0x2a] := by
  decide

theorem rfc4231_test1_code :
    libhmac_sha512_calculate_hmac (some rfc4231_test1_key) rfc4231_test1_key.length
        (some rfc4231_test1_data) rfc4231_test1_data.length (some (List.replicate 64 0)) 64
      = (1, some
    [0x96, 0x56, 0x97, 0x5e, 0xe5, 0xde, 0x55, 0xe7, 0x5f, 0x29, 0x76, 0xec, 0xce, 0x9a,
     0x04, 0x50, 0x10, 0x60, 0xb9, 0xdc, 0x22, 0xa6, 0xed, 0xa2, 0xea, 0xef, 0x63, 0x89,
     0x66, 0x28, 0x01, 0x82, 0x47, 0x7f, 0xe0, 0x9f, 0x08, 0x0b, 0x2b, 0xf5, 0x64, 0x64,
     0x9c, 0xad, 0x42, 0xaf, 0x86, 0x07, 0xa2, 0xbd, 0x8d, 0x02, 0x97, 0x9d, 0xf3, 0xa9,
     0x80, 0xf1, 0x5e, 0x23, 0x26, 0xa0, 0xa2, 0x2a]) := by
  unfold libhmac_sha512_calculate_hmac
  have c1 : ¬ rfc4231_test1_key.length > SSIZE_MAX := by decide
  have c2 : ¬ 64 < LIBHMAC_SHA512_HASH_SIZE := by decide
  simp only [c1, c2, if_false]
  rw [libhmac_sha512_calculate_hmac_key_data_short rfc4231_test1_key 64 (by decide)]
  simp only [libhmac_undefined_behaviour_ne_one, if_false]
  rw [libhmac_sha512_calculate_hmac_hashes_eq _ rfc4231_test1_data _ 64 (by decide) (by decide)
      (by decide) (by decide) (by decide),
    rfc4231_test1_inner_digest,
    sha512_digest_words_second_block _ _ (by decide) (by decide),
    rfc4231_test1_outer_block, rfc4231_test1_outer_digest]

theorem rfc4231_test2_inner_digest :
    sha512_hash_values_bytes (sha512_digest_words libhmac_sha512_prime_square_roots
      (sha512_hmac_padding 0x36 (rfc4231_test2_key ++ List.replicate (64 - rfc4231_test2_key.length) 0) 64 ++ rfc4231_test2_data))
    = [0x0d, 0x3e, 0x20, 0x5d, 0x68, 0x52, 0x60, 0xe5, 0x59, 0x3f, 0x4b, 0x2b, 0xb9, 0x68,
     0x08, 0xd0, 0x14, 0x08, 0xce, 0x7c, 0x4c, 0xa8, 0xf0, 0x31, 0x9a, 0x88, 0xa3, 0x51,
     0xbd, 0x3d, 0x6c, 0xd5, 0x36, 0xf1, 0x8f, 0x53, 0x92, 0xd2, 0xb5, 0x21, 0x3c, 0xe2,
     0xd9, 0x7c, 0x4f, 0x83, 0x72, 0x75, 0x51, 0x18, 0x5f, 0x63, 0xfe, 0x99, 0xf1, 0xb2,
     0x36, 0xb3, 0xce, 0x5e, 0x2c, 0x0e, 0x89, 0x07] := by
  decide

theorem rfc4231_test2_outer_block :
    sha512_compress_blocks 1 libhmac_sha512_prime_square_roots
      (sha512_hmac_padding 0x5c (rfc4231_test2_key ++ List.replicate (64 - rfc4231_test2_key.length) 0) 64 ++
    [0x0d, 0x3e, 0x20, 0x5d, 0x68, 0x52, 0x60, 0xe5, 0x59, 0x3f, 0x4b, 0x2b, 0xb9, 0x68,
     0x08, 0xd0, 0x14, 0x08, 0xce, 0x7c, 0x4c, 0xa8, 0xf0, 0x31, 0x9a, 0x88, 0xa3, 0x51,
     0xbd, 0x3d, 0x6c, 0xd5, 0x36, 0xf1, 0x8f, 0x53, 0x92, 0xd2, 0xb5, 0x21, 0x3c, 0xe2,
     0xd9, 0x7c, 0x4f, 0x83, 0x72, 0x75, 0x51, 0x18, 0x5f, 0x63, 0xfe, 0x99, 0xf1, 0xb2,
     0x36, 0xb3, 0xce, 0x5e, 0x2c, 0x0e, 0x89, 0x07])
    = [0x227a0040987e5f56, 0x927ce7df371b1a18, 0x86a44e243300768c, 0xb74a591ba954b584,
     0xb19847ca0b0c3653, 0xd998397d9ac6dd26, 0xd54cd4f41c6cd3a1, 0x726b5047f33a4dec] := by
  decide

theorem rfc4231_test2_outer_digest :
    sha512_hash_values_bytes (sha512_compress_blocks 1
    [0x227a0040987e5f56, 0x927ce7df371b1a18, 0x86a44e243300768c, 0xb74a591ba954b584,
     0xb19847ca0b0c3653, 0xd998397d9ac6dd26, 0xd54cd4f41c6cd3a1, 0x726b5047f33a4dec]
      (sha512_finalize_bytes
        ((sha512_hmac_padding 0x5c (rfc4231_test2_key ++ List.replicate (64 - rfc4231_test2_key.length) 0) 64 ++
    [0x0d, 0x3e, 0x20, 0x5d, 0x68, 0x52, 0x60, 0xe5, 0x59, 0x3f, 0x4b, 0x2b, 0xb9, 0x68,
     0x08, 0xd0, 0x14, 0x08, 0xce, 0x7c, 0x4c, 0xa8, 0xf0, 0x31, 0x9a, 0x88, 0xa3, 0x51,
     0xbd, 0x3d, 0x6c, 0xd5, 0x36, 0xf1, 0x8f, 0x53, 0x92, 0xd2, 0xb5, 0x21, 0x3c, 0xe2,
     0xd9, 0x7c, 0x4f, 0x83, 0x72, 0x75, 0x51, 0x18, 0x5f, 0x63, 0xfe, 0x99, 0xf1, 0xb2,
     0x36, 0xb3, 0xce, 0x5e, 0x2c, 0x0e, 0x89, 0x07]).drop 128) 128))
    = [0xd2, 0x76, 0x6e, 0xca, 0x33, 0xfe, 0x85, 0x2b, 0xd6, 0x29, 0x25, 0x3f, 0xe0, 0x1c,
     0x63, 0x51, 0x9e, 0xb2, 0x45, 0x9b, 0xdb, 0x0a, 0xf2, 0x54, 0xbd, 0x43, 0x41, 0x74,
     0x0b, 0x4d, 0x0e, 0xa7, 0x23, 0xc6, 0xa2, 0xa4, 0xdf, 0xc3, 0x42, 0x52, 0x89, 0x1c,
     0x14, 0xf2, 0x65, 0x80, 0x55, 0x23, 0x7a, 0xa3, 0xf6, 0x49, 0x62, 0xd4, 0xd4, 0xde,
     0x21, 0x70, 0xae, 0x18, 0xfd, 0x91, 0x60, 0xaa] := by
  decide

theorem rfc4231_test2_code :
    libhmac_sha512_calculate_hmac (some rfc4231_test2_key) rfc4231_test2_key.length
        (some rfc4231_test2_data) rfc4231_test2_data.length (some (List.replicate 64 0)) 64
      = (1, some
    [0xd2, 0x76, 0x6e, 0xca, 0x33, 0xfe, 0x85, 0x2b, 0xd6, 0x29, 0x25, 0x3f, 0xe0, 0x1c,
     0x63, 0x51, 0x9e, 0xb2, 0x45, 0x9b, 0xdb, 0x0a, 0xf2, 0x54, 0xbd, 0x43, 0x41, 0x74,
     0x0b, 0x4d, 0x0e, 0xa7, 0x23, 0xc6, 0xa2, 0xa4, 0xdf, 0xc3, 0x42, 0x52, 0x89, 0x1c,
     0x14, 0xf2, 0x65, 0x80, 0x55, 0x23, 0x7a, 0xa3, 0xf6, 0x49, 0x62, 0xd4, 0xd4, 0xde,
     0x21, 0x70, 0xae, 0x18, 0xfd, 0x91, 0x60, 0xaa]) := by
  unfold libhmac_sha512_calculate_hmac
  have c1 : ¬ rfc4231_test2_key.length > SSIZE_MAX := by decide
  have c2 : ¬ 64 < LIBHMAC_SHA512_HASH_SIZE := by decide
  simp only [c1, c2, if_false]
  rw [libhmac_sha512_calculate_hmac_key_data_short rfc4231_test2_key 64 (by decide)]
  simp only [libhmac_undefined_behaviour_ne_one, if_false]
  rw [libhmac_sha512_calculate_hmac_hashes_eq _ rfc4231_test2_data _ 64 (by decide) (by decide)
      (by decide) (by decide) (by decide),
    rfc4231_test2_inner_digest,
    sha512_digest_words_second_block _ _ (by decide) (by decide),
    rfc4231_test2_outer_block, rfc4231_test2_outer_digest]

theorem rfc4231_test2_spec_inner_block :
    sha512_compress_blocks 1 libhmac_sha512_prime_square_roots
      (List.zipWith (fun x y => x ^^^ y) (rfc4231_test2_key ++ List.replicate (128 - rfc4231_test2_key.length) 0) (List.replicate 128 0x36)
        ++ rfc4231_test2_data)
    = [0xd54c8054e3fafc6e, 0x52d18d7d18db608c, 0xf31b9122d16aa4cb, 0x02a0806a364882be,
     0xbff036bc022388da, 0xb407cb5e93ac39dd, 0x8fe17f83da82db37, 0x41387c0228cdd7b3] := by
  decide

theorem rfc4231_test2_spec_inner_digest :
    sha512_hash_values_bytes (sha512_compress_blocks 1
    [0xd54c8054e3fafc6e, 0x52d18d7d18db608c, 0xf31b9122d16aa4cb, 0x02a0806a364882be,
     0xbff036bc022388da, 0xb407cb5e93ac39dd, 0x8fe17f83da82db37, 0x41387c0228cdd7b3]
      (sha512_finalize_bytes
        ((List.zipWith (fun x y => x ^^^ y) (rfc4231_test2_key ++ List.replicate (128 - rfc4231_test2_key.length) 0) (List.replicate 128 0x36)
          ++ rfc4231_test2_data).drop 128) 128))
    = [0x69, 0xf8, 0x3b, 0x77, 0x4f, 0x66, 0x03, 0x59, 0x54, 0xfe, 0x8c, 0x26, 0xd5, 0xbf,
     0x39, 0xdf, 0x48, 0x33, 0x64, 0x06, 0x43, 0x2a, 0x3f, 0xc1, 0xff, 0xcf, 0x54, 0x7b,
     0x6b, 0xfe, 0x4e, 0x9a, 0x17, 0xa1, 0x83, 0x10, 0x74, 0xb1, 0xac, 0x3d, 0x36, 0xc5,
     0x0a, 0x51, 0x3b, 0x08, 0xe5, 0xa6, 0x12, 0x26, 0x14, 0x82, 0x49, 0x60, 0xd3, 0x28,
     0x85, 0x42, 0xdf, 0x34, 0xbb, 0x0d, 0x24, 0xc9] := by
  decide

theorem rfc4231_test2_spec_outer_block :
    sha512_compress_blocks 1 libhmac_sha512_prime_square_roots
      (List.zipWith (fun x y => x ^^^ y) (rfc4231_test2_key ++ List.replicate (128 - rfc4231_test2_key.length) 0) (List.replicate 128 0x5c) ++
    [0x69, 0xf8, 0x3b, 0x77, 0x4f, 0x66, 0x03, 0x59, 0x54, 0xfe, 0x8c, 0x26, 0xd5, 0xbf,
     0x39, 0xdf, 0x48, 0x33, 0x64, 0x06, 0x43, 0x2a, 0x3f, 0xc1, 0xff, 0xcf, 0x54, 0x7b,
     0x6b, 0xfe, 0x4e, 0x9a, 0x17, 0xa1, 0x83, 0x10, 0x74, 0xb1, 0xac, 0x3d, 0x36, 0xc5,
     0x0a, 0x51, 0x3b, 0x08, 0xe5, 0xa6, 0x12, 0x26, 0x14, 0x82, 0x49, 0x60, 0xd3, 0x28,
     0x85, 0x42, 0xdf, 0x34, 0xbb, 0x0d, 0x24, 0xc9])
    = [0x83d8dbc75ec49d77, 0xd535857580406c07, 0xbb10239361eb94ed, 0x9f7e08acb483074c,
     0x323fc8bd79797b65, 0xd89aac55f50a9028, 0xc174b5c89503ead3, 0x15e05f915d5ceb81] := by
  decide

theorem rfc4231_test2_spec_outer_digest :
    sha512_hash_values_bytes (sha512_compress_blocks 1
    [0x83d8dbc75ec49d77, 0xd535857580406c07, 0xbb10239361eb94ed, 0x9f7e08acb483074c,
     0x323fc8bd79797b65, 0xd89aac55f50a9028, 0xc174b5c89503ead3, 0x15e05f915d5ceb81]
      (sha512_finalize_bytes
        ((List.zipWith (fun x y => x ^^^ y) (rfc4231_test2_key ++ List.replicate (128 - rfc4231_test2_key.length) 0) (List.replicate 128 0x5c) ++
    [0x69, 0xf8, 0x3b, 0x77, 0x4f, 0x66, 0x03, 0x59, 0x54, 0xfe, 0x8c, 0x26, 0xd5, 0xbf,
     0x39, 0xdf, 0x48, 0x33, 0x64, 0x06, 0x43, 0x2a, 0x3f, 0xc1, 0xff, 0xcf, 0x54, 0x7b,
     0x6b, 0xfe, 0x4e, 0x9a, 0x17, 0xa1, 0x83, 0x10, 0x74, 0xb1, 0xac, 0x3d, 0x36, 0xc5,
     0x0a, 0x51, 0x3b, 0x08, 0xe5, 0xa6, 0x12, 0x26, 0x14, 0x82, 0x49, 0x60, 0xd3, 0x28,
     0x85, 0x42, 0xdf, 0x34, 0xbb, 0x0d, 0x24, 0xc9]).drop 128) 128))
    = [0x16, 0x4b, 0x7a, 0x7b, 0xfc, 0xf8, 0x19, 0xe2, 0xe3, 0x95, 0xfb, 0xe7, 0x3b, 0x56,
     0xe0, 0xa3, 0x87, 0xbd, 0x64, 0x22, 0x2e, 0x83, 0x1f, 0xd6, 0x10, 0x27, 0x0c, 0xd7,
     0xea, 0x25, 0x05, 0x54, 0x97, 0x58, 0xbf, 0x75, 0xc0, 0x5a, 0x99, 0x4a, 0x6d, 0x03,
     0x4f, 0x65, 0xf8, 0xf0, 0xe6, 0xfd, 0xca, 0xea, 0xb1, 0xa3, 0x4d, 0x4a, 0x6b, 0x4b,
     0x63, 0x6e, 0x07, 0x0a, 0x38, 0xbc, 0xe7, 0x37] := by
  decide

theorem rfc4231_test2_spec :
    spec_hmac_sha512 rfc4231_test2_key rfc4231_test2_data
      = [0x16, 0x4b, 0x7a, 0x7b, 0xfc, 0xf8, 0x19, 0xe2, 0xe3, 0x95, 0xfb, 0xe7, 0x3b, 0x56,
     0xe0, 0xa3, 0x87, 0xbd, 0x64, 0x22, 0x2e, 0x83, 0x1f, 0xd6, 0x10, 0x27, 0x0c, 0xd7,
     0xea, 0x25, 0x05, 0x54, 0x97, 0x58, 0xbf, 0x75, 0xc0, 0x5a, 0x99, 0x4a, 0x6d, 0x03,
     0x4f, 0x65, 0xf8, 0xf0, 0xe6, 0xfd, 0xca, 0xea, 0xb1, 0xa3, 0x4d, 0x4a, 0x6b, 0x4b,
     0x63, 0x6e, 0x07, 0x0a, 0x38, 0xbc, 0xe7, 0x37] := by
  show spec_D (List.zipWith (fun x y => x ^^^ y) (rfc4231_test2_key ++ List.replicate (128 - rfc4231_test2_key.length) 0) (List.replicate 128 0x5c)
      ++ spec_D (List.zipWith (fun x y => x ^^^ y) (rfc4231_test2_key ++ List.replicate (128 - rfc4231_test2_key.length) 0) (List.replicate 128 0x36)
        ++ rfc4231_test2_data)) = _
  rw [spec_D_eq (List.zipWith (fun x y => x ^^^ y) (rfc4231_test2_key ++ List.replicate (128 - rfc4231_test2_key.length) 0) (List.replicate 128 0x36)
        ++ rfc4231_test2_data) (by decide) (by decide),
    sha512_digest_words_second_block _ _ (by decide) (by decide),
    rfc4231_test2_spec_inner_block, rfc4231_test2_spec_inner_digest,
    spec_D_eq _ (by decide) (by decide),
    sha512_digest_words_second_block _ _ (by decide) (by decide),
    rfc4231_test2_spec_outer_block, rfc4231_test2_spec_outer_digest]

/-! ## Where the code departs from the specification -/


/-- Outside of 112..119 buffered bytes the bytes that `libhmac_sha512_finalize`
pads agree with the ones of the specification (for a bit count below
`2 ^ 64`). -/
theorem sha512_finalize_bytes_eq_spec (tail : List Nat) (hash_count n : Nat)
    (hn : hash_count + tail.length = n) (hbits : 8 * n < 2 ^ 64)
    (hb : tail.length ≤ 111 ∨ (120 ≤ tail.length ∧ tail.length < 128)) :
    sha512_finalize_bytes tail hash_count = spec_finalize_bytes tail n := by
  unfold sha512_finalize_bytes spec_finalize_bytes
  have hbit : ((hash_count + tail.length) * 8) % 2 ^ 64 = 8 * n := by
    rw [hn]; omega
  rw [hbit]
  rcases hb with h | ⟨h1, h2⟩
  · have c : ¬ tail.length > 119 := by omega
    have e1 : (if tail.length > 119 then 256 else 128) - 9 - tail.length
        = (112 + 128 - (tail.length + 1) % 128) % 128 + 8 := by
      rw [if_neg c]; omega
    rw [e1, List.replicate_add]
    simp only [List.append_assoc]
  · have c : tail.length > 119 := by omega
    have e1 : (if tail.length > 119 then 256 else 128) - 9 - tail.length
        = (112 + 128 - (tail.length + 1) % 128) % 128 + 8 := by
      rw [if_pos c]; omega
    rw [e1, List.replicate_add]
    simp only [List.append_assoc]

/-- C1 at 112 buffered bytes: after `libhmac_sha512_initialize` and one
`libhmac_sha512_update` with 112 bytes "a", `libhmac_sha512_finalize` pads to
`block_size` 128 and hands one block to the transform, with the byte 0x80 at
index 112 and the bit count in the last 8 bytes; the specification has two
blocks there (256 bytes, with a 16-byte length field), and the digest that
`libhmac_sha512_calculate` writes, 31fdede9 ... ebe8c508, is not the SHA-512
digest of the input. -/
theorem libhmac_sha512_finalize_one_block_at_112 :
    libhmac_sha512_update (( libhmac_sha512_initialize (some none)).2.getD none)
        (some (List.replicate 112 0x61)) 112
      = (1, some { hash_count := 0, hash_values := libhmac_sha512_prime_square_roots,
                   block_offset := 112,
                   block := List.replicate 112 0x61 ++ List.replicate 16 0 })
    ∧ libhmac_sha512_finalize_padding
        { hash_count := 0, hash_values := libhmac_sha512_prime_square_roots,
          block_offset := 112, block := List.replicate 112 0x61 ++ List.replicate 16 0 }
      = ({ hash_count := 0, hash_values := libhmac_sha512_prime_square_roots,
           block_offset := 112,
           block := List.replicate 112 0x61 ++ [0x80] ++ List.replicate 7 0
             ++ [0, 0, 0, 0, 0, 0, 0x03, 0x80] }, 128)
    ∧ (spec_finalize_bytes (List.replicate 112 0x61) 112).length = 256
    ∧ spec_finalize_bytes (List.replicate 112 0x61) 112
      = List.replicate 112 0x61 ++ [0x80] ++ List.replicate 127 0
          ++ [0, 0, 0, 0, 0, 0, 0, 0, 0, 0, 0, 0, 0, 0, 0x03, 0x80]
    ∧ libhmac_sha512_calculate (some (List.replicate 112 0x61)) 112
        (some (List.replicate 64 0)) 64
      = (1, some
          [0x31, 0xfd, 0xed, 0xe9, 0xd4, 0x6e, 0xfe, 0x02, 0xfe, 0xe3, 0xf4, 0x05, 0xce, 0xac,
           0x5d, 0x07, 0x3a, 0x62, 0x29, 0x0e, 0x2e, 0x2b, 0x4d, 0xf4, 0x29, 0xa3, 0x96, 0x51,
           0xfe, 0x64, 0x2f, 0xde, 0x4c, 0x88, 0x99, 0x71, 0x4e, 0x1f, 0xe4, 0xb7, 0xb8, 0xf8,
           0xe1, 0x7d, 0xc3, 0x3e, 0x7d, 0x26, 0x7b, 0xf8, 0xb9, 0xcf, 0x32, 0x0f, 0x60, 0x34,
           0x70, 0xfb, 0x91, 0x7d, 0xeb, 0xe8, 0xc5, 0x08]) := by
  decide

/-- C6 at the key "Jefe" and the message "what do ya want for nothing?" (test
case 2 of RFC 4231): `libhmac_sha512_calculate_hmac` pads the key to its
`block_size` of 64 bytes and writes d2766eca ... fd9160aa, whereas the formula
of the specification, with the key padded to `B = 128` bytes, gives
164b7a7b ... 38bce737. -/
theorem libhmac_sha512_calculate_hmac_block_size_64 :
    libhmac_sha512_calculate_hmac (some rfc4231_test2_key) rfc4231_test2_key.length
        (some rfc4231_test2_data) rfc4231_test2_data.length (some (List.replicate 64 0)) 64
      = (1, some
    [0xd2, 0x76, 0x6e, 0xca, 0x33, 0xfe, 0x85, 0x2b, 0xd6, 0x29, 0x25, 0x3f, 0xe0, 0x1c,
     0x63, 0x51, 0x9e, 0xb2, 0x45, 0x9b, 0xdb, 0x0a, 0xf2, 0x54, 0xbd, 0x43, 0x41, 0x74,
     0x0b, 0x4d, 0x0e, 0xa7, 0x23, 0xc6, 0xa2, 0xa4, 0xdf, 0xc3, 0x42, 0x52, 0x89, 0x1c,
     0x14, 0xf2, 0x65, 0x80, 0x55, 0x23, 0x7a, 0xa3, 0xf6, 0x49, 0x62, 0xd4, 0xd4, 0xde,
     0x21, 0x70, 0xae, 0x18, 0xfd, 0x91, 0x60, 0xaa])
    ∧ spec_hmac_sha512 rfc4231_test2_key rfc4231_test2_data
      = [0x16, 0x4b, 0x7a, 0x7b, 0xfc, 0xf8, 0x19, 0xe2, 0xe3, 0x95, 0xfb, 0xe7, 0x3b, 0x56,
     0xe0, 0xa3, 0x87, 0xbd, 0x64, 0x22, 0x2e, 0x83, 0x1f, 0xd6, 0x10, 0x27, 0x0c, 0xd7,
     0xea, 0x25, 0x05, 0x54, 0x97, 0x58, 0xbf, 0x75, 0xc0, 0x5a, 0x99, 0x4a, 0x6d, 0x03,
     0x4f, 0x65, 0xf8, 0xf0, 0xe6, 0xfd, 0xca, 0xea, 0xb1, 0xa3, 0x4d, 0x4a, 0x6b, 0x4b,
     0x63, 0x6e, 0x07, 0x0a, 0x38, 0xbc, 0xe7, 0x37] :=
  ⟨rfc4231_test2_code, rfc4231_test2_spec⟩

/-- C7 on the code: with the key of 20 bytes 0x0b and the message "Hi There"
(test case 1 of RFC 4231) `libhmac_sha512_calculate_hmac` returns 1 and writes
9656975e ... 26a0a22a, which is not the digest 87aa7cde ... 3a126854 of
RFC 4231. -/
theorem libhmac_sha512_calculate_hmac_rfc4231_test1 :
    libhmac_sha512_calculate_hmac (some rfc4231_test1_key) rfc4231_test1_key.length
        (some rfc4231_test1_data) rfc4231_test1_data.length (some (List.replicate 64 0)) 64
      = (1, some
    [0x96, 0x56, 0x97, 0x5e, 0xe5, 0xde, 0x55, 0xe7, 0x5f, 0x29, 0x76, 0xec, 0xce, 0x9a,
     0x04, 0x50, 0x10, 0x60, 0xb9, 0xdc, 0x22, 0xa6, 0xed, 0xa2, 0xea, 0xef, 0x63, 0x89,
     0x66, 0x28, 0x01, 0x82, 0x47, 0x7f, 0xe0, 0x9f, 0x08, 0x0b, 0x2b, 0xf5, 0x64, 0x64,
     0x9c, 0xad, 0x42, 0xaf, 0x86, 0x07, 0xa2, 0xbd, 0x8d, 0x02, 0x97, 0x9d, 0xf3, 0xa9,
     0x80, 0xf1, 0x5e, 0x23, 0x26, 0xa0, 0xa2, 0x2a])
    ∧ (libhmac_sha512_calculate_hmac (some rfc4231_test1_key) rfc4231_test1_key.length
        (some rfc4231_test1_data) rfc4231_test1_data.length (some (List.replicate 64 0)) 64).2
      ≠ some
    [0x87, 0xaa, 0x7c, 0xde, 0xa5, 0xef, 0x61, 0x9d, 0x4f, 0xf0, 0xb4, 0x24, 0x1a, 0x1d,
     0x6c, 0xb0, 0x23, 0x79, 0xf4, 0xe2, 0xce, 0x4e, 0xc2, 0x78, 0x7a, 0xd0, 0xb3, 0x05,
     0x45, 0xe1, 0x7c, 0xde, 0xda, 0xa8, 0x33, 0xb7, 0xd6, 0xb8, 0xa7, 0x02, 0x03, 0x8b,
     0x27, 0x4e, 0xae, 0xa3, 0xf4, 0xe4, 0xbe, 0x9d, 0x91, 0x4e, 0xeb, 0x61, 0xf1, 0x70,
     0x2e, 0x69, 0x6c, 0x20, 0x3a, 0x12, 0x68, 0x54] := by
  refine ⟨rfc4231_test1_code, ?_⟩
  rw [rfc4231_test1_code]
  decide

/-! ## Failures and successes of the incremental interface -/

theorem libhmac_sha512_update_blocks_succeeds (ic : libhmac_internal_sha512_context)
    (buffer : List Nat) (buffer_offset size : Nat) (h : size ≤ SSIZE_MAX) :
    (libhmac_sha512_update_blocks ic buffer buffer_offset size).1 = 1 := by
  unfold libhmac_sha512_update_blocks
  by_cases h0 : size > 0
  · simp only [h0, if_true]
    rw [libhmac_sha512_transform_eq ic _ size h]
    have hne : ¬ (((128 * (size / 128) : Nat) : Int) = -1) := by omega
    simp only [hne, if_false, Int.toNat_ofNat, Option.getD_some]
    rw [libhmac_sha512_update_remainder_eq _ _ _ _ (by omega)]
  · simp only [h0, if_false]
    rw [libhmac_sha512_update_remainder_eq _ _ _ _ (by omega)]

/-- C11: for every context (NULL included), every output buffer and every
`hash_size` below 64, `libhmac_sha512_finalize` returns -1, and the output
buffer after the call is the output buffer before the call, byte for byte; the
context is left as it was too. -/
theorem libhmac_sha512_finalize_hash_size_too_small
    (context : Option libhmac_internal_sha512_context) (hash : Option (List Nat))
    (hash_size : Nat) (h : hash_size < 64) :
    (libhmac_sha512_finalize context hash hash_size).1 = -1
      ∧ (libhmac_sha512_finalize context hash hash_size).2.2 = hash
      ∧ (libhmac_sha512_finalize context hash hash_size).2.1 = context := by
  unfold libhmac_sha512_finalize
  match context, hash with
  | none, _ => simp
  | some ic, none => simp
  | some ic, some out => simp [LIBHMAC_SHA512_HASH_SIZE, h]

theorem libhmac_sha512_finalize_hash_size_too_small_witness :
    (63 : Nat) < 64
    ∧ ((libhmac_sha512_finalize (some sha512_initial_context)
          (some (List.replicate 63 0xAA)) 63).1 = -1
      ∧ (libhmac_sha512_finalize (some sha512_initial_context)
          (some (List.replicate 63 0xAA)) 63).2.2 = some (List.replicate 63 0xAA)
      ∧ (libhmac_sha512_finalize (some sha512_initial_context)
          (some (List.replicate 63 0xAA)) 63).2.1 = some sha512_initial_context) :=
  ⟨by decide,
    libhmac_sha512_finalize_hash_size_too_small (some sha512_initial_context)
      (some (List.replicate 63 0xAA)) 63 (by decide)⟩

/-- C12: when `libhmac_sha512_finalize` returns 1, the context it leaves has
`hash_count` 0, eight `hash_values` equal to 0, `block_offset` 0 and a `block`
of 128 bytes equal to 0. -/
theorem libhmac_sha512_finalize_zeroes_context
    (context : Option libhmac_internal_sha512_context) (hash : Option (List Nat))
    (hash_size : Nat) (h : (libhmac_sha512_finalize context hash hash_size).1 = 1) :
    ∃ ic, (libhmac_sha512_finalize context hash hash_size).2.1 = some ic
      ∧ ic.hash_count = 0
      ∧ ic.hash_values = List.replicate 8 0
      ∧ ic.block_offset = 0
      ∧ ic.block = List.replicate 128 0 := by
  exact ⟨sha512_cleared_context, libhmac_sha512_finalize_success context hash hash_size h,
    rfl, rfl, rfl, rfl⟩

theorem libhmac_sha512_finalize_zeroes_context_witness :
    (libhmac_sha512_finalize (some sha512_initial_context)
        (some (List.replicate 64 0)) 64).1 = 1
    ∧ ∃ ic, (libhmac_sha512_finalize (some sha512_initial_context)
          (some (List.replicate 64 0)) 64).2.1 = some ic
      ∧ ic.hash_count = 0
      ∧ ic.hash_values = List.replicate 8 0
      ∧ ic.block_offset = 0
      ∧ ic.block = List.replicate 128 0 :=
  have h : (libhmac_sha512_finalize (some sha512_initial_context)
      (some (List.replicate 64 0)) 64).1 = 1 := by
    rw [libhmac_sha512_finalize_absorbed _ _ [] _ _ sha512_initial_context_absorbed
      (by decide) (by decide) (by decide)]
  ⟨h, libhmac_sha512_finalize_zeroes_context (some sha512_initial_context)
    (some (List.replicate 64 0)) 64 h⟩

/-- C13: when `libhmac_sha512_initialize` returns 1, the out-parameter pointed
at NULL and now points at a context whose `hash_values` are the eight words of
`libhmac_sha512_prime_square_roots` in order, whose `block` is 128 bytes equal
to 0, and whose `block_offset` and `hash_count` are 0. -/
theorem libhmac_sha512_initialize_fresh_context
    (context : Option (Option libhmac_internal_sha512_context))
    (h : ( libhmac_sha512_initialize context).1 = 1) :
    context = some none
      ∧ ∃ ic, ( libhmac_sha512_initialize context).2 = some (some ic)
        ∧ ic.hash_values = libhmac_sha512_prime_square_roots
        ∧ ic.hash_values.length = 8
        ∧ ic.block = List.replicate 128 0
        ∧ ic.block_offset = 0
        ∧ ic.hash_count = 0 := by
  match context with
  | none => simp [ libhmac_sha512_initialize] at h
  | some (some c) => simp [ libhmac_sha512_initialize] at h
  | some none =>
    refine ⟨rfl, sha512_initial_context, ?_, rfl, by decide, rfl, rfl, rfl⟩
    rw [libhmac_sha512_initialize_eq]

theorem libhmac_sha512_initialize_fresh_context_witness :
    ( libhmac_sha512_initialize (some none)).1 = 1
    ∧ ((some none : Option (Option libhmac_internal_sha512_context)) = some none
      ∧ ∃ ic, ( libhmac_sha512_initialize (some none)).2 = some (some ic)
        ∧ ic.hash_values = libhmac_sha512_prime_square_roots
        ∧ ic.hash_values.length = 8
        ∧ ic.block = List.replicate 128 0
        ∧ ic.block_offset = 0
        ∧ ic.hash_count = 0) :=
  ⟨by decide, libhmac_sha512_initialize_fresh_context (some none) (by decide)⟩

/-- C14: when `libhmac_sha512_update` returns -1, the context is NULL, or the
buffer is NULL, or `size` is greater than `SSIZE_MAX`, and the context after
the call is the context before the call (`hash_count`, `hash_values`,
`block_offset` and `block` alike). The buffer is an input that the function
only reads: no memory of the buffer is among the memory the function writes. -/
theorem libhmac_sha512_update_failure_keeps_context
    (context : Option libhmac_internal_sha512_context)
    (buffer : Option (List Nat)) (size : Nat)
    (h : (libhmac_sha512_update context buffer size).1 = -1) :
    (context = none ∨ buffer = none ∨ size > SSIZE_MAX)
      ∧ (libhmac_sha512_update context buffer size).2 = context := by
  unfold libhmac_sha512_update at h ⊢
  match context, buffer with
  | none, _ => simp
  | some ic, none => simp
  | some ic, some buf =>
    simp only at h ⊢
    by_cases hz : size = 0
    · simp [hz] at h
    · by_cases hs : size > SSIZE_MAX
      · simp [hz, hs]
      · exfalso
        have hs2 : size ≤ SSIZE_MAX := Nat.not_lt.mp hs
        simp only [hz, hs, if_false] at h
        by_cases hb : ic.block_offset > 0
        · simp only [hb, if_true] at h
          generalize hr : (if (LIBHMAC_SHA512_BLOCK_SIZE + 2 ^ 64 - ic.block_offset) % 2 ^ 64 > size
            then size else (LIBHMAC_SHA512_BLOCK_SIZE + 2 ^ 64 - ic.block_offset) % 2 ^ 64) = r at h
          have hr2 : r ≤ size := by
            rw [← hr]; split <;> omega
          split at h
          · simp at h
          · rw [libhmac_sha512_transform_eq _ _ _ (by decide)] at h
            have hne : ¬ (((128 * (LIBHMAC_SHA512_BLOCK_SIZE / 128) : Nat) : Int) = -1) := by
              omega
            simp only [hne, if_false] at h
            rw [libhmac_sha512_update_blocks_succeeds _ _ _ _ (by omega)] at h
            simp at h
        · simp only [hb, if_false] at h
          rw [libhmac_sha512_update_blocks_succeeds _ _ _ _ hs2] at h
          simp at h

theorem libhmac_sha512_update_failure_keeps_context_witness :
    (libhmac_sha512_update (some sha512_initial_context) (some [0x61]) (2 ^ 63)).1 = -1
    ∧ (((some sha512_initial_context : Option libhmac_internal_sha512_context) = none
        ∨ (some [0x61] : Option (List Nat)) = none ∨ 2 ^ 63 > SSIZE_MAX)
      ∧ (libhmac_sha512_update (some sha512_initial_context) (some [0x61]) (2 ^ 63)).2
        = some sha512_initial_context) :=
  ⟨by decide,
    libhmac_sha512_update_failure_keeps_context (some sha512_initial_context) (some [0x61])
      (2 ^ 63) (by decide)⟩

/-! ## The error object -/

theorem libcerror_error_resize_well_formed (e : libcerror_internal_error)
    (h : libcerror_error_well_formed e) :
    libcerror_error_resize (some e)
      = (1, some { domain := e.domain, code := e.code,
                   number_of_messages := e.number_of_messages + 1,
                   messages := some (e.messages.getD [] ++ [none]),
                   sizes := some (e.sizes.getD [] ++ [0]) }) := by
  obtain ⟨h0, hm, hs⟩ := h
  unfold libcerror_error_resize memory_reallocate
  have e1 : (e.number_of_messages + 1).toNat = e.number_of_messages.toNat + 1 := by omega
  simp only [e1]
  rw [List.take_of_length_le (by omega), List.take_of_length_le (by omega), hm, hs]
  have e2 : e.number_of_messages.toNat + 1 - e.number_of_messages.toNat = 1 := by omega
  simp only [e2, List.replicate_one]
  rw [← hm, List.set_append_right _ _ (le_refl _), hm, ← hs,
    List.set_append_right _ _ (le_refl _)]
  simp

theorem libcerror_error_set_existing (D : libcerror_definitions)
    (e : libcerror_internal_error) (error_domain error_code : Int) (format : List Nat)
    (system_string_vsnprintf : List Nat → Nat → Int × List Nat)
    (h : libcerror_error_well_formed e) :
    libcerror_error_set D (some (some e)) error_domain error_code (some format)
        system_string_vsnprintf
      = some (some
          { domain := e.domain, code := e.code,
            number_of_messages := e.number_of_messages + 1,
            messages := some (e.messages.getD []
              ++ [(libcerror_error_set_string D format.length none
                    system_string_vsnprintf).1.error_string]),
            sizes := some (e.sizes.getD []
              ++ [(libcerror_error_set_string D format.length none
                    system_string_vsnprintf).1.error_string_size]) }) := by
  have hr := libcerror_error_resize_well_formed e h
  obtain ⟨h0, hm, hs⟩ := h
  unfold libcerror_error_set
  simp only [Option.getD_some, ne_eq, not_true_eq_false, if_false, hr]
  have e1 : (e.number_of_messages + 1 - 1).toNat = e.number_of_messages.toNat := by omega
  simp only [e1]
  have g1 : (e.messages.getD [] ++ [none]).getD e.number_of_messages.toNat none = none := by
    rw [← hm]; simp [List.getD_eq_getElem?_getD]
  rw [g1]
  have s1 : ∀ x, (e.messages.getD [] ++ [none]).set e.number_of_messages.toNat x
      = e.messages.getD [] ++ [x] := by
    intro x; rw [← hm, List.set_append_right _ _ (le_refl _)]; simp
  have s2 : ∀ x, (e.sizes.getD [] ++ [0]).set e.number_of_messages.toNat x
      = e.sizes.getD [] ++ [x] := by
    intro x; rw [← hs, List.set_append_right _ _ (le_refl _)]; simp
  rw [s1, s2]

theorem libcerror_error_set_created (D : libcerror_definitions)
    (error_domain error_code : Int) (format : List Nat)
    (system_string_vsnprintf : List Nat → Nat → Int × List Nat) :
    libcerror_error_set D (some none) error_domain error_code (some format)
        system_string_vsnprintf
      = some (some
          { domain := error_domain, code := error_code, number_of_messages := 1,
            messages := some [(libcerror_error_set_string D format.length none
                system_string_vsnprintf).1.error_string],
            sizes := some [(libcerror_error_set_string D format.length none
                system_string_vsnprintf).1.error_string_size] }) := by
  unfold libcerror_error_set libcerror_error_initialize
  simp only [Option.getD_some, ne_eq, not_true_eq_false, if_false]
  rw [libcerror_error_resize_well_formed _ (by simp [libcerror_error_well_formed])]
  simp

theorem libcerror_error_set_message_created (D : libcerror_definitions)
    (error_domain error_code : Int) (function message : String) :
    ∃ e, libcerror_error_set_message D (some none) error_domain error_code function message
        = some (some e)
      ∧ e.domain = error_domain ∧ e.code = error_code ∧ e.number_of_messages = 1 := by
  unfold libcerror_error_set_message
  rw [libcerror_error_set_created]
  exact ⟨_, rfl, rfl, rfl, rfl⟩

theorem libcaes_context_set_key_result {Context : Type} (D : libcerror_definitions)
    (E : libcaes_environment Context) (context : Option Context) (mode : Int)
    (key : Option (List Nat)) (key_bit_size : Nat)
    (error : Option (Option libcerror_internal_error)) :
    (libcaes_context_set_key D E context mode key key_bit_size error).result = 1
      ∨ (libcaes_context_set_key D E context mode key key_bit_size error).result = -1 := by
  unfold libcaes_context_set_key
  cases context with
  | none => simp
  | some ic =>
    simp only []
    split
    · simp
    · split
      · simp
      · split
        · split <;> simp
        · split <;> simp

theorem libcaes_context_set_key_failure {Context : Type} (D : libcerror_definitions)
    (E : libcaes_environment Context) (context : Option Context) (mode : Int)
    (key : Option (List Nat)) (key_bit_size : Nat)
    (error : Option (Option libcerror_internal_error))
    (henc : ∀ c k n e, (E.libcaes_crypt_set_encryption_key c k n e).1 ≠ 1 →
      (E.libcaes_crypt_set_encryption_key c k n e).2.1 = c)
    (hdec : ∀ c k n e, (E.libcaes_crypt_set_decryption_key c k n e).1 ≠ 1 →
      (E.libcaes_crypt_set_decryption_key c k n e).2.1 = c)
    (h : (libcaes_context_set_key D E context mode key key_bit_size error).result ≠ 1) :
    (libcaes_context_set_key D E context mode key key_bit_size error).context = context := by
  unfold libcaes_context_set_key at h ⊢
  cases context with
  | none => simp
  | some ic =>
    simp only [] at h ⊢
    split
    · simp
    · split
      · simp
      · rename_i h1 h2
        simp only [h1, h2, if_false] at h
        split
        · rename_i h3
          simp only [h3, if_true] at h
          split
          · rename_i h4
            simp [henc _ _ _ _ h4]
          · rename_i h4
            simp [h4] at h
        · rename_i h3
          simp only [h3, if_false] at h
          split
          · rename_i h4
            simp [hdec _ _ _ _ h4]
          · rename_i h4
            simp [h4] at h

theorem libcaes_context_initialize_null {Context : Type} (D : libcerror_definitions)
    (E : libcaes_environment Context) (error : Option (Option libcerror_internal_error))
    (libcaes_tables_initialized : Int) (allocations : List libcaes_allocation)
    (memory_allocate_succeeds : Bool) :
    (( libcaes_context_initialize D E (some none) error libcaes_tables_initialized allocations
          memory_allocate_succeeds).result = 1
      ∧ ( libcaes_context_initialize D E (some none) error libcaes_tables_initialized allocations
          memory_allocate_succeeds).context = some (some E.cleared_context)
      ∧ ( libcaes_context_initialize D E (some none) error libcaes_tables_initialized allocations
          memory_allocate_succeeds).allocations
        = libcaes_allocation.libcaes_internal_context_t :: allocations)
    ∨ (( libcaes_context_initialize D E (some none) error libcaes_tables_initialized allocations
          memory_allocate_succeeds).result = -1
      ∧ ( libcaes_context_initialize D E (some none) error libcaes_tables_initialized allocations
          memory_allocate_succeeds).context = some none
      ∧ ( libcaes_context_initialize D E (some none) error libcaes_tables_initialized allocations
          memory_allocate_succeeds).allocations = allocations) := by
  unfold libcaes_context_initialize
  simp only []
  split
  · right; exact ⟨rfl, rfl, rfl⟩
  · split
    · split
      · right
        refine ⟨rfl, rfl, ?_⟩
        simp [memory_free]
      · left; exact ⟨rfl, rfl, rfl⟩
    · left; exact ⟨rfl, rfl, rfl⟩

theorem libcaes_context_set_key_success {Context : Type} (D : libcerror_definitions)
    (E : libcaes_environment Context) (internal_context : Context) (mode : Int)
    (key : Option (List Nat)) (key_bit_size : Nat)
    (error : Option (Option libcerror_internal_error))
    (h : (libcaes_context_set_key D E (some internal_context) mode key key_bit_size
      error).result = 1) :
    (key_bit_size = 128 ∨ key_bit_size = 192 ∨ key_bit_size = 256)
    ∧ ((mode = E.LIBCAES_CRYPT_MODE_ENCRYPT
        ∧ (E.libcaes_crypt_set_encryption_key internal_context key key_bit_size error).1 = 1
        ∧ libcaes_context_set_key D E (some internal_context) mode key key_bit_size error
          = { result := 1,
              context := some (E.libcaes_crypt_set_encryption_key internal_context key
                key_bit_size error).2.1,
              error := (E.libcaes_crypt_set_encryption_key internal_context key
                key_bit_size error).2.2 })
      ∨ (mode ≠ E.LIBCAES_CRYPT_MODE_ENCRYPT ∧ mode = E.LIBCAES_CRYPT_MODE_DECRYPT
        ∧ (E.libcaes_crypt_set_decryption_key internal_context key key_bit_size error).1 = 1
        ∧ libcaes_context_set_key D E (some internal_context) mode key key_bit_size error
          = { result := 1,
              context := some (E.libcaes_crypt_set_decryption_key internal_context key
                key_bit_size error).2.1,
              error := (E.libcaes_crypt_set_decryption_key internal_context key
                key_bit_size error).2.2 })) := by
  unfold libcaes_context_set_key at h ⊢
  dsimp only at h ⊢
  by_cases hm : mode ≠ E.LIBCAES_CRYPT_MODE_DECRYPT ∧ mode ≠ E.LIBCAES_CRYPT_MODE_ENCRYPT
  · simp [if_pos hm] at h
  · by_cases hk : key_bit_size ≠ 128 ∧ key_bit_size ≠ 192 ∧ key_bit_size ≠ 256
    · simp [if_neg hm, if_pos hk] at h
    · simp only [if_neg hm, if_neg hk] at h ⊢
      refine ⟨by omega, ?_⟩
      by_cases he : mode = E.LIBCAES_CRYPT_MODE_ENCRYPT
      · simp only [if_pos he] at h ⊢
        by_cases hr : (E.libcaes_crypt_set_encryption_key internal_context key key_bit_size
            error).1 ≠ 1
        · simp [if_pos hr] at h
        · left
          simp only [if_neg hr]
          exact ⟨he, not_not.mp hr, trivial⟩
      · simp only [if_neg he] at h ⊢
        have hd : mode = E.LIBCAES_CRYPT_MODE_DECRYPT := by
          by_contra hd
          exact hm ⟨hd, he⟩
        by_cases hr : (E.libcaes_crypt_set_decryption_key internal_context key key_bit_size
            error).1 ≠ 1
        · simp [if_pos hr] at h
        · right
          simp only [if_neg hr]
          exact ⟨he, hd, not_not.mp hr, trivial⟩

/-- C17: `libcaes_context_set_key` returns -1 and leaves the context as it was
when `key_bit_size` is not 128, 192 or 256 or when `mode` is neither
`LIBCAES_CRYPT_MODE_ENCRYPT` nor `LIBCAES_CRYPT_MODE_DECRYPT`, and what it
leaves does not depend on the key-schedule functions then (neither is called).
With a supported size on a non-NULL context, the context after the call is the
one that `libcaes_crypt_set_encryption_key` leaves when the mode is encrypt, and
the one that `libcaes_crypt_set_decryption_key` leaves when the mode is decrypt;
the other function has no part in the result, and the return value is 1 exactly
when the function that was called returned 1. The two modes are different
values. -/
theorem libcaes_context_set_key_checks_arguments {Context : Type}
    (D : libcerror_definitions) (E : libcaes_environment Context) (context : Option Context)
    (mode : Int) (key : Option (List Nat)) (key_bit_size : Nat)
    (error : Option (Option libcerror_internal_error))
    (hmodes : E.LIBCAES_CRYPT_MODE_ENCRYPT ≠ E.LIBCAES_CRYPT_MODE_DECRYPT) :
    (((key_bit_size ≠ 128 ∧ key_bit_size ≠ 192 ∧ key_bit_size ≠ 256)
        ∨ (mode ≠ E.LIBCAES_CRYPT_MODE_ENCRYPT ∧ mode ≠ E.LIBCAES_CRYPT_MODE_DECRYPT)) →
      (libcaes_context_set_key D E context mode key key_bit_size error).result = -1
      ∧ (libcaes_context_set_key D E context mode key key_bit_size error).context = context
      ∧ ∀ f g, libcaes_context_set_key D
          { E with libcaes_crypt_set_encryption_key := f,
                   libcaes_crypt_set_decryption_key := g }
          context mode key key_bit_size error
        = libcaes_context_set_key D E context mode key key_bit_size error)
    ∧ (∀ internal_context, context = some internal_context →
        (key_bit_size = 128 ∨ key_bit_size = 192 ∨ key_bit_size = 256) →
        (mode = E.LIBCAES_CRYPT_MODE_ENCRYPT →
          (libcaes_context_set_key D E context mode key key_bit_size error).context
            = some (E.libcaes_crypt_set_encryption_key internal_context key key_bit_size
                error).2.1
          ∧ ((libcaes_context_set_key D E context mode key key_bit_size error).result = 1
            ↔ (E.libcaes_crypt_set_encryption_key internal_context key key_bit_size
                error).1 = 1)
          ∧ ∀ g, libcaes_context_set_key D { E with libcaes_crypt_set_decryption_key := g }
              context mode key key_bit_size error
            = libcaes_context_set_key D E context mode key key_bit_size error)
        ∧ (mode = E.LIBCAES_CRYPT_MODE_DECRYPT →
          (libcaes_context_set_key D E context mode key key_bit_size error).context
            = some (E.libcaes_crypt_set_decryption_key internal_context key key_bit_size
                error).2.1
          ∧ ((libcaes_context_set_key D E context mode key key_bit_size error).result = 1
            ↔ (E.libcaes_crypt_set_decryption_key internal_context key key_bit_size
                error).1 = 1)
          ∧ ∀ f, libcaes_context_set_key D { E with libcaes_crypt_set_encryption_key := f }
              context mode key key_bit_size error
            = libcaes_context_set_key D E context mode key key_bit_size error)) := by
  constructor
  · intro hbad
    cases context with
    | none => exact ⟨rfl, rfl, fun _ _ => rfl⟩
    | some ic =>
      unfold libcaes_context_set_key
      dsimp only
      by_cases hm : mode ≠ E.LIBCAES_CRYPT_MODE_DECRYPT ∧ mode ≠ E.LIBCAES_CRYPT_MODE_ENCRYPT
      · simp only [if_pos hm]
        exact ⟨trivial, trivial, fun _ _ => trivial⟩
      · have hk : key_bit_size ≠ 128 ∧ key_bit_size ≠ 192 ∧ key_bit_size ≠ 256 := by
          rcases hbad with hb | hb
          · exact hb
          · exact absurd ⟨hb.2, hb.1⟩ hm
        simp only [if_neg hm, if_pos hk]
        exact ⟨trivial, trivial, fun _ _ => trivial⟩
  · intro ic hc hk
    subst hc
    have hk2 : ¬ (key_bit_size ≠ 128 ∧ key_bit_size ≠ 192 ∧ key_bit_size ≠ 256) := by omega
    constructor
    · intro hm
      subst hm
      have hm2 : ¬ (E.LIBCAES_CRYPT_MODE_ENCRYPT ≠ E.LIBCAES_CRYPT_MODE_DECRYPT
          ∧ E.LIBCAES_CRYPT_MODE_ENCRYPT ≠ E.LIBCAES_CRYPT_MODE_ENCRYPT) := by
        intro hh; exact hh.2 rfl
      unfold libcaes_context_set_key
      dsimp only
      simp only [hm2, hk2, if_false, if_true]
      refine ⟨?_, ?_, ?_⟩
      · split <;> rfl
      · split
        · rename_i h1
          simp [h1]
        · rename_i h1
          have h2 := not_not.mp h1
          simp [h2]
      · intro g
        trivial
    · intro hm
      subst hm
      have hm2 : ¬ (E.LIBCAES_CRYPT_MODE_DECRYPT ≠ E.LIBCAES_CRYPT_MODE_DECRYPT
          ∧ E.LIBCAES_CRYPT_MODE_DECRYPT ≠ E.LIBCAES_CRYPT_MODE_ENCRYPT) := by
        intro hh; exact hh.1 rfl
      have hm3 : ¬ (E.LIBCAES_CRYPT_MODE_DECRYPT = E.LIBCAES_CRYPT_MODE_ENCRYPT) :=
        fun hh => hmodes hh.symm
      unfold libcaes_context_set_key
      dsimp only
      simp only [hm2, hk2, hm3, if_false]
      refine ⟨?_, ?_, ?_⟩
      · split <;> rfl
      · split
        · rename_i h1
          simp [h1]
        · rename_i h1
          have h2 := not_not.mp h1
          simp [h2]
      · intro f
        trivial

theorem libcaes_context_set_key_checks_arguments_witness :
    libcaes_environment_sample.LIBCAES_CRYPT_MODE_ENCRYPT
      ≠ libcaes_environment_sample.LIBCAES_CRYPT_MODE_DECRYPT
    ∧ ((libcaes_context_set_key libcerror_definitions_sample libcaes_environment_sample
          (some [1, 7]) 0 (some (List.replicate 16 0x2B)) 100 (some none)).result = -1
      ∧ (libcaes_context_set_key libcerror_definitions_sample libcaes_environment_sample
          (some [1, 7]) 0 (some (List.replicate 16 0x2B)) 100 (some none)).context
        = some [1, 7]
      ∧ ∀ f g, libcaes_context_set_key libcerror_definitions_sample
          { libcaes_environment_sample with
            libcaes_crypt_set_encryption_key := f,
            libcaes_crypt_set_decryption_key := g }
          (some [1, 7]) 0 (some (List.replicate 16 0x2B)) 100 (some none)
        = libcaes_context_set_key libcerror_definitions_sample libcaes_environment_sample
            (some [1, 7]) 0 (some (List.replicate 16 0x2B)) 100 (some none))
    ∧ ((libcaes_context_set_key libcerror_definitions_sample libcaes_environment_sample
          (some [1, 7]) 0 (some (List.replicate 16 0x2B)) 128 (some none)).context
        = some (libcaes_environment_sample.libcaes_crypt_set_decryption_key [1, 7]
            (some (List.replicate 16 0x2B)) 128 (some none)).2.1
      ∧ ((libcaes_context_set_key libcerror_definitions_sample libcaes_environment_sample
            (some [1, 7]) 0 (some (List.replicate 16 0x2B)) 128 (some none)).result = 1
        ↔ (libcaes_environment_sample.libcaes_crypt_set_decryption_key [1, 7]
            (some (List.replicate 16 0x2B)) 128 (some none)).1 = 1)
      ∧ ∀ f, libcaes_context_set_key libcerror_definitions_sample
          { libcaes_environment_sample with libcaes_crypt_set_encryption_key := f }
          (some [1, 7]) 0 (some (List.replicate 16 0x2B)) 128 (some none)
        = libcaes_context_set_key libcerror_definitions_sample libcaes_environment_sample
            (some [1, 7]) 0 (some (List.replicate 16 0x2B)) 128 (some none)) :=
  ⟨by decide,
    (libcaes_context_set_key_checks_arguments libcerror_definitions_sample
      libcaes_environment_sample (some [1, 7]) 0 (some (List.replicate 16 0x2B)) 100
      (some none) (by decide)).1 (Or.inl (by decide)),
    ((libcaes_context_set_key_checks_arguments libcerror_definitions_sample
      libcaes_environment_sample (some [1, 7]) 0 (some (List.replicate 16 0x2B)) 128
      (some none) (by decide)).2 [1, 7] rfl (Or.inl rfl)).2 rfl⟩

/-- C16: on a tweaked context, with a mode that is encrypt or decrypt and a
`key_bit_size` of 128, 192 or 256, `libcaes_tweaked_context_set_keys` keys the
main context with `libcaes_context_set_key` in the mode of the caller; when
that call returns 1 it keys the tweak context with `libcaes_context_set_key` in
`LIBCAES_CRYPT_MODE_ENCRYPT`, whatever the mode of the caller, and returns 1
exactly when that second call returns 1. So, when the function returns 1 in
decrypt mode on two non-NULL contexts, the main context is the one that
`libcaes_crypt_set_decryption_key` leaves and the tweak context is the one that
`libcaes_crypt_set_encryption_key` leaves. -/
theorem libcaes_tweaked_context_set_keys_modes {Context : Type}
    (D : libcerror_definitions) (E : libcaes_environment Context)
    (internal_context : libcaes_internal_tweaked_context Context) (mode : Int)
    (key : Option (List Nat)) (key_bit_size : Nat) (tweak_key : Option (List Nat))
    (tweak_key_bit_size : Nat) (error : Option (Option libcerror_internal_error))
    (hmodes : E.LIBCAES_CRYPT_MODE_ENCRYPT ≠ E.LIBCAES_CRYPT_MODE_DECRYPT)
    (hmode : mode = E.LIBCAES_CRYPT_MODE_ENCRYPT ∨ mode = E.LIBCAES_CRYPT_MODE_DECRYPT)
    (hsize : key_bit_size = 128 ∨ key_bit_size = 192 ∨ key_bit_size = 256) :
    (∃ tweak_context,
      (libcaes_tweaked_context_set_keys D E (some internal_context) mode key key_bit_size
          tweak_key tweak_key_bit_size error).context
        = some { main_context := (libcaes_context_set_key D E internal_context.main_context
                    mode key key_bit_size error).context,
                 tweak_context := tweak_context })
    ∧ ((libcaes_context_set_key D E internal_context.main_context mode key key_bit_size
          error).result = 1 →
        (libcaes_tweaked_context_set_keys D E (some internal_context) mode key key_bit_size
            tweak_key tweak_key_bit_size error).context
          = some { main_context := (libcaes_context_set_key D E internal_context.main_context
                      mode key key_bit_size error).context,
                   tweak_context := (libcaes_context_set_key D E
                      internal_context.tweak_context E.LIBCAES_CRYPT_MODE_ENCRYPT tweak_key
                      tweak_key_bit_size
                      (libcaes_context_set_key D E internal_context.main_context mode key
                        key_bit_size error).error).context }
        ∧ ((libcaes_tweaked_context_set_keys D E (some internal_context) mode key key_bit_size
              tweak_key tweak_key_bit_size error).result = 1
          ↔ (libcaes_context_set_key D E internal_context.tweak_context
              E.LIBCAES_CRYPT_MODE_ENCRYPT tweak_key tweak_key_bit_size
              (libcaes_context_set_key D E internal_context.main_context mode key
                key_bit_size error).error).result = 1))
    ∧ ((libcaes_tweaked_context_set_keys D E (some internal_context) mode key key_bit_size
          tweak_key tweak_key_bit_size error).result = 1 →
        (libcaes_context_set_key D E internal_context.main_context mode key key_bit_size
          error).result = 1)
    ∧ (∀ main_context tweak_context,
        internal_context.main_context = some main_context →
        internal_context.tweak_context = some tweak_context →
        mode = E.LIBCAES_CRYPT_MODE_DECRYPT →
        (libcaes_tweaked_context_set_keys D E (some internal_context) mode key key_bit_size
          tweak_key tweak_key_bit_size error).result = 1 →
        (libcaes_tweaked_context_set_keys D E (some internal_context) mode key key_bit_size
            tweak_key tweak_key_bit_size error).context
          = some { main_context := some (E.libcaes_crypt_set_decryption_key main_context key
                      key_bit_size error).2.1,
                   tweak_context := some (E.libcaes_crypt_set_encryption_key tweak_context
                      tweak_key tweak_key_bit_size
                      (E.libcaes_crypt_set_decryption_key main_context key key_bit_size
                        error).2.2).2.1 }) := by
  have hm : ¬ (mode ≠ E.LIBCAES_CRYPT_MODE_DECRYPT ∧ mode ≠ E.LIBCAES_CRYPT_MODE_ENCRYPT) := by
    rcases hmode with h | h
    · exact fun hh => hh.2 h
    · exact fun hh => hh.1 h
  have hk : ¬ (key_bit_size ≠ 128 ∧ key_bit_size ≠ 192 ∧ key_bit_size ≠ 256) := by omega
  have hshape : libcaes_tweaked_context_set_keys D E (some internal_context) mode key
      key_bit_size tweak_key tweak_key_bit_size error
      = (if (libcaes_context_set_key D E internal_context.main_context mode key key_bit_size
            error).result ≠ 1 then
          { result := -1,
            context := some { internal_context with
              main_context := (libcaes_context_set_key D E internal_context.main_context mode
                key key_bit_size error).context },
            error := libcerror_error_set_message D
              (libcaes_context_set_key D E internal_context.main_context mode key
                key_bit_size error).error D.LIBCERROR_ERROR_DOMAIN_RUNTIME
              D.LIBCERROR_RUNTIME_ERROR_SET_FAILED "libcaes_tweaked_context_set_key"
              ": unable to set key in main context." }
        else if (libcaes_context_set_key D E internal_context.tweak_context
            E.LIBCAES_CRYPT_MODE_ENCRYPT tweak_key tweak_key_bit_size
            (libcaes_context_set_key D E internal_context.main_context mode key
              key_bit_size error).error).result ≠ 1 then
          { result := -1,
            context := some
              { main_context := (libcaes_context_set_key D E internal_context.main_context
                  mode key key_bit_size error).context,
                tweak_context := (libcaes_context_set_key D E internal_context.tweak_context
                  E.LIBCAES_CRYPT_MODE_ENCRYPT tweak_key tweak_key_bit_size
                  (libcaes_context_set_key D E internal_context.main_context mode key
                    key_bit_size error).error).context },
            error := libcerror_error_set_message D
              (libcaes_context_set_key D E internal_context.tweak_context
                E.LIBCAES_CRYPT_MODE_ENCRYPT tweak_key tweak_key_bit_size
                (libcaes_context_set_key D E internal_context.main_context mode key
                  key_bit_size error).error).error D.LIBCERROR_ERROR_DOMAIN_RUNTIME
              D.LIBCERROR_RUNTIME_ERROR_SET_FAILED "libcaes_tweaked_context_set_key"
              ": unable to set tweak key in tweak context." }
        else
          { result := 1,
            context := some
              { main_context := (libcaes_context_set_key D E internal_context.main_context
                  mode key key_bit_size error).context,
                tweak_context := (libcaes_context_set_key D E internal_context.tweak_context
                  E.LIBCAES_CRYPT_MODE_ENCRYPT tweak_key tweak_key_bit_size
                  (libcaes_context_set_key D E internal_context.main_context mode key
                    key_bit_size error).error).context },
            error := (libcaes_context_set_key D E internal_context.tweak_context
                E.LIBCAES_CRYPT_MODE_ENCRYPT tweak_key tweak_key_bit_size
                (libcaes_context_set_key D E internal_context.main_context mode key
                  key_bit_size error).error).error }) := by
    unfold libcaes_tweaked_context_set_keys
    simp only [if_neg hm, if_neg hk]
  rw [hshape]
  refine ⟨?_, ?_, ?_, ?_⟩
  · split
    · exact ⟨_, rfl⟩
    · split
      · exact ⟨_, rfl⟩
      · exact ⟨_, rfl⟩
  · intro h1
    simp only [h1, ne_eq, not_true_eq_false, if_false]
    split
    · rename_i h2
      exact ⟨rfl, by simp [h2]⟩
    · rename_i h2
      exact ⟨rfl, by simp [not_not.mp h2]⟩
  · intro h1
    by_contra h2
    simp [h2] at h1
  · intro m t hmc htc hdec h1
    by_cases h2 : (libcaes_context_set_key D E internal_context.main_context mode key
        key_bit_size error).result ≠ 1
    · simp [h2] at h1
    · by_cases h3 : (libcaes_context_set_key D E internal_context.tweak_context
          E.LIBCAES_CRYPT_MODE_ENCRYPT tweak_key tweak_key_bit_size
          (libcaes_context_set_key D E internal_context.main_context mode key
            key_bit_size error).error).result ≠ 1
      · simp [h2, h3] at h1
      · simp only [if_neg h2, if_neg h3]
        rw [hmc] at h2 h3 ⊢
        rw [htc] at h3 ⊢
        obtain ⟨_, hmain⟩ := libcaes_context_set_key_success D E m mode key key_bit_size error
          (not_not.mp h2)
        rcases hmain with ⟨he, _, _⟩ | ⟨_, _, _, hmain⟩
        · exact absurd (he.symm.trans hdec) hmodes
        · rw [hmain] at h3 ⊢
          obtain ⟨_, htweak⟩ := libcaes_context_set_key_success D E t
            E.LIBCAES_CRYPT_MODE_ENCRYPT tweak_key tweak_key_bit_size _ (not_not.mp h3)
          rcases htweak with ⟨_, _, htweak⟩ | ⟨hne, _, _, _⟩
          · rw [htweak]
          · exact absurd rfl hne

theorem libcaes_tweaked_context_set_keys_modes_witness :
    libcaes_environment_sample.LIBCAES_CRYPT_MODE_ENCRYPT
      ≠ libcaes_environment_sample.LIBCAES_CRYPT_MODE_DECRYPT
    ∧ ((0 : Int) = libcaes_environment_sample.LIBCAES_CRYPT_MODE_ENCRYPT
      ∨ (0 : Int) = libcaes_environment_sample.LIBCAES_CRYPT_MODE_DECRYPT)
    ∧ ((128 : Nat) = 128 ∨ (128 : Nat) = 192 ∨ (128 : Nat) = 256)
    ∧ (libcaes_tweaked_context_set_keys libcerror_definitions_sample
        libcaes_environment_sample (some { main_context := some [], tweak_context := some [] })
        0 (some (List.replicate 16 0x2B)) 128 (some (List.replicate 32 0x7E)) 256
        (some none)).result = 1
    ∧ (libcaes_tweaked_context_set_keys libcerror_definitions_sample
        libcaes_environment_sample (some { main_context := some [], tweak_context := some [] })
        0 (some (List.replicate 16 0x2B)) 128 (some (List.replicate 32 0x7E)) 256
        (some none)).context
      = some { main_context := some (0 :: List.replicate 16 0x2B),
               tweak_context := some (1 :: List.replicate 32 0x7E) } :=
  ⟨by decide, by decide, by decide, by decide,
    (libcaes_tweaked_context_set_keys_modes libcerror_definitions_sample
      libcaes_environment_sample { main_context := some [], tweak_context := some [] }
      0 (some (List.replicate 16 0x2B)) 128 (some (List.replicate 32 0x7E)) 256 (some none)
      (by decide) (by decide) (by decide)).2.2.2 [] [] rfl rfl rfl (by decide)⟩

/-- C15 fails as stated: with a key of 128 bits and a `tweak_key_bit_size` of
100, `libcaes_tweaked_context_set_keys` in encrypt mode returns -1 after
`libcaes_context_set_key` has keyed the main context; the main context is not
the one before the call. -/
theorem libcaes_tweaked_context_set_keys_not_atomic :
    (libcaes_tweaked_context_set_keys libcerror_definitions_sample
        libcaes_environment_sample (some { main_context := some [], tweak_context := some [] })
        1 (some (List.replicate 16 0x2B)) 128 (some (List.replicate 16 0x7E)) 100
        (some none)).result = -1
    ∧ (libcaes_tweaked_context_set_keys libcerror_definitions_sample
        libcaes_environment_sample (some { main_context := some [], tweak_context := some [] })
        1 (some (List.replicate 16 0x2B)) 128 (some (List.replicate 16 0x7E)) 100
        (some none)).context
      = some { main_context := some (1 :: List.replicate 16 0x2B), tweak_context := some [] }
    ∧ (libcaes_tweaked_context_set_keys libcerror_definitions_sample
        libcaes_environment_sample (some { main_context := some [], tweak_context := some [] })
        1 (some (List.replicate 16 0x2B)) 128 (some (List.replicate 16 0x7E)) 100
        (some none)).context
      ≠ some { main_context := some [], tweak_context := some [] } := by
  decide

/-- C15 as the code has it: when `libcaes_tweaked_context_set_keys` returns
-1, either the two contexts are as they were before the call, or the mode and
`key_bit_size` were accepted, `libcaes_context_set_key` returned 1 on the main
context and did not return 1 on the tweak context: then the tweak context is
as it was before the call and the main context stays keyed with the new key.
A key-schedule function that fails is taken to leave its context as it was. -/
theorem libcaes_tweaked_context_set_keys_failure {Context : Type}
    (D : libcerror_definitions) (E : libcaes_environment Context)
    (context : Option (libcaes_internal_tweaked_context Context)) (mode : Int)
    (key : Option (List Nat)) (key_bit_size : Nat) (tweak_key : Option (List Nat))
    (tweak_key_bit_size : Nat) (error : Option (Option libcerror_internal_error))
    (henc : ∀ c k n e, (E.libcaes_crypt_set_encryption_key c k n e).1 ≠ 1 →
      (E.libcaes_crypt_set_encryption_key c k n e).2.1 = c)
    (hdec : ∀ c k n e, (E.libcaes_crypt_set_decryption_key c k n e).1 ≠ 1 →
      (E.libcaes_crypt_set_decryption_key c k n e).2.1 = c)
    (h : (libcaes_tweaked_context_set_keys D E context mode key key_bit_size tweak_key
      tweak_key_bit_size error).result = -1) :
    (libcaes_tweaked_context_set_keys D E context mode key key_bit_size tweak_key
        tweak_key_bit_size error).context = context
    ∨ ∃ internal_context, context = some internal_context
      ∧ (mode = E.LIBCAES_CRYPT_MODE_DECRYPT ∨ mode = E.LIBCAES_CRYPT_MODE_ENCRYPT)
      ∧ (key_bit_size = 128 ∨ key_bit_size = 192 ∨ key_bit_size = 256)
      ∧ (libcaes_context_set_key D E internal_context.main_context mode key key_bit_size
          error).result = 1
      ∧ (libcaes_context_set_key D E internal_context.tweak_context
          E.LIBCAES_CRYPT_MODE_ENCRYPT tweak_key tweak_key_bit_size
          (libcaes_context_set_key D E internal_context.main_context mode key key_bit_size
            error).error).result ≠ 1
      ∧ (libcaes_tweaked_context_set_keys D E context mode key key_bit_size tweak_key
          tweak_key_bit_size error).context
        = some { main_context := (libcaes_context_set_key D E internal_context.main_context
                    mode key key_bit_size error).context,
                 tweak_context := internal_context.tweak_context } := by
  cases context with
  | none => left; rfl
  | some ic =>
    unfold libcaes_tweaked_context_set_keys at h ⊢
    dsimp only at h ⊢
    by_cases hm : mode ≠ E.LIBCAES_CRYPT_MODE_DECRYPT ∧ mode ≠ E.LIBCAES_CRYPT_MODE_ENCRYPT
    · left; simp only [if_pos hm]
    · by_cases hk : key_bit_size ≠ 128 ∧ key_bit_size ≠ 192 ∧ key_bit_size ≠ 256
      · left; simp only [if_neg hm, if_pos hk]
      · simp only [if_neg hm, if_neg hk] at h ⊢
        by_cases h1 : (libcaes_context_set_key D E ic.main_context mode key key_bit_size
            error).result ≠ 1
        · left
          simp only [if_pos h1]
          rw [libcaes_context_set_key_failure D E _ _ _ _ _ henc hdec h1]
        · simp only [if_neg h1] at h ⊢
          by_cases h2 : (libcaes_context_set_key D E ic.tweak_context
              E.LIBCAES_CRYPT_MODE_ENCRYPT tweak_key tweak_key_bit_size
              (libcaes_context_set_key D E ic.main_context mode key key_bit_size
                error).error).result ≠ 1
          · right
            refine ⟨ic, rfl, ?_, by omega, not_not.mp h1, h2, ?_⟩
            · by_contra hcon
              exact hm ⟨fun hh => hcon (Or.inl hh), fun hh => hcon (Or.inr hh)⟩
            · simp only [if_pos h2]
              rw [libcaes_context_set_key_failure D E _ _ _ _ _ henc hdec h2]
          · simp [if_neg h2] at h

theorem libcaes_tweaked_context_set_keys_failure_witness :
    (∀ c k n e, (libcaes_environment_sample.libcaes_crypt_set_encryption_key c k n e).1 ≠ 1 →
      (libcaes_environment_sample.libcaes_crypt_set_encryption_key c k n e).2.1 = c)
    ∧ (∀ c k n e, (libcaes_environment_sample.libcaes_crypt_set_decryption_key c k n e).1 ≠ 1 →
      (libcaes_environment_sample.libcaes_crypt_set_decryption_key c k n e).2.1 = c)
    ∧ (libcaes_tweaked_context_set_keys libcerror_definitions_sample
        libcaes_environment_sample (some { main_context := some [], tweak_context := some [] })
        1 (some (List.replicate 16 0x2B)) 128 none 128 (some none)).result = -1
    ∧ ((libcaes_tweaked_context_set_keys libcerror_definitions_sample
          libcaes_environment_sample
          (some { main_context := some [], tweak_context := some [] })
          1 (some (List.replicate 16 0x2B)) 128 none 128 (some none)).context
        = some { main_context := some [], tweak_context := some [] }
      ∨ ∃ internal_context,
        some ({ main_context := some [], tweak_context := some [] }
            : libcaes_internal_tweaked_context (List Nat)) = some internal_context
        ∧ ((1 : Int) = libcaes_environment_sample.LIBCAES_CRYPT_MODE_DECRYPT
          ∨ (1 : Int) = libcaes_environment_sample.LIBCAES_CRYPT_MODE_ENCRYPT)
        ∧ ((128 : Nat) = 128 ∨ (128 : Nat) = 192 ∨ (128 : Nat) = 256)
        ∧ (libcaes_context_set_key libcerror_definitions_sample libcaes_environment_sample
            internal_context.main_context 1 (some (List.replicate 16 0x2B)) 128
            (some none)).result = 1
        ∧ (libcaes_context_set_key libcerror_definitions_sample libcaes_environment_sample
            internal_context.tweak_context
            libcaes_environment_sample.LIBCAES_CRYPT_MODE_ENCRYPT none 128
            (libcaes_context_set_key libcerror_definitions_sample
              libcaes_environment_sample internal_context.main_context 1
              (some (List.replicate 16 0x2B)) 128 (some none)).error).result ≠ 1
        ∧ (libcaes_tweaked_context_set_keys libcerror_definitions_sample
            libcaes_environment_sample
            (some { main_context := some [], tweak_context := some [] })
            1 (some (List.replicate 16 0x2B)) 128 none 128 (some none)).context
          = some { main_context := (libcaes_context_set_key libcerror_definitions_sample
                      libcaes_environment_sample internal_context.main_context 1
                      (some (List.replicate 16 0x2B)) 128 (some none)).context,
                   tweak_context := internal_context.tweak_context }) :=
  have henc : ∀ (c : List Nat) k n e,
      (libcaes_environment_sample.libcaes_crypt_set_encryption_key c k n e).1 ≠ 1 →
      (libcaes_environment_sample.libcaes_crypt_set_encryption_key c k n e).2.1 = c := by
    intro c k n e
    cases k <;> simp [libcaes_environment_sample]
  have hdec : ∀ (c : List Nat) k n e,
      (libcaes_environment_sample.libcaes_crypt_set_decryption_key c k n e).1 ≠ 1 →
      (libcaes_environment_sample.libcaes_crypt_set_decryption_key c k n e).2.1 = c := by
    intro c k n e
    cases k <;> simp [libcaes_environment_sample]
  ⟨henc, hdec, by decide,
    libcaes_tweaked_context_set_keys_failure libcerror_definitions_sample
      libcaes_environment_sample (some { main_context := some [], tweak_context := some [] })
      1 (some (List.replicate 16 0x2B)) 128 none 128 (some none) henc hdec (by decide)⟩

/-- C18: each of `libcaes_context_initialize`,
`libcaes_tweaked_context_initialize` and `libhmac_sha512_initialize`, called
with an out-parameter that points at a non-NULL value, returns -1, leaves that
value (and the allocated blocks) as they were, and calls `libcerror_error_set`
with the runtime domain and the code `VALUE_ALREADY_SET`; when the error object
was NULL before, the error object after the call has that domain, that code
and one message. -/
theorem constructors_value_already_set {Context : Type} (D : libcerror_definitions)
    (E : libcaes_environment Context) (c : Context)
    (t : libcaes_internal_tweaked_context Context) (s : libhmac_internal_sha512_context)
    (error : Option (Option libcerror_internal_error)) (libcaes_tables_initialized : Int)
    (allocations : List libcaes_allocation) (a m w : Bool) :
    (( libcaes_context_initialize D E (some (some c)) error libcaes_tables_initialized
          allocations a)
        = { result := -1, context := some (some c),
            error := libcerror_error_set_message D error D.LIBCERROR_ERROR_DOMAIN_RUNTIME
              D.LIBCERROR_RUNTIME_ERROR_VALUE_ALREADY_SET "libcaes_context_initialize"
              ": invalid context value already set.",
            libcaes_tables_initialized := libcaes_tables_initialized,
            allocations := allocations })
    ∧ (( libcaes_tweaked_context_initialize D E (some (some t)) error
          libcaes_tables_initialized allocations a m w)
        = { result := -1, context := some (some t),
            error := libcerror_error_set_message D error D.LIBCERROR_ERROR_DOMAIN_RUNTIME
              D.LIBCERROR_RUNTIME_ERROR_VALUE_ALREADY_SET
              "libcaes_tweaked_context_initialize" ": invalid context value already set.",
            libcaes_tables_initialized := libcaes_tables_initialized,
            allocations := allocations })
    ∧ ( libhmac_sha512_initialize (some (some s))) = (-1, some (some s))
    ∧ libhmac_sha512_initialize_error D (some (some s)) error
        = libcerror_error_set_message D error D.LIBCERROR_ERROR_DOMAIN_RUNTIME
            D.LIBCERROR_RUNTIME_ERROR_VALUE_ALREADY_SET "libhmac_sha512_initialize"
            ": invalid context value already set."
    ∧ (∀ function message, ∃ e,
        libcerror_error_set_message D (some none) D.LIBCERROR_ERROR_DOMAIN_RUNTIME
            D.LIBCERROR_RUNTIME_ERROR_VALUE_ALREADY_SET function message = some (some e)
        ∧ e.domain = D.LIBCERROR_ERROR_DOMAIN_RUNTIME
        ∧ e.code = D.LIBCERROR_RUNTIME_ERROR_VALUE_ALREADY_SET
        ∧ e.number_of_messages = 1) :=
  ⟨rfl, rfl, rfl, rfl, fun function message =>
    libcerror_error_set_message_created D _ _ function message⟩

/-- C19: when `libcaes_tweaked_context_initialize`, called with an
out-parameter that points at NULL, does not return 1, it returns -1, the
out-parameter still points at NULL and the allocated blocks are those before
the call: the tweaked context and a main context made before the failure have
been freed. The failure is that of the allocation of the tweaked context, or
of `libcaes_context_initialize` on the main or on the tweak context. -/
theorem libcaes_tweaked_context_initialize_failure {Context : Type}
    (D : libcerror_definitions) (E : libcaes_environment Context)
    (error : Option (Option libcerror_internal_error)) (libcaes_tables_initialized : Int)
    (allocations : List libcaes_allocation)
    (memory_allocate_succeeds main_allocate_succeeds tweak_allocate_succeeds : Bool)
    (h : ( libcaes_tweaked_context_initialize D E (some none) error
      libcaes_tables_initialized allocations memory_allocate_succeeds main_allocate_succeeds
      tweak_allocate_succeeds).result ≠ 1) :
    ( libcaes_tweaked_context_initialize D E (some none) error libcaes_tables_initialized
        allocations memory_allocate_succeeds main_allocate_succeeds
        tweak_allocate_succeeds).result = -1
    ∧ ( libcaes_tweaked_context_initialize D E (some none) error libcaes_tables_initialized
        allocations memory_allocate_succeeds main_allocate_succeeds
        tweak_allocate_succeeds).context = some none
    ∧ ( libcaes_tweaked_context_initialize D E (some none) error libcaes_tables_initialized
        allocations memory_allocate_succeeds main_allocate_succeeds
        tweak_allocate_succeeds).allocations = allocations
    ∧ (memory_allocate_succeeds = false
      ∨ ( libcaes_context_initialize D E (some none) error libcaes_tables_initialized
          (libcaes_allocation.libcaes_internal_tweaked_context_t :: allocations)
          main_allocate_succeeds).result ≠ 1
      ∨ ( libcaes_context_initialize D E (some none)
          ( libcaes_context_initialize D E (some none) error libcaes_tables_initialized
            (libcaes_allocation.libcaes_internal_tweaked_context_t :: allocations)
            main_allocate_succeeds).error
          ( libcaes_context_initialize D E (some none) error libcaes_tables_initialized
            (libcaes_allocation.libcaes_internal_tweaked_context_t :: allocations)
            main_allocate_succeeds).libcaes_tables_initialized
          ( libcaes_context_initialize D E (some none) error libcaes_tables_initialized
            (libcaes_allocation.libcaes_internal_tweaked_context_t :: allocations)
            main_allocate_succeeds).allocations
          tweak_allocate_succeeds).result ≠ 1) := by
  unfold libcaes_tweaked_context_initialize at h ⊢
  dsimp only at h ⊢
  cases memory_allocate_succeeds with
  | false =>
    simp only [Bool.false_eq_true, not_false_eq_true, if_true]
    exact ⟨rfl, rfl, rfl, Or.inl trivial⟩
  | true =>
    simp only [not_true_eq_false, if_false] at h ⊢
    rcases libcaes_context_initialize_null D E error libcaes_tables_initialized
      (libcaes_allocation.libcaes_internal_tweaked_context_t :: allocations)
      main_allocate_succeeds with ⟨r1, c1, a1⟩ | ⟨r1, c1, a1⟩
    · have hr1 : ¬ (( libcaes_context_initialize D E (some none) error
          libcaes_tables_initialized
          (libcaes_allocation.libcaes_internal_tweaked_context_t :: allocations)
          main_allocate_succeeds).result ≠ 1) := by simp [r1]
      simp only [if_neg hr1] at h ⊢
      rcases libcaes_context_initialize_null D E
        ( libcaes_context_initialize D E (some none) error libcaes_tables_initialized
          (libcaes_allocation.libcaes_internal_tweaked_context_t :: allocations)
          main_allocate_succeeds).error
        ( libcaes_context_initialize D E (some none) error libcaes_tables_initialized
          (libcaes_allocation.libcaes_internal_tweaked_context_t :: allocations)
          main_allocate_succeeds).libcaes_tables_initialized
        ( libcaes_context_initialize D E (some none) error libcaes_tables_initialized
          (libcaes_allocation.libcaes_internal_tweaked_context_t :: allocations)
          main_allocate_succeeds).allocations
        tweak_allocate_succeeds with ⟨r2, c2, a2⟩ | ⟨r2, c2, a2⟩
      · rw [if_neg (by simp [r2])] at h
        exact absurd rfl h
      · have hr2 : (( libcaes_context_initialize D E (some none)
            ( libcaes_context_initialize D E (some none) error libcaes_tables_initialized
              (libcaes_allocation.libcaes_internal_tweaked_context_t :: allocations)
              main_allocate_succeeds).error
            ( libcaes_context_initialize D E (some none) error libcaes_tables_initialized
              (libcaes_allocation.libcaes_internal_tweaked_context_t :: allocations)
              main_allocate_succeeds).libcaes_tables_initialized
            ( libcaes_context_initialize D E (some none) error libcaes_tables_initialized
              (libcaes_allocation.libcaes_internal_tweaked_context_t :: allocations)
              main_allocate_succeeds).allocations
            tweak_allocate_succeeds).result ≠ 1) := by simp [r2]
        simp only [if_pos hr2]
        refine ⟨rfl, rfl, ?_, Or.inr (Or.inr hr2)⟩
        rw [a1] at a2
        simp [libcaes_tweaked_context_initialize_on_error, c1, a1, a2, libcaes_context_free,
          memory_free]
    · have hr1 : (( libcaes_context_initialize D E (some none) error
          libcaes_tables_initialized
          (libcaes_allocation.libcaes_internal_tweaked_context_t :: allocations)
          main_allocate_succeeds).result ≠ 1) := by simp [r1]
      simp only [if_pos hr1]
      refine ⟨rfl, rfl, ?_, Or.inr (Or.inl hr1)⟩
      simp [libcaes_tweaked_context_initialize_on_error, c1, a1, memory_free]

theorem libcaes_tweaked_context_initialize_failure_witness :
    ( libcaes_tweaked_context_initialize libcerror_definitions_sample
        libcaes_environment_sample (some none) (some none) 0 [] true true false).result ≠ 1
    ∧ ( libcaes_tweaked_context_initialize libcerror_definitions_sample
        libcaes_environment_sample (some none) (some none) 0 [] true true false).result = -1
    ∧ ( libcaes_tweaked_context_initialize libcerror_definitions_sample
        libcaes_environment_sample (some none) (some none) 0 [] true true false).context
      = some none
    ∧ ( libcaes_tweaked_context_initialize libcerror_definitions_sample
        libcaes_environment_sample (some none) (some none) 0 [] true true false).allocations
      = []
    ∧ ( libcaes_context_initialize libcerror_definitions_sample libcaes_environment_sample
        (some none) (some none) 0 [libcaes_allocation.libcaes_internal_tweaked_context_t]
        true).allocations
      = [libcaes_allocation.libcaes_internal_context_t,
         libcaes_allocation.libcaes_internal_tweaked_context_t] :=
  have h := libcaes_tweaked_context_initialize_failure libcerror_definitions_sample
    libcaes_environment_sample (some none) 0 [] true true false (by decide)
  ⟨by decide, h.1, h.2.1, h.2.2.1, by decide⟩

/-! ## The transform and the bounds of the block -/

theorem libhmac_sha512_update_succeeds (ic : libhmac_internal_sha512_context)
    (buf : List Nat) (size : Nat) (h : size ≤ SSIZE_MAX) :
    (libhmac_sha512_update (some ic) (some buf) size).1 = 1 := by
  unfold libhmac_sha512_update
  simp only
  by_cases hz : size = 0
  · simp [hz]
  · have hs : ¬ size > SSIZE_MAX := Nat.not_lt.mpr h
    simp only [hz, hs, if_false]
    by_cases hb : ic.block_offset > 0
    · simp only [hb, if_true]
      generalize hr : (if (LIBHMAC_SHA512_BLOCK_SIZE + 2 ^ 64 - ic.block_offset) % 2 ^ 64 > size
        then size else (LIBHMAC_SHA512_BLOCK_SIZE + 2 ^ 64 - ic.block_offset) % 2 ^ 64) = r
      have hr2 : r ≤ size := by
        rw [← hr]; split <;> omega
      split
      · rfl
      · rw [libhmac_sha512_transform_eq _ _ _ (by decide)]
        have hne : ¬ (((128 * (LIBHMAC_SHA512_BLOCK_SIZE / 128) : Nat) : Int) = -1) := by
          omega
        simp only [hne, if_false]
        rw [libhmac_sha512_update_blocks_succeeds _ _ _ _ (by omega)]
    · simp only [hb, if_false]
      rw [libhmac_sha512_update_blocks_succeeds _ _ _ _ h]

/-- C29: for a non-NULL context and buffer and a `size` of at most
`SSIZE_MAX`, `libhmac_sha512_transform` returns `128 * (size / 128)`; what it
leaves is the same for every buffer that has the same first
`128 * (size / 128)` bytes; for a `size` below 128 it returns 0 and leaves the
context, `hash_values` included, as it was. -/
theorem libhmac_sha512_transform_whole_blocks (ic : libhmac_internal_sha512_context)
    (buffer : List Nat) (size : Nat) (h : size ≤ SSIZE_MAX) :
    (libhmac_sha512_transform (some ic) (some buffer) size).1
        = ((128 * (size / 128) : Nat) : Int)
    ∧ (∀ other : List Nat,
        other.take (128 * (size / 128)) = buffer.take (128 * (size / 128)) →
        libhmac_sha512_transform (some ic) (some other) size
          = libhmac_sha512_transform (some ic) (some buffer) size)
    ∧ (size < 128 → libhmac_sha512_transform (some ic) (some buffer) size = (0, some ic)) := by
  refine ⟨?_, ?_, ?_⟩
  · rw [libhmac_sha512_transform_eq ic buffer size h]
  · intro other ho
    rw [libhmac_sha512_transform_eq ic buffer size h,
      libhmac_sha512_transform_eq ic other size h,
      ← sha512_compress_blocks_take (size / 128) ic.hash_values other
        (128 * (size / 128)) (le_refl _),
      ← sha512_compress_blocks_take (size / 128) ic.hash_values buffer
        (128 * (size / 128)) (le_refl _), ho]
  · intro hs
    rw [libhmac_sha512_transform_eq ic buffer size h]
    have h0 : size / 128 = 0 := by omega
    simp [h0, sha512_compress_blocks]

theorem libhmac_sha512_transform_whole_blocks_witness :
    300 ≤ SSIZE_MAX
    ∧ (libhmac_sha512_transform (some sha512_initial_context)
          (some (List.replicate 300 0x61)) 300).1 = ((128 * (300 / 128) : Nat) : Int)
    ∧ (∀ other : List Nat,
        other.take (128 * (300 / 128))
          = (List.replicate 300 0x61).take (128 * (300 / 128)) →
        libhmac_sha512_transform (some sha512_initial_context) (some other) 300
          = libhmac_sha512_transform (some sha512_initial_context)
              (some (List.replicate 300 0x61)) 300)
    ∧ (300 < 128 → libhmac_sha512_transform (some sha512_initial_context)
          (some (List.replicate 300 0x61)) 300 = (0, some sha512_initial_context)) :=
  ⟨by decide,
    libhmac_sha512_transform_whole_blocks sha512_initial_context (List.replicate 300 0x61)
      300 (by decide)⟩

/-- C30: for every context, buffer and `size` of at most `SSIZE_MAX`, the
transform of the whole blocks returns `128 * (size / 128)`, so fewer than 128
bytes are left for the last part of `libhmac_sha512_update`, whose branch
"invalid size value out of bounds" is not taken: the middle and last part
return 1, and so does `libhmac_sha512_update`. -/
theorem libhmac_sha512_update_size_in_bounds (ic : libhmac_internal_sha512_context)
    (buffer : List Nat) (buffer_offset size : Nat) (h : size ≤ SSIZE_MAX) :
    (libhmac_sha512_transform (some ic) (some (buffer.drop buffer_offset)) size).1
        = ((128 * (size / 128) : Nat) : Int)
    ∧ size - (libhmac_sha512_transform (some ic) (some (buffer.drop buffer_offset))
        size).1.toNat < LIBHMAC_SHA512_BLOCK_SIZE
    ∧ (libhmac_sha512_update_remainder ic buffer buffer_offset
        (size - (libhmac_sha512_transform (some ic) (some (buffer.drop buffer_offset))
          size).1.toNat)).1 = 1
    ∧ (libhmac_sha512_update_blocks ic buffer buffer_offset size).1 = 1
    ∧ (libhmac_sha512_update (some ic) (some buffer) size).1 = 1 := by
  rw [libhmac_sha512_transform_eq ic _ size h]
  simp only [Int.toNat_ofNat, LIBHMAC_SHA512_BLOCK_SIZE]
  refine ⟨trivial, by omega, ?_, libhmac_sha512_update_blocks_succeeds ic buffer buffer_offset size h,
    libhmac_sha512_update_succeeds ic buffer size h⟩
  rw [libhmac_sha512_update_remainder_eq _ _ _ _ (by omega)]

theorem libhmac_sha512_update_size_in_bounds_witness :
    300 ≤ SSIZE_MAX
    ∧ (libhmac_sha512_transform (some sha512_initial_context)
          (some ((List.replicate 300 0x61).drop 0)) 300).1
        = ((128 * (300 / 128) : Nat) : Int)
    ∧ 300 - (libhmac_sha512_transform (some sha512_initial_context)
          (some ((List.replicate 300 0x61).drop 0)) 300).1.toNat < LIBHMAC_SHA512_BLOCK_SIZE
    ∧ (libhmac_sha512_update_remainder sha512_initial_context (List.replicate 300 0x61) 0
        (300 - (libhmac_sha512_transform (some sha512_initial_context)
          (some ((List.replicate 300 0x61).drop 0)) 300).1.toNat)).1 = 1
    ∧ (libhmac_sha512_update_blocks sha512_initial_context (List.replicate 300 0x61) 0
        300).1 = 1
    ∧ (libhmac_sha512_update (some sha512_initial_context)
        (some (List.replicate 300 0x61)) 300).1 = 1 :=
  ⟨by decide,
    libhmac_sha512_update_size_in_bounds sha512_initial_context (List.replicate 300 0x61) 0
      300 (by decide)⟩

/-- C28 on the code: after `libhmac_sha512_update` has taken 120 bytes, the
context has `block_offset` 120; the padding part of `libhmac_sha512_finalize`
then takes `block_size` 256, and writes and hands to
`libhmac_sha512_transform` the indices up to 255 of `block`, which is declared
with 128 bytes. -/
theorem libhmac_sha512_finalize_block_overrun :
    libhmac_sha512_update (some sha512_initial_context) (some (List.replicate 120 0x61)) 120
      = (1, some { hash_count := 0, hash_values := libhmac_sha512_prime_square_roots,
                   block_offset := 120,
                   block := List.replicate 120 0x61 ++ List.replicate 8 0 })
    ∧ (libhmac_sha512_finalize_padding
        { hash_count := 0, hash_values := libhmac_sha512_prime_square_roots,
          block_offset := 120,
          block := List.replicate 120 0x61 ++ List.replicate 8 0 }).2 = 256
    ∧ (libhmac_sha512_finalize_padding
        { hash_count := 0, hash_values := libhmac_sha512_prime_square_roots,
          block_offset := 120,
          block := List.replicate 120 0x61 ++ List.replicate 8 0 }).1.block.length = 256
    ∧ 255 ∈ libhmac_sha512_finalize_block_indices
        { hash_count := 0, hash_values := libhmac_sha512_prime_square_roots,
          block_offset := 120,
          block := List.replicate 120 0x61 ++ List.replicate 8 0 }
    ∧ ¬ (∀ i ∈ libhmac_sha512_finalize_block_indices
          { hash_count := 0, hash_values := libhmac_sha512_prime_square_roots,
            block_offset := 120,
            block := List.replicate 120 0x61 ++ List.replicate 8 0 }, i < 128) := by
  refine ⟨by decide, by decide, by decide, by decide, ?_⟩
  intro hall
  exact absurd (hall 255 (by decide)) (by decide)

/-! ## The unfolded variant of the transform -/

theorem libhmac_sha512_transform_calculate_hash_value_length (values_64bit hash_values : List Nat)
    (value_64bit_index : Nat) :
    (libhmac_sha512_transform_calculate_hash_value values_64bit hash_values
      value_64bit_index).length = hash_values.length := by
  simp [libhmac_sha512_transform_calculate_hash_value]

theorem libhmac_sha512_transform_unfolded_step (values_64bit : List Nat) (k : Nat)
    (a b c d e f g h : Nat) :
    ∀ r, r < 8 →
      libhmac_sha512_transform_unfolded_calculate_hash_value values_64bit k
          ([a, b, c, d, e, f, g, h].rotate r)
          ((0 + 8 - r) % 8) ((1 + 8 - r) % 8) ((2 + 8 - r) % 8) ((3 + 8 - r) % 8)
          ((4 + 8 - r) % 8) ((5 + 8 - r) % 8) ((6 + 8 - r) % 8) ((7 + 8 - r) % 8)
        = (libhmac_sha512_transform_calculate_hash_value values_64bit
            [a, b, c, d, e, f, g, h] k).rotate ((r + 1) % 8) := by
  intro r hr
  interval_cases r <;> rfl

theorem libhmac_sha512_transform_unfolded_arguments_eq :
    libhmac_sha512_transform_unfolded_calculate_hash_values_arguments
      = (List.range 80).map (fun k =>
          (k, (0 + 8 - k % 8) % 8, (1 + 8 - k % 8) % 8, (2 + 8 - k % 8) % 8,
            (3 + 8 - k % 8) % 8, (4 + 8 - k % 8) % 8, (5 + 8 - k % 8) % 8,
            (6 + 8 - k % 8) % 8, (7 + 8 - k % 8) % 8)) := by
  rfl

theorem libhmac_sha512_transform_unfolded_rounds (values_64bit : List Nat) :
    ∀ (n : Nat) (hash_values : List Nat), hash_values.length = 8 →
      ((List.range n).map (fun k =>
          (k, (0 + 8 - k % 8) % 8, (1 + 8 - k % 8) % 8, (2 + 8 - k % 8) % 8,
            (3 + 8 - k % 8) % 8, (4 + 8 - k % 8) % 8, (5 + 8 - k % 8) % 8,
            (6 + 8 - k % 8) % 8, (7 + 8 - k % 8) % 8))).foldl
        (fun hash_values a =>
          libhmac_sha512_transform_unfolded_calculate_hash_value values_64bit a.1 hash_values
            a.2.1 a.2.2.1 a.2.2.2.1 a.2.2.2.2.1 a.2.2.2.2.2.1 a.2.2.2.2.2.2.1
            a.2.2.2.2.2.2.2.1 a.2.2.2.2.2.2.2.2)
        hash_values
      = ((List.range n).foldl
          (libhmac_sha512_transform_calculate_hash_value values_64bit) hash_values).rotate
          (n % 8)
      ∧ ((List.range n).foldl
          (libhmac_sha512_transform_calculate_hash_value values_64bit)
          hash_values).length = 8 := by
  intro n
  induction n with
  | zero => intro hash_values h; simp [h]
  | succ n ih =>
    intro hash_values h
    obtain ⟨e1, e2⟩ := ih hash_values h
    rw [List.range_succ, List.map_append, List.foldl_append, List.foldl_append, e1]
    simp only [List.map_cons, List.map_nil, List.foldl_cons, List.foldl_nil]
    generalize (List.range n).foldl
      (libhmac_sha512_transform_calculate_hash_value values_64bit) hash_values = state at e2 ⊢
    refine ⟨?_, by rw [libhmac_sha512_transform_calculate_hash_value_length, e2]⟩
    match state, e2 with
    | [a, b, c, d, e, f, g, h], _ =>
      rw [libhmac_sha512_transform_unfolded_step values_64bit n a b c d e f g h (n % 8)
        (Nat.mod_lt _ (by norm_num))]
      congr 1
      omega

theorem libhmac_sha512_transform_unfolded_calculate_hash_values_eq
    (values_64bit hash_values : List Nat) (h : hash_values.length = 8) :
    libhmac_sha512_transform_unfolded_calculate_hash_values values_64bit hash_values
      = (List.range' 0 80).foldl
          (libhmac_sha512_transform_calculate_hash_value values_64bit) hash_values := by
  unfold libhmac_sha512_transform_unfolded_calculate_hash_values
  rw [libhmac_sha512_transform_unfolded_arguments_eq,
    (libhmac_sha512_transform_unfolded_rounds values_64bit 80 hash_values h).1,
    ← List.range_eq_range']
  simp

theorem libhmac_sha512_transform_unfolded_block_eq (context_hash_values buffer : List Nat)
    (buffer_offset : Nat) (h : context_hash_values.length = 8) :
    libhmac_sha512_transform_unfolded_block context_hash_values buffer buffer_offset
      = libhmac_sha512_transform_block context_hash_values buffer buffer_offset := by
  unfold libhmac_sha512_transform_unfolded_block libhmac_sha512_transform_block
  simp only []
  have e1 : libhmac_byte_stream_copy_to_16x_uint64_big_endian buffer buffer_offset
      (List.replicate 80 0)
      = (List.range 16).foldl
          (fun values i =>
            values.set i (byte_stream_copy_to_uint64_big_endian buffer (buffer_offset + 8 * i)))
          (List.replicate 80 0) := rfl
  have e2 : ∀ v, libhmac_sha512_transform_unfolded_extend_64bit_values v
      = (List.range' 16 64).foldl libhmac_sha512_transform_extend_64bit_value v := by
    intro v; rfl
  rw [e1, e2, libhmac_sha512_transform_unfolded_calculate_hash_values_eq _ _ h,
    list_range_eight]
  simp only [List.foldl_cons, List.foldl_nil]

theorem libhmac_sha512_transform_block_length (context_hash_values buffer : List Nat)
    (buffer_offset : Nat) :
    (libhmac_sha512_transform_block context_hash_values buffer buffer_offset).length
      = context_hash_values.length := by
  unfold libhmac_sha512_transform_block
  rw [list_range_eight]
  simp

theorem libhmac_sha512_transform_unfolded_loop_eq (buffer : List Nat) :
    ∀ (fuel : Nat) (hash_values : List Nat) (buffer_offset size : Nat),
      hash_values.length = 8 →
      libhmac_sha512_transform_unfolded_loop fuel hash_values buffer buffer_offset size
        = libhmac_sha512_transform_loop fuel hash_values buffer buffer_offset size := by
  intro fuel
  induction fuel with
  | zero => intro hash_values buffer_offset size _; rfl
  | succ fuel ih =>
    intro hash_values buffer_offset size h
    unfold libhmac_sha512_transform_unfolded_loop libhmac_sha512_transform_loop
    split
    · rw [libhmac_sha512_transform_unfolded_block_eq _ _ _ h]
      exact ih _ _ _ (by rw [libhmac_sha512_transform_block_length, h])
    · rfl

/-- C27: for every context whose `hash_values` are the eight words of the
structure, every buffer and every `size`, the unfolded variant of
`libhmac_sha512_transform`, which passes the roles of the eight working
variables round through its 80 expansions, returns the same value and leaves
the same context, `hash_values` included, as the looped variant, which moves
the eight working variables in every round. -/
theorem libhmac_sha512_transform_unfolded_eq (ic : libhmac_internal_sha512_context)
    (buffer : List Nat) (size : Nat) (h : ic.hash_values.length = 8) :
    libhmac_sha512_transform_unfolded (some ic) (some buffer) size
      = libhmac_sha512_transform (some ic) (some buffer) size := by
  unfold libhmac_sha512_transform_unfolded libhmac_sha512_transform
  simp only []
  rw [libhmac_sha512_transform_unfolded_loop_eq buffer size ic.hash_values 0 size h]

theorem libhmac_sha512_transform_unfolded_eq_witness :
    sha512_initial_context.hash_values.length = 8
    ∧ libhmac_sha512_transform_unfolded (some sha512_initial_context)
        (some (List.replicate 256 0x61)) 256
      = libhmac_sha512_transform (some sha512_initial_context)
        (some (List.replicate 256 0x61)) 256 :=
  ⟨by decide,
    libhmac_sha512_transform_unfolded_eq sha512_initial_context (List.replicate 256 0x61) 256
      (by decide)⟩

/-! ## The frames of the error -/

theorem libhmac_sha512_update_blocks_error_eq (D : libcerror_definitions)
    (ic : libhmac_internal_sha512_context) (buffer : List Nat) (buffer_offset size : Nat)
    (error : Option (Option libcerror_internal_error)) (h : size ≤ SSIZE_MAX) :
    libhmac_sha512_update_blocks_error D ic buffer buffer_offset size error = error := by
  have hs : ¬ size > SSIZE_MAX := Nat.not_lt.mpr h
  unfold libhmac_sha512_update_blocks_error libhmac_sha512_update_remainder_error
    libhmac_sha512_transform_error
  by_cases h0 : size > 0
  · simp only [h0, if_true, hs, if_false]
    rw [libhmac_sha512_transform_eq ic _ size h]
    have hne : ¬ (((128 * (size / 128) : Nat) : Int) = -1) := by omega
    have hlt : ¬ (size - 128 * (size / 128) ≥ LIBHMAC_SHA512_BLOCK_SIZE) := by
      simp only [LIBHMAC_SHA512_BLOCK_SIZE]; omega
    simp only [hne, if_false, Int.toNat_ofNat, hlt]
    split <;> rfl
  · simp only [h0, if_false]

theorem libhmac_sha512_update_error_eq (D : libcerror_definitions)
    (ic : libhmac_internal_sha512_context) (buf : List Nat) (size : Nat)
    (error : Option (Option libcerror_internal_error)) (h : size ≤ SSIZE_MAX) :
    libhmac_sha512_update_error D (some ic) (some buf) size error = error := by
  unfold libhmac_sha512_update_error
  simp only
  by_cases hz : size = 0
  · simp [hz]
  · have hs : ¬ size > SSIZE_MAX := Nat.not_lt.mpr h
    simp only [hz, hs, if_false]
    by_cases hb : ic.block_offset > 0
    · simp only [hb, if_true]
      generalize hr : (if (LIBHMAC_SHA512_BLOCK_SIZE + 2 ^ 64 - ic.block_offset) % 2 ^ 64 > size
        then size else (LIBHMAC_SHA512_BLOCK_SIZE + 2 ^ 64 - ic.block_offset) % 2 ^ 64) = r
      have hr2 : r ≤ size := by
        rw [← hr]; split <;> omega
      split
      · rfl
      · rw [libhmac_sha512_transform_eq _ _ _ (by decide)]
        have hne : ¬ (((128 * (LIBHMAC_SHA512_BLOCK_SIZE / 128) : Nat) : Int) = -1) := by
          omega
        have hb2 : ¬ (LIBHMAC_SHA512_BLOCK_SIZE > SSIZE_MAX) := by decide
        simp only [hne, if_false, libhmac_sha512_transform_error, hb2]
        rw [libhmac_sha512_update_blocks_error_eq _ _ _ _ _ _ (by omega)]
    · simp only [hb, if_false]
      rw [libhmac_sha512_update_blocks_error_eq _ _ _ _ _ _ h]

theorem libhmac_sha512_update_context (ic : libhmac_internal_sha512_context)
    (buf : List Nat) (size : Nat) :
    ∃ ic', (libhmac_sha512_update (some ic) (some buf) size).2 = some ic' := by
  unfold libhmac_sha512_update
  simp only
  repeat' split
  all_goals exact ⟨_, rfl⟩

theorem libcerror_error_set_message_two_frames (D : libcerror_definitions)
    (domain1 code1 domain2 code2 : Int) (function1 message1 function2 message2 : String) :
    ∃ e, libcerror_error_set_message D
          (libcerror_error_set_message D (some none) domain1 code1 function1 message1)
          domain2 code2 function2 message2 = some (some e)
      ∧ e.domain = domain1 ∧ e.code = code1 ∧ e.number_of_messages = 2
      ∧ e.messages = some
          [(libcerror_error_set_string D
              (narrow_string "%s" ++ narrow_string message1).length none
              (system_string_vsnprintf
                (narrow_string function1 ++ narrow_string message1))).1.error_string,
           (libcerror_error_set_string D
              (narrow_string "%s" ++ narrow_string message2).length none
              (system_string_vsnprintf
                (narrow_string function2 ++ narrow_string message2))).1.error_string] := by
  unfold libcerror_error_set_message
  rw [libcerror_error_set_created, libcerror_error_set_existing _ _ _ _ _ _
    (by simp [libcerror_error_well_formed])]
  exact ⟨_, rfl, rfl, rfl, rfl, rfl⟩

/-- C21: when `libhmac_sha512_calculate` is called with a buffer, a `size` of
at most `SSIZE_MAX`, an output buffer and a `hash_size` below 64, and the error
object is NULL before the call, it returns -1; the error after the call is the
one that `libhmac_sha512_finalize` set (arguments domain, code
`VALUE_TOO_SMALL`) with the message of `libhmac_sha512_calculate` appended: it
has that domain and that code and two messages, the first made for
`libhmac_sha512_finalize` and the second for `libhmac_sha512_calculate`. -/
theorem libhmac_sha512_calculate_error_frames (D : libcerror_definitions)
    (buffer out : List Nat) (size hash_size : Nat) (hs : size ≤ SSIZE_MAX)
    (hh : hash_size < 64) :
    (libhmac_sha512_calculate (some buffer) size (some out) hash_size).1 = -1
    ∧ libhmac_sha512_calculate_error D (some buffer) size (some out) hash_size (some none)
      = libcerror_error_set_message D
          (libcerror_error_set_message D (some none) D.LIBCERROR_ERROR_DOMAIN_ARGUMENTS
            D.LIBCERROR_ARGUMENT_ERROR_VALUE_TOO_SMALL "libhmac_sha512_finalize"
            ": invalid hash value too small.")
          D.LIBCERROR_ERROR_DOMAIN_RUNTIME D.LIBCERROR_RUNTIME_ERROR_FINALIZE_FAILED
          "libhmac_sha512_calculate" ": unable to finalize context."
    ∧ ∃ e, libhmac_sha512_calculate_error D (some buffer) size (some out) hash_size
          (some none) = some (some e)
      ∧ e.domain = D.LIBCERROR_ERROR_DOMAIN_ARGUMENTS
      ∧ e.code = D.LIBCERROR_ARGUMENT_ERROR_VALUE_TOO_SMALL
      ∧ e.number_of_messages = 2
      ∧ e.messages = some
          [(libcerror_error_set_string D
              (narrow_string "%s" ++ narrow_string ": invalid hash value too small.").length
              none
              (system_string_vsnprintf
                (narrow_string "libhmac_sha512_finalize"
                  ++ narrow_string ": invalid hash value too small."))).1.error_string,
           (libcerror_error_set_string D
              (narrow_string "%s" ++ narrow_string ": unable to finalize context.").length
              none
              (system_string_vsnprintf
                (narrow_string "libhmac_sha512_calculate"
                  ++ narrow_string ": unable to finalize context."))).1.error_string] := by
  have hu := libhmac_sha512_update_succeeds sha512_initial_context buffer size hs
  obtain ⟨ic', hc⟩ := libhmac_sha512_update_context sha512_initial_context buffer size
  have hf : ∀ ic : libhmac_internal_sha512_context,
      (libhmac_sha512_finalize (some ic) (some out) hash_size).1 = -1 := by
    intro ic
    simp [libhmac_sha512_finalize, LIBHMAC_SHA512_HASH_SIZE, hh]
  have he : libhmac_sha512_calculate_error D (some buffer) size (some out) hash_size
      (some none)
      = libcerror_error_set_message D
          (libcerror_error_set_message D (some none) D.LIBCERROR_ERROR_DOMAIN_ARGUMENTS
            D.LIBCERROR_ARGUMENT_ERROR_VALUE_TOO_SMALL "libhmac_sha512_finalize"
            ": invalid hash value too small.")
          D.LIBCERROR_ERROR_DOMAIN_RUNTIME D.LIBCERROR_RUNTIME_ERROR_FINALIZE_FAILED
          "libhmac_sha512_calculate" ": unable to finalize context." := by
    unfold libhmac_sha512_calculate_error
    simp only [libhmac_sha512_initialize_eq, ne_eq, not_true_eq_false, if_false,
      Option.getD_some, hu, libhmac_sha512_initialize_error]
    rw [libhmac_sha512_update_error_eq D _ _ _ _ hs, hc]
    have hf2 : (libhmac_sha512_finalize (some ic') (some out) hash_size).1 ≠ 1 := by
      rw [hf]; decide
    have hf3 : ¬ ((libhmac_sha512_finalize (some ic') (some out) hash_size).1
        = libhmac_undefined_behaviour) := by
      rw [hf]; decide
    simp only [hf2, hf3, ne_eq, not_false_eq_true, if_true, if_false]
    simp [libhmac_sha512_finalize_error, LIBHMAC_SHA512_HASH_SIZE, hh]
  refine ⟨?_, he, ?_⟩
  · unfold libhmac_sha512_calculate
    simp only [libhmac_sha512_initialize_eq, ne_eq, not_true_eq_false, if_false,
      Option.getD_some, hu]
    rw [hc]
    have hf2 : (libhmac_sha512_finalize (some ic') (some out) hash_size).1 ≠ 1 := by
      rw [hf]; decide
    have hf3 : ¬ ((libhmac_sha512_finalize (some ic') (some out) hash_size).1
        = libhmac_undefined_behaviour) := by
      rw [hf]; decide
    simp [hf2, hf3]
  · rw [he]
    exact libcerror_error_set_message_two_frames D _ _ _ _ _ _ _ _

theorem libhmac_sha512_calculate_error_frames_witness :
    3 ≤ SSIZE_MAX ∧ 63 < 64
    ∧ (libhmac_sha512_calculate (some [0x61, 0x62, 0x63]) 3 (some (List.replicate 63 0))
        63).1 = -1
    ∧ ∃ e, libhmac_sha512_calculate_error libcerror_definitions_sample
          (some [0x61, 0x62, 0x63]) 3 (some (List.replicate 63 0)) 63 (some none)
        = some (some e)
      ∧ e.domain = libcerror_definitions_sample.LIBCERROR_ERROR_DOMAIN_ARGUMENTS
      ∧ e.code = libcerror_definitions_sample.LIBCERROR_ARGUMENT_ERROR_VALUE_TOO_SMALL
      ∧ e.number_of_messages = 2 :=
  have h := libhmac_sha512_calculate_error_frames libcerror_definitions_sample
    [0x61, 0x62, 0x63] (List.replicate 63 0) 3 63 (by decide) (by decide)
  ⟨by decide, by decide, h.1,
    h.2.2.elim (fun e he => ⟨e, he.1, he.2.1, he.2.2.1, he.2.2.2.1⟩)⟩

/-! ## The string of an error -/

/-- C22 on the code: `libcerror_error_set` makes an error with the message
"f: bad.", of 7 characters, and stores 8 as its size; `libcerror_error_sprint`
copies the message and its end-of-string character into the string and returns
8, the stored size, which counts the end-of-string character. -/
theorem libcerror_error_sprint_counts_end_of_string :
    libcerror_error_set_message libcerror_definitions_sample (some none) 97 1 "f" ": bad."
      = some (some ⟨97, 1, 1,
          some [some ([0x66, 0x3A, 0x20, 0x62, 0x61, 0x64, 0x2E, 0] ++ List.replicate 56 0)],
          some [8]⟩)
    ∧ narrow_string "f: bad." = [0x66, 0x3A, 0x20, 0x62, 0x61, 0x64, 0x2E]
    ∧ (narrow_string "f: bad.").length = 7
    ∧ libcerror_error_sprint narrow_string_copy_sample
        (some ⟨97, 1, 1,
          some [some ([0x66, 0x3A, 0x20, 0x62, 0x61, 0x64, 0x2E, 0] ++ List.replicate 56 0)],
          some [8]⟩)
        (some (List.replicate 64 0xFF)) 64
      = (8, some ([0x66, 0x3A, 0x20, 0x62, 0x61, 0x64, 0x2E, 0] ++ List.replicate 56 0xFF)) := by
  decide

theorem libcerror_error_sprint_returns_size
    (narrow_string_copy : List Nat → List Nat → Nat → Option (List Nat))
    (internal_error : libcerror_internal_error) (messages : List (Option (List Nat)))
    (sizes characters error_characters : List Nat) (size : Nat)
    (hm : internal_error.messages = some messages) (hs : internal_error.sizes = some sizes)
    (he : messages.getD ((internal_error.number_of_messages - 1) % 2 ^ 64).toNat none
      = some error_characters)
    (h : 0 ≤ (libcerror_error_sprint narrow_string_copy (some internal_error)
      (some characters) size).1) :
    (libcerror_error_sprint narrow_string_copy (some internal_error) (some characters)
        size).1
      = ((sizes.getD ((internal_error.number_of_messages - 1) % 2 ^ 64).toNat 0 : Nat) : Int)
    ∧ (libcerror_error_sprint narrow_string_copy (some internal_error) (some characters)
        size).2
      = narrow_string_copy characters error_characters
          (sizes.getD ((internal_error.number_of_messages - 1) % 2 ^ 64).toNat 0) := by
  unfold libcerror_error_sprint at h ⊢
  simp only [hm, hs, he] at h ⊢
  split at h
  · simp at h
  · split at h
    · simp at h
    · rename_i h1 h2
      simp only [h1, h2, if_false]
      split at h
      · simp at h
      · rename_i copied hcopy
        simp only [hcopy]
        split at h
        · simp at h
        · rename_i h3
          rw [if_neg h3]
          exact ⟨rfl, rfl⟩

/-! ## The release of an AES context -/

/-- C26 fails as stated: a context keyed with the 128-bit key 2b2b...2b is
freed; `libcaes_context_free` returns 1 and sets the pointer to NULL, and the
block that it passes to `memory_free` still holds the bytes of the key: it is
not overwritten with zeros. -/
theorem libcaes_context_free_keeps_key :
    (libcaes_context_set_key libcerror_definitions_sample libcaes_environment_sample
        (some []) 1 (some (List.replicate 16 0x2B)) 128 (some none)).context
      = some (1 :: List.replicate 16 0x2B)
    ∧ (libcaes_context_free libcerror_definitions_sample
        (some (some (1 :: List.replicate 16 0x2B))) (some none) 1
        [libcaes_allocation.libcaes_internal_context_t]).result = 1
    ∧ libcaes_context_free_released_block (some (some (1 :: List.replicate 16 0x2B)))
      = some (1 :: List.replicate 16 0x2B)
    ∧ 0x2B ∈ (libcaes_context_free_released_block
        (some (some (1 :: List.replicate 16 0x2B)))).getD []
    ∧ ¬ (∀ byte ∈ (libcaes_context_free_released_block
        (some (some (1 :: List.replicate 16 0x2B)))).getD [], byte = 0) := by
  refine ⟨by decide, by decide, by decide, by decide, ?_⟩
  intro hall
  exact absurd (hall 0x2B (by decide)) (by decide)

/-- C26 as the code has it: on a pointer to a context, `libcaes_context_free`
returns 1, sets the pointer to NULL and frees the block of the context, and
the block that it passes to `memory_free` holds the context as it was before
the call: whatever the key schedule wrote there is still there. -/
theorem libcaes_context_free_releases_unchanged {Context : Type}
    (D : libcerror_definitions) (internal_context : Context)
    (error : Option (Option libcerror_internal_error)) (libcaes_tables_initialized : Int)
    (allocations : List libcaes_allocation) :
    libcaes_context_free D (some (some internal_context)) error libcaes_tables_initialized
        allocations
      = { result := 1, context := some none, error := error,
          libcaes_tables_initialized := libcaes_tables_initialized,
          allocations := memory_free allocations
            libcaes_allocation.libcaes_internal_context_t }
    ∧ libcaes_context_free_released_block (some (some internal_context))
      = some internal_context :=
  ⟨rfl, rfl⟩

/-! ## The property lists -/

/-- The first loop of the lookup over a list of elements: it is left at the
end when no element is the key, and at the first element that is. -/
theorem libfplist_property_get_sub_property_key_loop_spec {Tag : Type}
    (E : libfplist_environment Tag) (value_tag : Tag) (elements : List Tag)
    (utf8_string : List Nat) (utf8_string_length : Nat)
    (hg : ∀ (i : Nat) (tag : Tag), elements.get? i = some tag →
      E.libfplist_xml_tag_get_element value_tag (i : Int) = some tag)
    (hc : ∀ (tag : Tag) (name : List Nat) (name_length : Nat),
      E.libfplist_xml_tag_compare_name tag name name_length ≠ -1) :
    ∀ (rest before : List Tag) (key_tag : Option Tag) (turns : Nat),
      elements = before ++ rest → rest.length ≤ turns →
      (rest.dropWhile
          (fun tag => !(libfplist_xml_tag_is_key E utf8_string utf8_string_length tag)) = [] →
        ∃ last_tag, libfplist_property_get_sub_property_key_loop E value_tag utf8_string
          utf8_string_length (elements.length : Int) turns (before.length : Int) key_tag
            = (0, (elements.length : Int), last_tag))
      ∧ (∀ (found : Tag) (following : List Tag),
        rest.dropWhile
          (fun tag => !(libfplist_xml_tag_is_key E utf8_string utf8_string_length tag))
            = found :: following →
        ∃ start : List Tag, elements = start ++ found :: following
          ∧ libfplist_property_get_sub_property_key_loop E value_tag utf8_string
            utf8_string_length (elements.length : Int) turns (before.length : Int) key_tag
              = (0, (start.length : Int), some found)) := by
  intro rest
  induction rest with
  | nil =>
    intro before key_tag turns he _
    have hl : elements.length = before.length := by rw [he]; simp
    refine ⟨fun _ => ⟨key_tag, ?_⟩, fun found following h => by simp at h⟩
    cases turns with
    | zero => simp [libfplist_property_get_sub_property_key_loop, hl]
    | succ turns => simp [libfplist_property_get_sub_property_key_loop, hl]
  | cons tag rest ih =>
    intro before key_tag turns he hlen
    cases turns with
    | zero => simp at hlen
    | succ turns =>
      have hlt : (before.length : Int) < (elements.length : Int) := by
        rw [he]; simp
      have hget : E.libfplist_xml_tag_get_element value_tag (before.length : Int) = some tag :=
        hg _ _ (by rw [he]; simp [List.getElem_append_right])
      have hstep : (((before ++ [tag]).length : Nat) : Int) = (before.length : Int) + 1 := by
        simp
      have hih := ih (before ++ [tag]) (some tag) turns (by rw [he]; simp)
        (by simpa using hlen)
      rw [hstep] at hih
      unfold libfplist_property_get_sub_property_key_loop
      rw [if_pos hlt, hget]
      dsimp only
      rw [if_neg (hc _ _ _)]
      by_cases hk : libfplist_xml_tag_is_key E utf8_string utf8_string_length tag = true
      · have hk2 := hk
        unfold libfplist_xml_tag_is_key at hk2
        rw [decide_eq_true_eq] at hk2
        rw [if_pos hk2]
        refine ⟨fun h => by simp [List.dropWhile, hk] at h, ?_⟩
        intro found following h
        simp only [List.dropWhile, hk, Bool.not_true] at h
        injection h with h1 h2
        subst h1; subst h2
        exact ⟨before, he, rfl⟩
      · have hk2 := hk
        unfold libfplist_xml_tag_is_key at hk2
        rw [decide_eq_true_eq] at hk2
        rw [if_neg hk2]
        have hk3 : libfplist_xml_tag_is_key E utf8_string utf8_string_length tag = false := by
          simpa using hk
        simp only [List.dropWhile, hk3, Bool.not_false]
        exact hih

/-- The second loop of the lookup over a list of elements: it is left at the
end when every element is named "text", and at the first element that is
not. -/
theorem libfplist_property_get_sub_property_value_loop_spec {Tag : Type}
    (E : libfplist_environment Tag) (value_tag : Tag) (elements : List Tag)
    (hg : ∀ (i : Nat) (tag : Tag), elements.get? i = some tag →
      E.libfplist_xml_tag_get_element value_tag (i : Int) = some tag)
    (hc : ∀ (tag : Tag) (name : List Nat) (name_length : Nat),
      E.libfplist_xml_tag_compare_name tag name name_length ≠ -1) :
    ∀ (rest before : List Tag) (found_tag : Option Tag) (turns : Nat),
      elements = before ++ rest → rest.length ≤ turns →
      (rest.find? (libfplist_xml_tag_is_not_text E) = none →
        ∃ last_tag, libfplist_property_get_sub_property_value_loop E value_tag
          (elements.length : Int) turns (before.length : Int) found_tag
            = (0, (elements.length : Int), last_tag))
      ∧ (∀ (found : Tag), rest.find? (libfplist_xml_tag_is_not_text E) = some found →
        ∃ element_index : Int, element_index < (elements.length : Int)
          ∧ libfplist_property_get_sub_property_value_loop E value_tag
            (elements.length : Int) turns (before.length : Int) found_tag
              = (0, element_index, some found)) := by
  intro rest
  induction rest with
  | nil =>
    intro before found_tag turns he _
    have hl : elements.length = before.length := by rw [he]; simp
    refine ⟨fun _ => ⟨found_tag, ?_⟩, fun found h => by simp at h⟩
    cases turns with
    | zero => simp [libfplist_property_get_sub_property_value_loop, hl]
    | succ turns => simp [libfplist_property_get_sub_property_value_loop, hl]
  | cons tag rest ih =>
    intro before found_tag turns he hlen
    cases turns with
    | zero => simp at hlen
    | succ turns =>
      have hlt : (before.length : Int) < (elements.length : Int) := by
        rw [he]; simp
      have hget : E.libfplist_xml_tag_get_element value_tag (before.length : Int) = some tag :=
        hg _ _ (by rw [he]; simp [List.getElem_append_right])
      have hstep : (((before ++ [tag]).length : Nat) : Int) = (before.length : Int) + 1 := by
        simp
      have hih := ih (before ++ [tag]) (some tag) turns (by rw [he]; simp)
        (by simpa using hlen)
      rw [hstep] at hih
      unfold libfplist_property_get_sub_property_value_loop
      rw [if_pos hlt, hget]
      dsimp only
      rw [if_neg (hc _ _ _)]
      by_cases hk : libfplist_xml_tag_is_not_text E tag = true
      · have hk2 := hk
        unfold libfplist_xml_tag_is_not_text at hk2
        rw [decide_eq_true_eq] at hk2
        rw [if_pos hk2]
        refine ⟨fun h => by simp [List.find?, hk] at h, ?_⟩
        intro found h
        simp only [List.find?, hk] at h
        injection h with h1
        subst h1
        exact ⟨_, hlt, rfl⟩
      · have hk2 := hk
        unfold libfplist_xml_tag_is_not_text at hk2
        rw [decide_eq_true_eq] at hk2
        rw [if_neg hk2]
        have hk3 : libfplist_xml_tag_is_not_text E tag = false := by
          simpa using hk
        simp only [List.find?, hk3]
        exact hih

/-- C23: for a dictionary property with the child elements `elements` and a
name, `libfplist_property_get_sub_property_by_utf8_name` returns 0 when no
child named "key" has a value equal to the name; else, with the first such
child, it returns 0 when no child after it has a name other than "text", and
else returns 1 with a sub-property whose key tag is that child and whose value
tag is the first child after it not named "text". -/
theorem libfplist_property_get_sub_property_by_utf8_name_lookup {Tag : Type}
    (E : libfplist_environment Tag) (internal_property : libfplist_internal_property Tag)
    (value_tag : Tag) (elements : List Tag) (utf8_string : List Nat)
    (utf8_string_length : Nat)
    (hv : internal_property.value_tag = some value_tag)
    (ht : internal_property.value_type = LIBFPLIST_VALUE_TYPE_DICTIONARY
      ∨ (internal_property.value_type = LIBFPLIST_VALUE_TYPE_UNKNOWN
        ∧ E.libfplist_xml_tag_get_value_type value_tag LIBFPLIST_VALUE_TYPE_UNKNOWN
          = (1, LIBFPLIST_VALUE_TYPE_DICTIONARY)))
    (hlen : utf8_string_length ≤ SSIZE_MAX)
    (hn : E.libfplist_xml_tag_get_number_of_elements value_tag = (1, (elements.length : Int)))
    (hg : ∀ (i : Nat) (tag : Tag), elements.get? i = some tag →
      E.libfplist_xml_tag_get_element value_tag (i : Int) = some tag)
    (hc : ∀ (tag : Tag) (name : List Nat) (name_length : Nat),
      E.libfplist_xml_tag_compare_name tag name name_length ≠ -1) :
    (libfplist_property_get_sub_property_by_utf8_name E (some internal_property)
        (some utf8_string) utf8_string_length (some none)).1
      = (libfplist_sub_property_of_elements E elements utf8_string utf8_string_length).1
    ∧ (libfplist_property_get_sub_property_by_utf8_name E (some internal_property)
        (some utf8_string) utf8_string_length (some none)).2.2
      = some (libfplist_sub_property_of_elements E elements utf8_string
          utf8_string_length).2 := by
  have hr : (if internal_property.value_type = LIBFPLIST_VALUE_TYPE_UNKNOWN then
        E.libfplist_xml_tag_get_value_type value_tag internal_property.value_type
      else (1, internal_property.value_type)) = (1, LIBFPLIST_VALUE_TYPE_DICTIONARY) := by
    rcases ht with h | ⟨h, h2⟩
    · rw [h, if_neg (by decide)]
    · rw [h, if_pos rfl, h2]
  have hs : ¬ utf8_string_length > SSIZE_MAX := by omega
  have hkey := libfplist_property_get_sub_property_key_loop_spec E value_tag elements
    utf8_string utf8_string_length hg hc elements [] none elements.length rfl (le_refl _)
  unfold libfplist_property_get_sub_property_by_utf8_name
  unfold libfplist_sub_property_of_elements
  simp only [hv, if_neg hs, hr, hn, Int.toNat_ofNat, ne_eq, not_true_eq_false, if_false]
  cases hd : elements.dropWhile
      (fun tag => !(libfplist_xml_tag_is_key E utf8_string utf8_string_length tag)) with
  | nil =>
    obtain ⟨last_tag, h1⟩ := hkey.1 hd
    simp only [List.length_nil, Nat.cast_zero] at h1
    rw [h1]
    simp
  | cons found following =>
    obtain ⟨start, he, h1⟩ := hkey.2 found following hd
    simp only [List.length_nil, Nat.cast_zero] at h1
    rw [h1]
    have hlt : ¬ ((start.length : Int) ≥ (elements.length : Int)) := by
      rw [he]; simp
    have hval := libfplist_property_get_sub_property_value_loop_spec E value_tag elements
      hg hc following (start ++ [found]) none elements.length (by rw [he]; simp)
      (by rw [he]; simp; omega)
    have hstep : (((start ++ [found]).length : Nat) : Int) = (start.length : Int) + 1 := by
      simp
    rw [hstep] at hval
    have hfound : ¬ (E.libfplist_xml_tag_compare_name found (narrow_string "key") 3 = 0) := by
      have hp := List.head_dropWhile_not
        (fun tag => !(libfplist_xml_tag_is_key E utf8_string utf8_string_length tag)) elements
        (by rw [hd]; simp)
      simp only [hd, List.head_cons, Bool.not_eq_true, Bool.not_eq_false_eq_eq_true] at hp
      unfold libfplist_xml_tag_is_key at hp
      rw [decide_eq_true_eq] at hp
      exact hp.1
    simp only [show ((0 : Int) = -1) = False from by decide, if_false, if_neg hlt]
    cases hf : following.find? (libfplist_xml_tag_is_not_text E) with
    | none =>
      obtain ⟨last_tag, h2⟩ := hval.1 hf
      rw [h2]
      simp
    | some value =>
      obtain ⟨element_index, hi, h2⟩ := hval.2 value hf
      rw [h2]
      have hi2 : ¬ (element_index ≥ (elements.length : Int)) := by omega
      simp only [show ((0 : Int) = -1) = False from by decide, if_false, if_neg hi2]
      simp [ libfplist_property_initialize, hc, hfound]

/-- C23 at the stand-in, for the dictionary `d` with the children text, key
"Name", text, string, text, key "Last", text: the name "Name" gives the key
`k` and the string `s` after it; the name "Last" has a key and only text after
it; the name "Nope" has no key. -/
theorem libfplist_property_get_sub_property_by_utf8_name_lookup_witness :
    ((libfplist_property_get_sub_property_by_utf8_name libfplist_environment_sample
          (some ⟨none, some 0x64, LIBFPLIST_VALUE_TYPE_UNKNOWN⟩)
          (some (narrow_string "Name")) 4 (some none)).1
        = (libfplist_sub_property_of_elements libfplist_environment_sample
          [0x74, 0x6B, 0x74, 0x73, 0x74, 0x6C, 0x74] (narrow_string "Name") 4).1
      ∧ (libfplist_property_get_sub_property_by_utf8_name libfplist_environment_sample
          (some ⟨none, some 0x64, LIBFPLIST_VALUE_TYPE_UNKNOWN⟩)
          (some (narrow_string "Name")) 4 (some none)).2.2
        = some (libfplist_sub_property_of_elements libfplist_environment_sample
          [0x74, 0x6B, 0x74, 0x73, 0x74, 0x6C, 0x74] (narrow_string "Name") 4).2)
      ∧ libfplist_sub_property_of_elements libfplist_environment_sample
          [0x74, 0x6B, 0x74, 0x73, 0x74, 0x6C, 0x74] (narrow_string "Name") 4
        = (1, some ⟨some 0x6B, some 0x73, LIBFPLIST_VALUE_TYPE_UNKNOWN⟩)
      ∧ libfplist_property_get_sub_property_by_utf8_name libfplist_environment_sample
          (some ⟨none, some 0x64, LIBFPLIST_VALUE_TYPE_UNKNOWN⟩)
          (some (narrow_string "Name")) 4 (some none)
        = (1, some ⟨none, some 0x64, LIBFPLIST_VALUE_TYPE_DICTIONARY⟩,
            some (some ⟨some 0x6B, some 0x73, LIBFPLIST_VALUE_TYPE_UNKNOWN⟩))
      ∧ (libfplist_property_get_sub_property_by_utf8_name libfplist_environment_sample
          (some ⟨none, some 0x64, LIBFPLIST_VALUE_TYPE_UNKNOWN⟩)
          (some (narrow_string "Last")) 4 (some none)).1 = 0
      ∧ (libfplist_property_get_sub_property_by_utf8_name libfplist_environment_sample
          (some ⟨none, some 0x64, LIBFPLIST_VALUE_TYPE_UNKNOWN⟩)
          (some (narrow_string "Nope")) 4 (some none)).1 = 0 :=
  ⟨libfplist_property_get_sub_property_by_utf8_name_lookup libfplist_environment_sample
      ⟨none, some 0x64, LIBFPLIST_VALUE_TYPE_UNKNOWN⟩ 0x64
      [0x74, 0x6B, 0x74, 0x73, 0x74, 0x6C, 0x74] (narrow_string "Name") 4 rfl
      (Or.inr ⟨rfl, by decide⟩) (by decide) (by decide)
      (by
        intro i tag h
        simp only [libfplist_environment_sample, libfplist_xml_tag_sample]
        simpa using h)
      (by
        intro tag name name_length
        simp only [libfplist_environment_sample]
        split <;> decide),
   by decide, by decide, by decide, by decide⟩

/-- The loop over the elements of the plist tag gives 1 or -1. -/
theorem libfplist_property_list_copy_from_byte_stream_loop_result {Tag : Type}
    (E : libfplist_environment Tag) (root_tag : Tag) (number_of_elements : Int) :
    ∀ (turns : Nat) (element_index : Int)
      (internal_property_list : libfplist_internal_property_list Tag),
      (libfplist_property_list_copy_from_byte_stream_loop E root_tag number_of_elements
          turns element_index internal_property_list).1 = 1
        ∨ (libfplist_property_list_copy_from_byte_stream_loop E root_tag number_of_elements
          turns element_index internal_property_list).1 = -1 := by
  intro turns
  induction turns with
  | zero => intro _ _; exact Or.inl rfl
  | succ turns ih =>
    intro element_index internal_property_list
    unfold libfplist_property_list_copy_from_byte_stream_loop
    split
    · split
      · exact Or.inr rfl
      · dsimp only
        split
        · exact Or.inr rfl
        · split
          · exact ih _ _
          · split
            · exact Or.inr rfl
            · split
              · exact ih _ _
              · exact Or.inl rfl
    · exact Or.inl rfl

/-- The function never returns 0. -/
theorem libfplist_property_list_copy_from_byte_stream_result {Tag : Type}
    (E : libfplist_environment Tag)
    (property_list : Option (libfplist_internal_property_list Tag))
    (byte_stream : Option (List Nat)) (byte_stream_size : Nat) :
    (libfplist_property_list_copy_from_byte_stream E property_list byte_stream
        byte_stream_size).1 = 1
      ∨ (libfplist_property_list_copy_from_byte_stream E property_list byte_stream
        byte_stream_size).1 = -1 := by
  unfold libfplist_property_list_copy_from_byte_stream
  split
  · exact Or.inr rfl
  · split
    · exact Or.inr rfl
    · split
      · exact Or.inr rfl
      · split
        · exact Or.inr rfl
        · split
          · exact Or.inr rfl
          · dsimp only
            split
            · exact Or.inr rfl
            · split
              · exact Or.inr rfl
              · split
                · exact Or.inr rfl
                · split
                  · exact Or.inl rfl
                  · split
                    · exact Or.inr rfl
                    · split
                      · split
                        · exact Or.inr rfl
                        · exact libfplist_property_list_copy_from_byte_stream_loop_result _ _ _ _ _ _
                      · exact Or.inl rfl

/-- C24: `libfplist_property_list_copy_from_byte_stream` gives 0 for no
arguments at all, its result is 1 or -1; for the document `<h>`, whose root
element is named "html", neither "plist" nor "dict", it returns 1 and leaves a
property list without a dict tag, where the claim asks for 0. -/
theorem libfplist_property_list_copy_from_byte_stream_never_zero :
    (∀ (Tag : Type) (E : libfplist_environment Tag)
        (property_list : Option (libfplist_internal_property_list Tag))
        (byte_stream : Option (List Nat)) (byte_stream_size : Nat),
        (libfplist_property_list_copy_from_byte_stream E property_list byte_stream
          byte_stream_size).1 ≠ 0)
      ∧ libfplist_environment_sample.libfplist_xml_tag_compare_name 0x68
          (narrow_string "plist") 5 = 0
      ∧ libfplist_environment_sample.libfplist_xml_tag_compare_name 0x68
          (narrow_string "dict") 4 = 0
      ∧ libfplist_property_list_copy_from_byte_stream libfplist_environment_sample
          (some ⟨none, none, none⟩) (some (narrow_string "<h>")) 3
        = (1, some ⟨none, some 0x68, none⟩) := by
  refine ⟨?_, by decide, by decide, by decide⟩
  intro Tag E property_list byte_stream byte_stream_size h
  rcases libfplist_property_list_copy_from_byte_stream_result E property_list byte_stream
    byte_stream_size with h1 | h1 <;> rw [h1] at h <;> exact absurd h (by decide)

/-- C25: `libfplist_property_list_get_root_property` returns 0 and leaves
`*property` NULL when the property list has no dict tag, and otherwise returns
1 with a new property that has no key tag and whose value tag is the dict tag
of the list; and `libfplist_property_list_copy_from_byte_stream` makes the
root element the dict tag when the parsed root element is named "dict". -/
theorem libfplist_property_list_get_root_property_dict_tag {Tag : Type}
    (E : libfplist_environment Tag) :
    (∀ (property_list : libfplist_internal_property_list Tag),
        property_list.dict_tag = none →
        libfplist_property_list_get_root_property E (some property_list) (some none)
          = (0, some none))
      ∧ (∀ (property_list : libfplist_internal_property_list Tag) (dict_tag : Tag),
        property_list.dict_tag = some dict_tag →
        libfplist_property_list_get_root_property E (some property_list) (some none)
          = (1, some (some ⟨none, some dict_tag, LIBFPLIST_VALUE_TYPE_UNKNOWN⟩)))
      ∧ (∀ (property_list : libfplist_internal_property_list Tag) (byte_stream : List Nat)
          (byte_stream_size : Nat) (root_tag : Tag),
        property_list.dict_tag = none → property_list.root_tag = none →
        2 ≤ byte_stream_size → byte_stream_size ≤ INT_MAX →
        (E.xml_parser_parse_buffer property_list
          (libfplist_property_list_copy_from_byte_stream_buffer byte_stream
            byte_stream_size).1
          (libfplist_property_list_copy_from_byte_stream_buffer byte_stream
            byte_stream_size).2).1 ≠ -1 →
        (E.xml_parser_parse_buffer property_list
          (libfplist_property_list_copy_from_byte_stream_buffer byte_stream
            byte_stream_size).1
          (libfplist_property_list_copy_from_byte_stream_buffer byte_stream
            byte_stream_size).2).2.root_tag = some root_tag →
        E.libfplist_xml_tag_compare_name root_tag (narrow_string "dict") 4 = 1 →
        libfplist_property_list_copy_from_byte_stream E (some property_list)
            (some byte_stream) byte_stream_size
          = (1, some { (E.xml_parser_parse_buffer property_list
              (libfplist_property_list_copy_from_byte_stream_buffer byte_stream
                byte_stream_size).1
              (libfplist_property_list_copy_from_byte_stream_buffer byte_stream
                byte_stream_size).2).2 with dict_tag := some root_tag })) := by
  refine ⟨?_, ?_, ?_⟩
  · intro property_list h
    simp [libfplist_property_list_get_root_property, h]
  · intro property_list dict_tag h
    simp [libfplist_property_list_get_root_property, h, libfplist_property_initialize]
  · intro property_list byte_stream byte_stream_size root_tag hd hr h2 hmax hp hroot hc
    have hs : ¬ (byte_stream_size < 2 ∨ byte_stream_size > INT_MAX
        ∨ byte_stream_size > SSIZE_MAX) := by
      have : INT_MAX ≤ SSIZE_MAX := by decide
      omega
    unfold libfplist_property_list_copy_from_byte_stream
    simp only [hd, hr, Option.isSome_none, Bool.false_eq_true, if_false, if_neg hs, if_neg hp,
      hroot, hc]
    simp

/-- C25 at the stand-in: an empty property list has no root property; the
document `<d>` has the root element `d` named "dict", which becomes the dict
tag and the value tag of the root property. -/
theorem libfplist_property_list_get_root_property_dict_tag_witness :
    libfplist_property_list_get_root_property libfplist_environment_sample
        (some ⟨none, none, none⟩) (some none) = (0, some none)
      ∧ libfplist_property_list_get_root_property libfplist_environment_sample
        (some ⟨none, some 0x64, some 0x64⟩) (some none)
          = (1, some (some ⟨none, some 0x64, LIBFPLIST_VALUE_TYPE_UNKNOWN⟩))
      ∧ libfplist_property_list_copy_from_byte_stream libfplist_environment_sample
        (some ⟨none, none, none⟩) (some (narrow_string "<d>")) 3
          = (1, some ⟨none, some 0x64, some 0x64⟩) :=
  ⟨(libfplist_property_list_get_root_property_dict_tag libfplist_environment_sample).1
      ⟨none, none, none⟩ rfl,
   (libfplist_property_list_get_root_property_dict_tag libfplist_environment_sample).2.1
      ⟨none, some 0x64, some 0x64⟩ 0x64 rfl,
   (libfplist_property_list_get_root_property_dict_tag libfplist_environment_sample).2.2
      ⟨none, none, none⟩ (narrow_string "<d>") 3 0x64 rfl rfl (by decide) (by decide)
      (by decide) (by decide) (by decide)⟩

/-! ## The output of the finalization -/

theorem sha512_primes_eq :
    sha512_primes
      = [2, 3, 5, 7, 11, 13, 17, 19, 23, 29, 31, 37, 41, 43, 47, 53, 59, 61, 67, 71,
         73, 79, 83, 89, 97, 101, 103, 107, 109, 113, 127, 131, 137, 139, 149, 151, 157,
         163, 167, 173, 179, 181, 191, 193, 197, 199, 211, 223, 227, 229, 233, 239, 241,
         251, 257, 263, 269, 271, 277, 281, 283, 293, 307, 311, 313, 317, 331, 337, 347,
         349, 353, 359, 367, 373, 379, 383, 389, 397, 401, 409] := by
  have h : (fun n => decide (Nat.Prime n))
      = (fun n => @decide (Nat.Prime n) (Nat.decidablePrime1 n)) := by
    funext n
    congr
  unfold sha512_primes
  rw [h]
  decide

/-- C32: for every `i` in 0..79, `libhmac_sha512_prime_cube_roots[i]` holds
the first 64 bits of the fractional part of the cube root of the prime number
`i + 1`, where the 80 primes below 410 are counted from 2: with `c` the integer
part of the cube root and `n = c * 2^64 + K[i]`, `n^3 ≤ p * 2^192 < (n+1)^3`. -/
theorem libhmac_sha512_prime_cube_roots_fractions :
    sha512_primes.length = 80
      ∧ libhmac_sha512_prime_cube_roots.length = 80
      ∧ ∀ i, i < 80 →
        sha512_root_fraction 3 (sha512_primes.getD i 0)
          (libhmac_sha512_prime_cube_roots.getD i 0) := by
  rw [sha512_primes_eq]
  decide

theorem libhmac_sha512_prime_cube_roots_fractions_witness :
    sha512_primes.getD 79 0 = 409
      ∧ sha512_integer_root 3 409 = 7
      ∧ sha512_root_fraction 3 (sha512_primes.getD 79 0)
        (libhmac_sha512_prime_cube_roots.getD 79 0) :=
  ⟨by rw [sha512_primes_eq]; rfl, by decide,
   libhmac_sha512_prime_cube_roots_fractions.2.2 79 (by decide)⟩

/-- C33: for every `i` in 0..7, `libhmac_sha512_prime_square_roots[i]` holds
the first 64 bits of the fractional part of the square root of the prime number
`i + 1` (2, 3, 5, 7, 11, 13, 17, 19): with `c` the integer part of the square
root and `n = c * 2^64 + H[i]`, `n^2 ≤ p * 2^128 < (n+1)^2`. -/
theorem libhmac_sha512_prime_square_roots_fractions :
    sha512_primes.take 8 = [2, 3, 5, 7, 11, 13, 17, 19]
      ∧ libhmac_sha512_prime_square_roots.length = 8
      ∧ ∀ i, i < 8 →
        sha512_root_fraction 2 (sha512_primes.getD i 0)
          (libhmac_sha512_prime_square_roots.getD i 0) := by
  rw [sha512_primes_eq]
  decide

theorem libhmac_sha512_prime_square_roots_fractions_witness :
    sha512_primes.getD 7 0 = 19
      ∧ sha512_integer_root 2 19 = 4
      ∧ sha512_root_fraction 2 (sha512_primes.getD 7 0)
        (libhmac_sha512_prime_square_roots.getD 7 0) :=
  ⟨by rw [sha512_primes_eq]; rfl, by decide,
   libhmac_sha512_prime_square_roots_fractions.2.2 7 (by decide)⟩

/-! ## The block offset after an update -/

theorem libfplist_property_get_array_number_of_entries_loop_spec {Tag : Type}
    (E : libfplist_environment Tag) (value_tag : Tag) (elements : List Tag)
    (hg : ∀ (i : Nat) (tag : Tag), elements.get? i = some tag →
      E.libfplist_xml_tag_get_element value_tag (i : Int) = some tag)
    (hc : ∀ (tag : Tag) (name : List Nat) (name_length : Nat),
      E.libfplist_xml_tag_compare_name tag name name_length ≠ -1) :
    ∀ (rest before : List Tag) (number_of_nodes : Int) (turns : Nat),
      elements = before ++ rest → rest.length ≤ turns →
      libfplist_property_get_array_number_of_entries_loop E value_tag
          (elements.length : Int) turns (before.length : Int) number_of_nodes
        = (1, number_of_nodes
            + ((libfplist_array_entries_of_elements E rest).length : Int)) := by
  intro rest
  induction rest with
  | nil =>
    intro before number_of_nodes turns he _
    have hl : elements.length = before.length := by rw [he]; simp
    cases turns with
    | zero =>
      simp [libfplist_property_get_array_number_of_entries_loop,
        libfplist_array_entries_of_elements]
    | succ turns =>
      simp [libfplist_property_get_array_number_of_entries_loop,
        libfplist_array_entries_of_elements, hl]
  | cons tag rest ih =>
    intro before number_of_nodes turns he hlen
    cases turns with
    | zero => simp at hlen
    | succ turns =>
      have hlt : (before.length : Int) < (elements.length : Int) := by
        rw [he]; simp
      have hget : E.libfplist_xml_tag_get_element value_tag (before.length : Int) = some tag :=
        hg _ _ (by rw [he]; simp [List.getElem_append_right])
      have hstep : (((before ++ [tag]).length : Nat) : Int) = (before.length : Int) + 1 := by
        simp
      have hih := fun nodes => ih (before ++ [tag]) nodes turns (by rw [he]; simp)
        (by simpa using hlen)
      rw [hstep] at hih
      unfold libfplist_property_get_array_number_of_entries_loop
      rw [if_pos hlt, hget]
      dsimp only
      rw [if_neg (hc _ _ _)]
      by_cases hk : libfplist_xml_tag_is_not_text E tag = true
      · have hk2 := hk
        unfold libfplist_xml_tag_is_not_text at hk2
        rw [decide_eq_true_eq] at hk2
        rw [if_pos hk2, hih]
        simp only [libfplist_array_entries_of_elements, List.filter_cons, hk, if_true,
          List.length_cons, Nat.cast_add, Nat.cast_one]
        congr 1
        omega
      · have hk2 := hk
        unfold libfplist_xml_tag_is_not_text at hk2
        rw [decide_eq_true_eq] at hk2
        rw [if_neg hk2, hih]
        simp only [libfplist_array_entries_of_elements, List.filter_cons, hk, if_false]
        rfl

theorem libfplist_property_get_array_entry_by_index_loop_spec {Tag : Type}
    (E : libfplist_environment Tag) (value_tag : Tag) (elements : List Tag)
    (hg : ∀ (i : Nat) (tag : Tag), elements.get? i = some tag →
      E.libfplist_xml_tag_get_element value_tag (i : Int) = some tag)
    (hc : ∀ (tag : Tag) (name : List Nat) (name_length : Nat),
      E.libfplist_xml_tag_compare_name tag name name_length ≠ -1) :
    ∀ (rest before : List Tag) (entry_index : Nat) (found_tag : Option Tag) (turns : Nat),
      elements = before ++ rest → rest.length ≤ turns →
      ((libfplist_array_entries_of_elements E rest).get? entry_index = none →
        ∃ last_tag, libfplist_property_get_array_entry_by_index_loop E value_tag
          (elements.length : Int) turns (before.length : Int) (entry_index : Int) found_tag
            = (0, (elements.length : Int), last_tag))
      ∧ (∀ (found : Tag),
        (libfplist_array_entries_of_elements E rest).get? entry_index = some found →
        ∃ element_index : Int, element_index < (elements.length : Int)
          ∧ libfplist_property_get_array_entry_by_index_loop E value_tag
            (elements.length : Int) turns (before.length : Int) (entry_index : Int) found_tag
              = (0, element_index, some found)) := by
  intro rest
  induction rest with
  | nil =>
    intro before entry_index found_tag turns he _
    have hl : elements.length = before.length := by rw [he]; simp
    refine ⟨fun _ => ⟨found_tag, ?_⟩,
      fun found h => by simp [libfplist_array_entries_of_elements] at h⟩
    cases turns with
    | zero => simp [libfplist_property_get_array_entry_by_index_loop, hl]
    | succ turns => simp [libfplist_property_get_array_entry_by_index_loop, hl]
  | cons tag rest ih =>
    intro before entry_index found_tag turns he hlen
    cases turns with
    | zero => simp at hlen
    | succ turns =>
      have hlt : (before.length : Int) < (elements.length : Int) := by
        rw [he]; simp
      have hget : E.libfplist_xml_tag_get_element value_tag (before.length : Int) = some tag :=
        hg _ _ (by rw [he]; simp [List.getElem_append_right])
      have hstep : (((before ++ [tag]).length : Nat) : Int) = (before.length : Int) + 1 := by
        simp
      have hih := fun index => ih (before ++ [tag]) index (some tag) turns
        (by rw [he]; simp) (by simpa using hlen)
      rw [hstep] at hih
      unfold libfplist_property_get_array_entry_by_index_loop
      rw [if_pos hlt, hget]
      dsimp only
      rw [if_neg (hc _ _ _)]
      by_cases hk : libfplist_xml_tag_is_not_text E tag = true
      · have hk2 := hk
        unfold libfplist_xml_tag_is_not_text at hk2
        rw [decide_eq_true_eq] at hk2
        rw [if_pos hk2]
        simp only [libfplist_array_entries_of_elements, List.filter_cons, hk, if_true]
        cases entry_index with
        | zero =>
          simp only [Nat.cast_zero, if_true, List.get?_cons_zero]
          refine ⟨fun h => by simp at h, ?_⟩
          intro found h
          injection h with h1
          subst h1
          exact ⟨_, hlt, rfl⟩
        | succ index =>
          have hne : ¬ (((index + 1 : Nat) : Int) = 0) := by omega
          have hsub : (((index + 1 : Nat) : Int) - 1) = (index : Int) := by omega
          rw [if_neg hne, hsub]
          simp only [List.get?_cons_succ]
          exact hih index
      · have hk2 := hk
        unfold libfplist_xml_tag_is_not_text at hk2
        rw [decide_eq_true_eq] at hk2
        rw [if_neg hk2]
        simp only [libfplist_array_entries_of_elements, List.filter_cons, hk, if_false]
        exact hih entry_index

/-- C35: for an array property whose value tag has the child elements
`elements`, `libfplist_property_get_array_number_of_entries` returns 1 and
gives the number `c` of children not named "text"; for every index `i ≥ 0`,
`libfplist_property_get_array_entry_by_index` returns 1 when `i < c`, with an
entry without key tag whose value tag is child `i` (from 0, in the order of the
document) among those not named "text", and returns 0 when `i ≥ c`; a negative
index returns -1. -/
theorem libfplist_property_get_array_entries {Tag : Type}
    (E : libfplist_environment Tag) (internal_property : libfplist_internal_property Tag)
    (value_tag : Tag) (elements : List Tag)
    (hv : internal_property.value_tag = some value_tag)
    (ht : internal_property.value_type = LIBFPLIST_VALUE_TYPE_ARRAY
      ∨ (internal_property.value_type = LIBFPLIST_VALUE_TYPE_UNKNOWN
        ∧ E.libfplist_xml_tag_get_value_type value_tag LIBFPLIST_VALUE_TYPE_UNKNOWN
          = (1, LIBFPLIST_VALUE_TYPE_ARRAY)))
    (hn : E.libfplist_xml_tag_get_number_of_elements value_tag = (1, (elements.length : Int)))
    (hg : ∀ (i : Nat) (tag : Tag), elements.get? i = some tag →
      E.libfplist_xml_tag_get_element value_tag (i : Int) = some tag)
    (hc : ∀ (tag : Tag) (name : List Nat) (name_length : Nat),
      E.libfplist_xml_tag_compare_name tag name name_length ≠ -1) :
    (∀ entries : Int,
        (libfplist_property_get_array_number_of_entries E (some internal_property)
          (some entries)).1 = 1
        ∧ (libfplist_property_get_array_number_of_entries E (some internal_property)
          (some entries)).2.2
            = some ((libfplist_array_entries_of_elements E elements).length : Int))
      ∧ (∀ i : Nat,
        (libfplist_property_get_array_entry_by_index E (some internal_property) (i : Int)
            (some none)).1
          = (if i < (libfplist_array_entries_of_elements E elements).length then 1 else 0)
        ∧ (libfplist_property_get_array_entry_by_index E (some internal_property) (i : Int)
            (some none)).2.2
          = some (((libfplist_array_entries_of_elements E elements).get? i).map
              (fun tag => ⟨none, some tag, LIBFPLIST_VALUE_TYPE_UNKNOWN⟩)))
      ∧ (∀ (i : Int) (array_entry : Option (Option (libfplist_internal_property Tag))),
        i < 0 →
        (libfplist_property_get_array_entry_by_index E (some internal_property) i
          array_entry).1 = -1) := by
  have hr : (if internal_property.value_type = LIBFPLIST_VALUE_TYPE_UNKNOWN then
        E.libfplist_xml_tag_get_value_type value_tag internal_property.value_type
      else (1, internal_property.value_type)) = (1, LIBFPLIST_VALUE_TYPE_ARRAY) := by
    rcases ht with h | ⟨h, h2⟩
    · rw [h, if_neg (by decide)]
    · rw [h, if_pos rfl, h2]
  refine ⟨?_, ?_, ?_⟩
  · intro entries
    have hloop := libfplist_property_get_array_number_of_entries_loop_spec E value_tag elements
      hg hc elements [] 0 elements.length rfl (le_refl _)
    simp only [List.length_nil, Nat.cast_zero, zero_add] at hloop
    unfold libfplist_property_get_array_number_of_entries
    simp only [hv, hr, hn, Int.toNat_ofNat, ne_eq, not_true_eq_false, if_false, hloop]
    simp
  · intro i
    have hloop := libfplist_property_get_array_entry_by_index_loop_spec E value_tag elements
      hg hc elements [] i none elements.length rfl (le_refl _)
    simp only [List.length_nil, Nat.cast_zero] at hloop
    have hi : ¬ ((i : Int) < 0) := by omega
    unfold libfplist_property_get_array_entry_by_index
    simp only [hv, if_neg hi, hr, hn, Int.toNat_ofNat, ne_eq, not_true_eq_false, if_false]
    cases hf : (libfplist_array_entries_of_elements E elements).get? i with
    | none =>
      obtain ⟨last_tag, h1⟩ := hloop.1 hf
      rw [h1]
      have hge : ¬ (i < (libfplist_array_entries_of_elements E elements).length) := by
        rw [List.get?_eq_none] at hf
        omega
      simp [hge]
    | some found =>
      obtain ⟨element_index, hlt, h1⟩ := hloop.2 found hf
      rw [h1]
      have hlt2 : ¬ (element_index ≥ (elements.length : Int)) := by omega
      have hin : i < (libfplist_array_entries_of_elements E elements).length := by
        by_contra hge
        have := List.get?_eq_none.mpr (Nat.le_of_not_lt hge)
        rw [this] at hf
        exact absurd hf (by simp)
      simp only [show ((0 : Int) = -1) = False from by decide, if_false, if_neg hlt2, if_pos hin]
      simp [ libfplist_property_initialize]
  · intro i array_entry hi
    unfold libfplist_property_get_array_entry_by_index
    simp only [hv, if_pos hi]

/-- C35 at the stand-in, for the array `a` with the children text, string `s`,
text, integer `i`, text: there are 2 entries, `s` and `i`; index 2 gives 0 and
index -1 gives -1. -/
theorem libfplist_property_get_array_entries_witness :
    ((∀ entries : Int,
        (libfplist_property_get_array_number_of_entries libfplist_environment_sample
          (some ⟨none, some 0x61, LIBFPLIST_VALUE_TYPE_UNKNOWN⟩) (some entries)).1 = 1
        ∧ (libfplist_property_get_array_number_of_entries libfplist_environment_sample
          (some ⟨none, some 0x61, LIBFPLIST_VALUE_TYPE_UNKNOWN⟩) (some entries)).2.2
            = some ((libfplist_array_entries_of_elements libfplist_environment_sample
                [0x74, 0x73, 0x74, 0x69, 0x74]).length : Int))
      ∧ (∀ i : Nat,
        (libfplist_property_get_array_entry_by_index libfplist_environment_sample
            (some ⟨none, some 0x61, LIBFPLIST_VALUE_TYPE_UNKNOWN⟩) (i : Int) (some none)).1
          = (if i < (libfplist_array_entries_of_elements libfplist_environment_sample
                [0x74, 0x73, 0x74, 0x69, 0x74]).length then 1 else 0)
        ∧ (libfplist_property_get_array_entry_by_index libfplist_environment_sample
            (some ⟨none, some 0x61, LIBFPLIST_VALUE_TYPE_UNKNOWN⟩) (i : Int) (some none)).2.2
          = some (((libfplist_array_entries_of_elements libfplist_environment_sample
                [0x74, 0x73, 0x74, 0x69, 0x74]).get? i).map
              (fun tag => ⟨none, some tag, LIBFPLIST_VALUE_TYPE_UNKNOWN⟩)))
      ∧ (∀ (i : Int) (array_entry : Option (Option (libfplist_internal_property Nat))),
        i < 0 →
        (libfplist_property_get_array_entry_by_index libfplist_environment_sample
          (some ⟨none, some 0x61, LIBFPLIST_VALUE_TYPE_UNKNOWN⟩) i array_entry).1 = -1))
    ∧ libfplist_array_entries_of_elements libfplist_environment_sample
        [0x74, 0x73, 0x74, 0x69, 0x74] = [0x73, 0x69]
    ∧ libfplist_property_get_array_number_of_entries libfplist_environment_sample
        (some ⟨none, some 0x61, LIBFPLIST_VALUE_TYPE_UNKNOWN⟩) (some 0)
      = (1, some ⟨none, some 0x61, LIBFPLIST_VALUE_TYPE_ARRAY⟩, some 2)
    ∧ libfplist_property_get_array_entry_by_index libfplist_environment_sample
        (some ⟨none, some 0x61, LIBFPLIST_VALUE_TYPE_UNKNOWN⟩) 1 (some none)
      = (1, some ⟨none, some 0x61, LIBFPLIST_VALUE_TYPE_ARRAY⟩,
          some (some ⟨none, some 0x69, LIBFPLIST_VALUE_TYPE_UNKNOWN⟩))
    ∧ (libfplist_property_get_array_entry_by_index libfplist_environment_sample
        (some ⟨none, some 0x61, LIBFPLIST_VALUE_TYPE_UNKNOWN⟩) 2 (some none)).1 = 0
    ∧ (libfplist_property_get_array_entry_by_index libfplist_environment_sample
        (some ⟨none, some 0x61, LIBFPLIST_VALUE_TYPE_UNKNOWN⟩) (-1) (some none)).1 = -1 :=
  ⟨libfplist_property_get_array_entries libfplist_environment_sample
      ⟨none, some 0x61, LIBFPLIST_VALUE_TYPE_UNKNOWN⟩ 0x61 [0x74, 0x73, 0x74, 0x69, 0x74] rfl
      (Or.inr ⟨rfl, by decide⟩) (by decide)
      (by
        intro i tag h
        simp only [libfplist_environment_sample, libfplist_xml_tag_sample]
        simpa using h)
      (by
        intro tag name name_length
        simp only [libfplist_environment_sample]
        split <;> decide),
   by decide, by decide, by decide, by decide, by decide⟩

/-! ## The buffer of the parser -/

theorem libfplist_property_list_copy_from_byte_stream_loop_spec {Tag : Type}
    (E : libfplist_environment Tag) (root_tag : Tag) (elements : List Tag)
    (hg : ∀ (i : Nat) (tag : Tag), elements.get? i = some tag →
      E.libfplist_xml_tag_get_element root_tag (i : Int) = some tag)
    (hc : ∀ (tag : Tag) (name : List Nat) (name_length : Nat),
      E.libfplist_xml_tag_compare_name tag name name_length ≠ -1)
    (hnames : ∀ tag : Tag,
      E.libfplist_xml_tag_compare_name tag (narrow_string "text") 4 ≠ 0 →
      E.libfplist_xml_tag_compare_name tag (narrow_string "dict") 4 = 0) :
    ∀ (rest before : List Tag) (internal_property_list : libfplist_internal_property_list Tag)
      (turns : Nat),
      elements = before ++ rest → rest.length ≤ turns →
      libfplist_property_list_copy_from_byte_stream_loop E root_tag (elements.length : Int)
          turns (before.length : Int) internal_property_list
        = (1, { internal_property_list with
            dict_tag :=
              match libfplist_dict_tag_of_elements E rest with
              | some dict_tag => some dict_tag
              | none => internal_property_list.dict_tag }) := by
  intro rest
  induction rest with
  | nil =>
    intro before internal_property_list turns he _
    have hl : elements.length = before.length := by rw [he]; simp
    cases turns with
    | zero =>
      simp [libfplist_property_list_copy_from_byte_stream_loop, libfplist_dict_tag_of_elements]
    | succ turns =>
      simp [libfplist_property_list_copy_from_byte_stream_loop, libfplist_dict_tag_of_elements,
        hl]
  | cons tag rest ih =>
    intro before internal_property_list turns he hlen
    cases turns with
    | zero => simp at hlen
    | succ turns =>
      have hlt : (before.length : Int) < (elements.length : Int) := by
        rw [he]; simp
      have hget : E.libfplist_xml_tag_get_element root_tag (before.length : Int) = some tag :=
        hg _ _ (by rw [he]; simp [List.getElem_append_right])
      have hstep : (((before ++ [tag]).length : Nat) : Int) = (before.length : Int) + 1 := by
        simp
      have hih := fun list => ih (before ++ [tag]) list turns (by rw [he]; simp)
        (by simpa using hlen)
      rw [hstep] at hih
      unfold libfplist_property_list_copy_from_byte_stream_loop
      rw [if_pos hlt, hget]
      dsimp only
      rw [if_neg (hc _ _ _)]
      by_cases ht : E.libfplist_xml_tag_compare_name tag (narrow_string "text") 4 = 0
      · have hnt : libfplist_xml_tag_is_not_text E tag = true := by
          simp [libfplist_xml_tag_is_not_text, ht]
        rw [if_neg (by simpa using ht), if_neg (hc _ _ _)]
        by_cases hd : E.libfplist_xml_tag_compare_name tag (narrow_string "dict") 4 = 0
        · have hnd : libfplist_xml_tag_is_dict E tag = false := by
            simp [libfplist_xml_tag_is_dict, hd]
          rw [if_neg (by simpa using hd)]
          simp [libfplist_dict_tag_of_elements, List.takeWhile, hnt, hnd]
        · have hnd : libfplist_xml_tag_is_dict E tag = true := by
            simp [libfplist_xml_tag_is_dict, hd]
          rw [if_pos hd, hih]
          simp only [libfplist_dict_tag_of_elements, List.takeWhile, hnt, hnd, Bool.not_true,
            Bool.false_or, List.filter_cons, if_true]
          rw [List.getLast?_cons]
          cases (List.filter (libfplist_xml_tag_is_dict E)
            (List.takeWhile
              (fun tag => !(libfplist_xml_tag_is_not_text E tag)
                || libfplist_xml_tag_is_dict E tag) rest)).getLast? <;> rfl
      · have hnt : libfplist_xml_tag_is_not_text E tag = false := by
          simp [libfplist_xml_tag_is_not_text, ht]
        have hnd : libfplist_xml_tag_is_dict E tag = false := by
          simp [libfplist_xml_tag_is_dict, hnames tag ht]
        rw [if_pos ht, hih]
        simp [libfplist_dict_tag_of_elements, List.takeWhile, hnt, hnd]

theorem libfplist_dict_tag_of_elements_none {Tag : Type} (E : libfplist_environment Tag)
    (hnames : ∀ tag : Tag,
      E.libfplist_xml_tag_compare_name tag (narrow_string "text") 4 ≠ 0 →
      E.libfplist_xml_tag_compare_name tag (narrow_string "dict") 4 = 0) :
    ∀ (elements : List Tag) (first : Tag),
      elements.find? (libfplist_xml_tag_is_not_text E) = some first →
      libfplist_xml_tag_is_dict E first = false →
      libfplist_dict_tag_of_elements E elements = none := by
  intro elements
  induction elements with
  | nil => intro first h; simp at h
  | cons tag rest ih =>
    intro first h hd
    by_cases hnt : libfplist_xml_tag_is_not_text E tag = true
    · simp only [List.find?, hnt] at h
      injection h with h1
      subst h1
      simp [libfplist_dict_tag_of_elements, List.takeWhile, hnt, hd]
    · have hnt2 : libfplist_xml_tag_is_not_text E tag = false := by simpa using hnt
      simp only [List.find?, hnt2] at h
      have ht : E.libfplist_xml_tag_compare_name tag (narrow_string "text") 4 ≠ 0 := by
        simpa [libfplist_xml_tag_is_not_text] using hnt2
      have hnd : libfplist_xml_tag_is_dict E tag = false := by
        simp [libfplist_xml_tag_is_dict, hnames tag ht]
      have := ih first h hd
      simp only [libfplist_dict_tag_of_elements] at this
      simp [libfplist_dict_tag_of_elements, List.takeWhile, hnt2, hnd, this]

/-- C37: when the parsed root element is named "plist" and not "dict", and
has the child elements `elements`, `libfplist_property_list_copy_from_byte_stream`
returns 1, makes the root element the plist tag, and sets the dict tag to the
last child named "dict" within the longest leading run of children named
"text" or "dict"; when the first child not named "text" is not named "dict",
there is no such child and the dict tag stays unset. -/
theorem libfplist_property_list_copy_from_byte_stream_plist {Tag : Type}
    (E : libfplist_environment Tag) (property_list : libfplist_internal_property_list Tag)
    (byte_stream : List Nat) (byte_stream_size : Nat) (root_tag : Tag) (elements : List Tag)
    (hd : property_list.dict_tag = none) (hr : property_list.root_tag = none)
    (h2 : 2 ≤ byte_stream_size) (hmax : byte_stream_size ≤ INT_MAX)
    (hp : (E.xml_parser_parse_buffer property_list
      (libfplist_property_list_copy_from_byte_stream_buffer byte_stream byte_stream_size).1
      (libfplist_property_list_copy_from_byte_stream_buffer byte_stream byte_stream_size).2).1
        ≠ -1)
    (hroot : (E.xml_parser_parse_buffer property_list
      (libfplist_property_list_copy_from_byte_stream_buffer byte_stream byte_stream_size).1
      (libfplist_property_list_copy_from_byte_stream_buffer byte_stream byte_stream_size).2).2.root_tag
        = some root_tag)
    (hpd : (E.xml_parser_parse_buffer property_list
      (libfplist_property_list_copy_from_byte_stream_buffer byte_stream byte_stream_size).1
      (libfplist_property_list_copy_from_byte_stream_buffer byte_stream byte_stream_size).2).2.dict_tag
        = none)
    (hdict : E.libfplist_xml_tag_compare_name root_tag (narrow_string "dict") 4 = 0)
    (hplist : E.libfplist_xml_tag_compare_name root_tag (narrow_string "plist") 5 = 1)
    (hn : E.libfplist_xml_tag_get_number_of_elements root_tag = (1, (elements.length : Int)))
    (hg : ∀ (i : Nat) (tag : Tag), elements.get? i = some tag →
      E.libfplist_xml_tag_get_element root_tag (i : Int) = some tag)
    (hc : ∀ (tag : Tag) (name : List Nat) (name_length : Nat),
      E.libfplist_xml_tag_compare_name tag name name_length ≠ -1)
    (hnames : ∀ tag : Tag,
      E.libfplist_xml_tag_compare_name tag (narrow_string "text") 4 ≠ 0 →
      E.libfplist_xml_tag_compare_name tag (narrow_string "dict") 4 = 0) :
    libfplist_property_list_copy_from_byte_stream E (some property_list) (some byte_stream)
        byte_stream_size
      = (1, some { (E.xml_parser_parse_buffer property_list
          (libfplist_property_list_copy_from_byte_stream_buffer byte_stream
            byte_stream_size).1
          (libfplist_property_list_copy_from_byte_stream_buffer byte_stream
            byte_stream_size).2).2 with
            plist_tag := some root_tag
            dict_tag := libfplist_dict_tag_of_elements E elements })
    ∧ (∀ first : Tag, elements.find? (libfplist_xml_tag_is_not_text E) = some first →
        libfplist_xml_tag_is_dict E first = false →
        libfplist_dict_tag_of_elements E elements = none) := by
  refine ⟨?_, libfplist_dict_tag_of_elements_none E hnames elements⟩
  have hs : ¬ (byte_stream_size < 2 ∨ byte_stream_size > INT_MAX
      ∨ byte_stream_size > SSIZE_MAX) := by
    have : INT_MAX ≤ SSIZE_MAX := by decide
    omega
  have hloop := fun list => libfplist_property_list_copy_from_byte_stream_loop_spec E root_tag
    elements hg hc hnames elements [] list elements.length rfl (le_refl _)
  simp only [List.length_nil, Nat.cast_zero] at hloop
  unfold libfplist_property_list_copy_from_byte_stream
  simp only [hd, hr, Option.isSome_none, Bool.false_eq_true, if_false, if_neg hs, if_neg hp,
    hroot, hdict, hplist, hn, Int.toNat_ofNat, hloop, hpd]
  simp only [show ((0 : Int) = -1) = False from by decide,
    show ((0 : Int) = 1) = False from by decide,
    show ((1 : Int) = -1) = False from by decide, if_false, if_true, ne_eq, not_true_eq_false]
  congr 2
  cases libfplist_dict_tag_of_elements E elements <;> rfl

/-- C37 at the stand-in: the document `<p>` has the root element `p` named
"plist" with the children text, dict `d`, text: `d` becomes the dict tag. -/
theorem libfplist_property_list_copy_from_byte_stream_plist_witness :
    (libfplist_property_list_copy_from_byte_stream libfplist_environment_sample
        (some ⟨none, none, none⟩) (some (narrow_string "<p>")) 3
      = (1, some { (libfplist_environment_sample.xml_parser_parse_buffer ⟨none, none, none⟩
          (libfplist_property_list_copy_from_byte_stream_buffer (narrow_string "<p>") 3).1
          (libfplist_property_list_copy_from_byte_stream_buffer (narrow_string "<p>") 3).2).2 with
            plist_tag := some 0x70
            dict_tag := libfplist_dict_tag_of_elements libfplist_environment_sample
              [0x74, 0x64, 0x74] })
      ∧ (∀ first : Nat,
        [0x74, 0x64, 0x74].find? (libfplist_xml_tag_is_not_text libfplist_environment_sample)
          = some first →
        libfplist_xml_tag_is_dict libfplist_environment_sample first = false →
        libfplist_dict_tag_of_elements libfplist_environment_sample [0x74, 0x64, 0x74] = none))
      ∧ libfplist_property_list_copy_from_byte_stream libfplist_environment_sample
          (some ⟨none, none, none⟩) (some (narrow_string "<p>")) 3
        = (1, some ⟨some 0x70, some 0x70, some 0x64⟩) :=
  ⟨libfplist_property_list_copy_from_byte_stream_plist libfplist_environment_sample
      ⟨none, none, none⟩ (narrow_string "<p>") 3 0x70 [0x74, 0x64, 0x74] rfl rfl (by decide)
      (by decide) (by decide) (by decide) (by decide) (by decide) (by decide) (by decide)
      (by
        intro i tag h
        simp only [libfplist_environment_sample, libfplist_xml_tag_sample]
        simpa using h)
      (by
        intro tag name name_length
        simp only [libfplist_environment_sample]
        split <;> decide)
      (by
        intro tag h
        simp only [libfplist_environment_sample] at h ⊢
        split at h
        · rename_i e
          rw [e]
          decide
        · exact absurd rfl h),
   by decide⟩

/-! ## The backtrace of an error -/

